import Mathlib

/-!
# Beginners-Guide-to-SDL3-in-Cpp: the final stage (`src/main.cpp`)

A shallow embedding of `class Game` of `src/main.cpp` and theorems about it.

Modelling conventions.

* `SDL_FRect` fields and the two text velocities are `float` in the source.
  Every value the program stores in them is an integer (positions start at 0
  and change by 3 or 5, sizes are integer pixel dimensions cast to `float`,
  the window is 800 by 600), so a `float` is modelled by the integer it
  holds.  A `float` sum or difference is the exact one rounded to the nearest
  binary32 value, ties to even (`toFloat`, `floatAdd`, `floatSub`): exact up
  to magnitude 2^24, to a multiple of 2, 4, 8, ... above.  Comparisons are
  exact.  Overflow to infinity (magnitudes from 2^128 on) is not modelled.
* Calls into SDL, SDL_image, SDL_ttf and SDL_mixer are recorded, in call
  order, in the ghost field `Game.calls` (`SDL_PollEvent` excepted, for which
  the queue of `events` stands); the libraries themselves are outside the
  repository.  What a fallible library call answers, the pixel sizes of
  the decoded assets, the values the seeded generator delivers and the order
  in which the compiler evaluates function arguments are parameters (`Env`).
-/

namespace SDL3Game

/-! ## Constants (`src/main.cpp` lines 11-23 and the SDL headers) -/

/-- Source constant `WINDOW_WIDTH`. -/
def WINDOW_WIDTH : Int := 800
/-- Source constant `WINDOW_HEIGHT`. -/
def WINDOW_HEIGHT : Int := 600
/-- Source constant `TEXT_VEL`. -/
def TEXT_VEL : Int := 3
/-- Source constant `SPRITE_VEL`. -/
def SPRITE_VEL : Int := 5

/-- Scancode values of `SDL_scancode.h`. -/
def SDL_SCANCODE_A : Nat := 4
def SDL_SCANCODE_D : Nat := 7
def SDL_SCANCODE_S : Nat := 22
def SDL_SCANCODE_W : Nat := 26
def SDL_SCANCODE_ESCAPE : Nat := 41
def SDL_SCANCODE_SPACE : Nat := 44
def SDL_SCANCODE_RIGHT : Nat := 79
def SDL_SCANCODE_LEFT : Nat := 80
def SDL_SCANCODE_DOWN : Nat := 81
def SDL_SCANCODE_UP : Nat := 82

/-- Event type values of `SDL_events.h`. -/
def SDL_EVENT_QUIT : Nat := 0x100
def SDL_EVENT_KEY_DOWN : Nat := 0x300
def SDL_EVENT_KEY_UP : Nat := 0x301

/-! ## `float` arithmetic on integer values -/

/-- The spacing of the binary32 values around the natural number `n`: 1 below
2^24 and doubled with every further bit (binary32 has a 24-bit significand).
The first argument bounds the number of doublings; 104 of them reach 2^128,
the end of the finite binary32 range. -/
def ulpAux : Nat → Nat → Nat
  | 0, _ => 1
  | fuel + 1, n => if n < 16777216 then 1 else 2 * ulpAux fuel (n / 2)

/-- The spacing of the binary32 values around `n`. -/
def ulp (n : Nat) : Nat := ulpAux 104 n

/-- The binary32 value nearest to the natural number `n`, a tie going to the
value with the even significand (the default rounding of IEEE 754). -/
def roundNat (n : Nat) : Nat :=
  if 2 * (n % ulp n) < ulp n then n / ulp n * ulp n
  else if 2 * (n % ulp n) = ulp n ∧ n / ulp n % 2 = 0 then n / ulp n * ulp n
  else (n / ulp n + 1) * ulp n

/-- The `float` an integer result is stored as: the nearest binary32 value. -/
def toFloat (z : Int) : Int :=
  if 0 ≤ z then (roundNat z.toNat : Int) else -(roundNat (-z).toNat : Int)

/-- The `float` sum `a + b` of two integer-valued `float`s. -/
def floatAdd (a b : Int) : Int := toFloat (a + b)

/-- The `float` difference `a - b` of two integer-valued `float`s. -/
def floatSub (a b : Int) : Int := toFloat (a - b)

/-! ## Data model -/

/-- The rectangle `SDL_FRect` (position and size). -/
structure SDL_FRect where
  x : Int
  y : Int
  w : Int
  h : Int
  deriving DecidableEq, Repr

/-- The part of `SDL_Event` the program reads: `event.type` and
`event.key.scancode`. -/
structure SDL_Event where
  type : Nat
  scancode : Nat
  deriving DecidableEq, Repr

/-- The native resources the program acquires: the nine owned by members of
`Game` and the two transient ones of `loadMedia` (`font`, `text_surf`). -/
inductive Res where
  | window | renderer | icon_surf | background | font | text_surf
  | text_image | sprite_image | cpp_sound | sdl_sound | music
  deriving DecidableEq, Repr

/-- The library calls that can fail, one per check in `initSdl`, `loadMedia`
and `run`. -/
inductive Step where
  | SDL_Init | TTF_Init | Mix_Init | Mix_OpenAudio
  | create (r : Res)
  | SDL_GetTextureSize
  | Mix_PlayMusic
  deriving DecidableEq, Repr

/-- A call into the media libraries, with the arguments and the answer that
matter.  `create r ok` is the loader or constructor of resource `r`
(`SDL_CreateWindow`, `IMG_Load`, `Mix_LoadWAV`, ...), `destroy r` the deleter
its `unique_ptr` was given, `SDL_GetError` the call that fetches the text of
the last error for the message of an exception. A pointer argument is `none`
when null.  `SDL_PollEvent` is not recorded: it is the step of `events` that
takes the head of the queue. -/
inductive Call where
  | SDL_GetKeyboardState
  | SDL_Init (ok : Bool)
  | TTF_Init (ok : Bool)
  | Mix_Init (ok : Bool)
  | Mix_OpenAudio (ok : Bool)
  | create (r : Res) (ok : Bool)
  | destroy (r : Res)
  | SDL_SetWindowIcon
  | SDL_GetTextureSize (ok : Bool)
  | SDL_GetError
  | Mix_HaltChannel
  | Mix_HaltMusic
  | Mix_CloseAudio
  | Mix_Quit
  | TTF_Quit
  | SDL_Quit
  | Mix_PlayMusic (ok : Bool)
  | Mix_PlayChannel (chunk : Option Res)
  | SDL_SetRenderDrawColor (r g b a : Nat)
  | SDL_RenderClear
  | SDL_RenderTexture (texture : Option Res) (dst : Option SDL_FRect)
  | SDL_RenderPresent
  | SDL_Delay (ms : Nat)
  deriving DecidableEq, Repr

/-- The order in which the three `rand_color(gen)` arguments of the call in
`renderColor` are evaluated: the name lists the channels from the one
evaluated first to the one evaluated last.  C++ does not fix the order of
evaluation of function arguments; `rgb` is left to right, `bgr` right to
left. -/
inductive ArgOrder where
  | rgb | rbg | grb | gbr | brg | bgr
  deriving DecidableEq, Repr

/-- What the surroundings of the program decide. -/
structure Env where
  /-- Whether a fallible library call fails. -/
  fails : Step → Bool
  /-- Width of the rendered text surface as `loadMedia` stores it,
  `static_cast<float>(text_surf->w)`. -/
  text_w : Int
  /-- Height of the rendered text surface as `loadMedia` stores it,
  `static_cast<float>(text_surf->h)`. -/
  text_h : Int
  /-- Width `SDL_GetTextureSize` reports for the sprite texture. -/
  sprite_w : Int
  /-- Height `SDL_GetTextureSize` reports for the sprite texture. -/
  sprite_h : Int
  /-- The value the seeded `gen` makes `rand_color` deliver at its k-th use
  (k from 0), before narrowing to `Uint8`. -/
  sample : Nat → Nat
  /-- Evaluation order of the arguments in `renderColor`. -/
  argOrder : ArgOrder

/-- The members of `class Game` (lines 62-82), with the trace of library
calls as a ghost field. A `unique_ptr` member is `none` when null. `gen` is
the number of values taken from the generator since it was seeded; `event`
is only the buffer of `SDL_PollEvent` and `keystate` points into SDL, so
they are parameters of `events` and `updateSprite`. -/
structure Game where
  is_running : Bool
  gen : Nat
  text_rect : SDL_FRect
  text_xvel : Int
  text_yvel : Int
  sprite_rect : SDL_FRect
  window : Option Res
  renderer : Option Res
  background : Option Res
  text_image : Option Res
  icon_surf : Option Res
  sprite_image : Option Res
  cpp_sound : Option Res
  sdl_sound : Option Res
  music : Option Res
  calls : List Call
  deriving DecidableEq, Repr

/-- Record one library call. -/
def Game.call (g : Game) (c : Call) : Game :=
  { g with calls := g.calls ++ [c] }

/-- The constructor `Game::Game()` (lines 27-45): the member initialisers;
the one of `keystate` calls `SDL_GetKeyboardState`. -/
def Game.new : Game :=
  { is_running := true
    gen := 0
    text_rect := ⟨0, 0, 0, 0⟩
    text_xvel := TEXT_VEL
    text_yvel := TEXT_VEL
    sprite_rect := ⟨0, 0, 0, 0⟩
    window := none
    renderer := none
    background := none
    text_image := none
    icon_surf := none
    sprite_image := none
    cpp_sound := none
    sdl_sound := none
    music := none
    calls := [Call.SDL_GetKeyboardState] }

/-! ## Startup and teardown (lines 85-229) -/

/-- How a member function that can throw `std::runtime_error` ends: it
returns, or it throws with a message, in either case leaving a state.  The
message is the fixed text of the `std::format` call; the text `SDL_GetError`
supplies for the `{}` is the library's and is left out, the call itself is
recorded in the trace. -/
inductive Outcome where
  | returned (g : Game)
  | threw (msg : String) (g : Game)
  deriving DecidableEq, Repr

/-- What the loader of resource `r` answers: the resource, or null when the
call fails. -/
def loaded (env : Env) (r : Res) : Option Res :=
  if env.fails (Step.create r) then none else some r

/-- The deleter call a `unique_ptr` makes when it gives up its pointer:
none when the pointer is null. -/
def deleterCalls (p : Option Res) : List Call :=
  match p with
  | some r => [Call.destroy r]
  | none => []

/-- `Game::initSdl`, lines 146-151: load the icon surface and set it as the
window icon. Each `reset(p)` stores the new pointer and runs the deleter on
the old one when it is not null. -/
def loadIcon (env : Env) (g : Game) : Outcome :=
  let g := g.call (Call.create Res.icon_surf (!env.fails (Step.create Res.icon_surf)))
  let g := { g with calls := g.calls ++ deleterCalls g.icon_surf,
                    icon_surf := loaded env Res.icon_surf }
  if g.icon_surf = none then
    Outcome.threw "Error loading Surface: " (g.call Call.SDL_GetError) else
  Outcome.returned (g.call Call.SDL_SetWindowIcon)

/-- `Game::initSdl`, lines 140-151: create the renderer, then the rest. -/
def createRenderer (env : Env) (g : Game) : Outcome :=
  let g := g.call (Call.create Res.renderer (!env.fails (Step.create Res.renderer)))
  let g := { g with calls := g.calls ++ deleterCalls g.renderer,
                    renderer := loaded env Res.renderer }
  if g.renderer = none then
    Outcome.threw "Error creating Renderer: " (g.call Call.SDL_GetError) else
  loadIcon env g

/-- `Game::initSdl`, lines 133-151: create the window, then the rest. -/
def createWindow (env : Env) (g : Game) : Outcome :=
  let g := g.call (Call.create Res.window (!env.fails (Step.create Res.window)))
  let g := { g with calls := g.calls ++ deleterCalls g.window, window := loaded env Res.window }
  if g.window = none then
    Outcome.threw "Error creating Window: " (g.call Call.SDL_GetError) else
  createRenderer env g

/-- `Game::initSdl`, lines 123-151: open the audio device, then the rest. -/
def openAudio (env : Env) (g : Game) : Outcome :=
  let g := g.call (Call.Mix_OpenAudio (!env.fails Step.Mix_OpenAudio))
  if env.fails Step.Mix_OpenAudio then
    Outcome.threw "Error Opening Audio: " (g.call Call.SDL_GetError) else
  createWindow env g

/-- `Game::initSdl`, lines 117-151: init the mixer, then the rest. -/
def initMixer (env : Env) (g : Game) : Outcome :=
  let g := g.call (Call.Mix_Init (!env.fails Step.Mix_Init))
  if env.fails Step.Mix_Init then
    Outcome.threw "Error initialize SDL_mixer: " (g.call Call.SDL_GetError) else
  openAudio env g

/-- `Game::initSdl`, lines 111-151: init SDL_ttf, then the rest. -/
def initTtf (env : Env) (g : Game) : Outcome :=
  let g := g.call (Call.TTF_Init (!env.fails Step.TTF_Init))
  if env.fails Step.TTF_Init then
    Outcome.threw "Error initialize SDL_ttf: " (g.call Call.SDL_GetError) else
  initMixer env g

/-- `Game::initSdl` (lines 105-152): init SDL, then the rest of the body, one
definition per check of the source.  Every failure branch calls
`SDL_GetError` for the message and throws. -/
def initSdl (env : Env) (g : Game) : Outcome :=
  let g := g.call (Call.SDL_Init (!env.fails Step.SDL_Init))
  if env.fails Step.SDL_Init then
    Outcome.threw "Error initialize SDL2: " (g.call Call.SDL_GetError) else
  initTtf env g

/-- Leaving the scope of `Game::loadMedia`, by return or by throw: the local
`unique_ptr`s are destroyed in reverse order of construction, `text_surf`
before `font`.  On a throw this comes after the failure branch has called
`SDL_GetError` for the message. -/
def leaveLoadMedia (font text_surf : Option Res) (g : Game) : Game :=
  { g with calls := g.calls ++ deleterCalls text_surf ++ deleterCalls font }

/-- `Game::loadMedia`, lines 216-221: load the music and return. `font` and
`text_surf` are the two locals of the function. -/
def loadMusic (env : Env) (font text_surf : Option Res) (g : Game) : Outcome :=
  let g := g.call (Call.create Res.music (!env.fails (Step.create Res.music)))
  let g := { g with calls := g.calls ++ deleterCalls g.music, music := loaded env Res.music }
  if g.music = none then
    Outcome.threw "Error loading Music: "
      (leaveLoadMedia font text_surf (g.call Call.SDL_GetError)) else
  Outcome.returned (leaveLoadMedia font text_surf g)

/-- `Game::loadMedia`, lines 210-221: load sound B, then the rest. -/
def loadSdlSound (env : Env) (font text_surf : Option Res) (g : Game) : Outcome :=
  let g := g.call (Call.create Res.sdl_sound (!env.fails (Step.create Res.sdl_sound)))
  let g := { g with calls := g.calls ++ deleterCalls g.sdl_sound,
                    sdl_sound := loaded env Res.sdl_sound }
  if g.sdl_sound = none then
    Outcome.threw "Error loading Chunk: "
      (leaveLoadMedia font text_surf (g.call Call.SDL_GetError)) else
  loadMusic env font text_surf g

/-- `Game::loadMedia`, lines 204-221: load sound A, then the rest. -/
def loadCppSound (env : Env) (font text_surf : Option Res) (g : Game) : Outcome :=
  let g := g.call (Call.create Res.cpp_sound (!env.fails (Step.create Res.cpp_sound)))
  let g := { g with calls := g.calls ++ deleterCalls g.cpp_sound,
                    cpp_sound := loaded env Res.cpp_sound }
  if g.cpp_sound = none then
    Outcome.threw "Error loading Chunk: "
      (leaveLoadMedia font text_surf (g.call Call.SDL_GetError)) else
  loadSdlSound env font text_surf g

/-- `Game::loadMedia`, lines 197-221: query the size of the sprite texture
into `sprite_rect`, then the rest. -/
def querySpriteSize (env : Env) (font text_surf : Option Res) (g : Game) : Outcome :=
  let g := g.call (Call.SDL_GetTextureSize (!env.fails Step.SDL_GetTextureSize))
  if env.fails Step.SDL_GetTextureSize then
    Outcome.threw "Error getting Texture size: "
      (leaveLoadMedia font text_surf (g.call Call.SDL_GetError)) else
  let g := { g with sprite_rect := { g.sprite_rect with w := env.sprite_w, h := env.sprite_h } }
  loadCppSound env font text_surf g

/-- `Game::loadMedia`, lines 189-221: create the sprite texture from the icon
surface, then the rest. -/
def createSpriteImage (env : Env) (font text_surf : Option Res) (g : Game) : Outcome :=
  let g := g.call (Call.create Res.sprite_image (!env.fails (Step.create Res.sprite_image)))
  let g := { g with calls := g.calls ++ deleterCalls g.sprite_image,
                    sprite_image := loaded env Res.sprite_image }
  if g.sprite_image = none then
    Outcome.threw "Error creating Texture from Surface: "
      (leaveLoadMedia font text_surf (g.call Call.SDL_GetError)) else
  querySpriteSize env font text_surf g

/-- `Game::loadMedia`, lines 178-221: store the size of the text surface in
`text_rect`, create the text texture, then the rest. -/
def createTextImage (env : Env) (font text_surf : Option Res) (g : Game) : Outcome :=
  let g := { g with text_rect := { g.text_rect with w := env.text_w } }
  let g := { g with text_rect := { g.text_rect with h := env.text_h } }
  let g := g.call (Call.create Res.text_image (!env.fails (Step.create Res.text_image)))
  let g := { g with calls := g.calls ++ deleterCalls g.text_image,
                    text_image := loaded env Res.text_image }
  if g.text_image = none then
    Outcome.threw "Error creating Texture from Surface: "
      (leaveLoadMedia font text_surf (g.call Call.SDL_GetError)) else
  createSpriteImage env font text_surf g

/-- `Game::loadMedia`, lines 169-221: render the text into the local
`text_surf`, then the rest. -/
def renderText (env : Env) (font : Option Res) (g : Game) : Outcome :=
  let g := g.call (Call.create Res.text_surf (!env.fails (Step.create Res.text_surf)))
  let text_surf := loaded env Res.text_surf
  if text_surf = none then
    Outcome.threw "Error loading text Surface: "
      (leaveLoadMedia font text_surf (g.call Call.SDL_GetError)) else
  createTextImage env font text_surf g

/-- `Game::loadMedia`, lines 162-221: open the font into the local `font`,
then the rest. -/
def openFont (env : Env) (g : Game) : Outcome :=
  let g := g.call (Call.create Res.font (!env.fails (Step.create Res.font)))
  let font := loaded env Res.font
  if font = none then
    Outcome.threw "Error creating Font: " (leaveLoadMedia font none (g.call Call.SDL_GetError))
  else
  renderText env font g

/-- `Game::loadMedia` (lines 154-221): load the background, then the rest of
the body, one definition per check of the source. -/
def loadMedia (env : Env) (g : Game) : Outcome :=
  let g := g.call (Call.create Res.background (!env.fails (Step.create Res.background)))
  let g := { g with calls := g.calls ++ deleterCalls g.background,
                    background := loaded env Res.background }
  if g.background = none then
    Outcome.threw "Error loading Texture: " (g.call Call.SDL_GetError) else
  openFont env g

/-- `Game::init` (lines 223-229); seeding the generator restarts the count of
values taken from it. -/
def init (env : Env) (g : Game) : Outcome :=
  match initSdl env g with
  | Outcome.threw msg g => Outcome.threw msg g
  | Outcome.returned g =>
    match loadMedia env g with
    | Outcome.threw msg g => Outcome.threw msg g
    | Outcome.returned g => Outcome.returned { g with gen := 0 }

/-- The body of `Game::~Game` (lines 85-103). -/
def destructorBody (g : Game) : Game :=
  let g := g.call Call.Mix_HaltChannel
  let g := g.call Call.Mix_HaltMusic
  let g := { g with calls := g.calls ++ deleterCalls g.music, music := none }
  let g := { g with calls := g.calls ++ deleterCalls g.sdl_sound, sdl_sound := none }
  let g := { g with calls := g.calls ++ deleterCalls g.cpp_sound, cpp_sound := none }
  let g := { g with calls := g.calls ++ deleterCalls g.sprite_image, sprite_image := none }
  let g := { g with calls := g.calls ++ deleterCalls g.icon_surf, icon_surf := none }
  let g := { g with calls := g.calls ++ deleterCalls g.text_image, text_image := none }
  let g := { g with calls := g.calls ++ deleterCalls g.background, background := none }
  let g := { g with calls := g.calls ++ deleterCalls g.renderer, renderer := none }
  let g := { g with calls := g.calls ++ deleterCalls g.window, window := none }
  let g := g.call Call.Mix_CloseAudio
  let g := g.call Call.Mix_Quit
  let g := g.call Call.TTF_Quit
  g.call Call.SDL_Quit

/-- The destructors of the `unique_ptr` members, run after the body of
`Game::~Game` in reverse order of declaration (lines 73-82). -/
def destroyMembers (g : Game) : Game :=
  { g with
    calls := g.calls ++ deleterCalls g.music ++ deleterCalls g.sdl_sound ++
      deleterCalls g.cpp_sound ++ deleterCalls g.sprite_image ++ deleterCalls g.icon_surf ++
      deleterCalls g.text_image ++ deleterCalls g.background ++ deleterCalls g.renderer ++
      deleterCalls g.window
    music := none
    sdl_sound := none
    cpp_sound := none
    sprite_image := none
    icon_surf := none
    text_image := none
    background := none
    renderer := none
    window := none }

/-- The destruction of a `Game` object: the body of `Game::~Game`, then the
destructors of the members. -/
def destructor (g : Game) : Game :=
  destroyMembers (destructorBody g)

/-! ## The per-frame operations (lines 231-301) -/

/-- First statement of `Game::updateText` (line 240):
`this->text_rect.x += this->text_xvel;`, a `float` addition. -/
def textMoveX (g : Game) : Game :=
  { g with text_rect := { g.text_rect with x := floatAdd g.text_rect.x g.text_xvel } }

/-- Second statement of `Game::updateText` (line 241):
`this->text_rect.y += this->text_yvel;`, a `float` addition. -/
def textMoveY (g : Game) : Game :=
  { g with text_rect := { g.text_rect with y := floatAdd g.text_rect.y g.text_yvel } }

/-- Third statement of `Game::updateText` (lines 243-249): the `if` /
`else if` on the x axis; `x + w` is a `float` sum, compared with the window
width converted to `float`. -/
def textCheckX (g : Game) : Game :=
  if g.text_rect.x < 0 then
    ({ g with text_xvel := TEXT_VEL }).call (Call.Mix_PlayChannel g.sdl_sound)
  else if floatAdd g.text_rect.x g.text_rect.w > WINDOW_WIDTH then
    ({ g with text_xvel := -TEXT_VEL }).call (Call.Mix_PlayChannel g.sdl_sound)
  else g

/-- Fourth statement of `Game::updateText` (lines 250-256): the `if` /
`else if` on the y axis; `y + h` is a `float` sum. -/
def textCheckY (g : Game) : Game :=
  if g.text_rect.y < 0 then
    ({ g with text_yvel := TEXT_VEL }).call (Call.Mix_PlayChannel g.sdl_sound)
  else if floatAdd g.text_rect.y g.text_rect.h > WINDOW_HEIGHT then
    ({ g with text_yvel := -TEXT_VEL }).call (Call.Mix_PlayChannel g.sdl_sound)
  else g

/-- `Game::updateText` (lines 239-257): its four statements in order. -/
def updateText (g : Game) : Game :=
  textCheckY (textCheckX (textMoveY (textMoveX g)))

/-- The states `Game::updateText` passes through, from the state at entry to
the state at return, one per statement. -/
def updateTextStates (g : Game) : List Game :=
  [g, textMoveX g, textMoveY (textMoveX g), textCheckX (textMoveY (textMoveX g)),
    textCheckY (textCheckX (textMoveY (textMoveX g)))]

/-- First `if` of `Game::updateSprite` (lines 260-262). -/
def spriteLeft (keystate : Nat → Bool) (g : Game) : Game :=
  if keystate SDL_SCANCODE_LEFT || keystate SDL_SCANCODE_A then
    { g with sprite_rect := { g.sprite_rect with x := floatSub g.sprite_rect.x SPRITE_VEL } }
  else g

/-- Second `if` of `Game::updateSprite` (lines 263-265). -/
def spriteRight (keystate : Nat → Bool) (g : Game) : Game :=
  if keystate SDL_SCANCODE_RIGHT || keystate SDL_SCANCODE_D then
    { g with sprite_rect := { g.sprite_rect with x := floatAdd g.sprite_rect.x SPRITE_VEL } }
  else g

/-- Third `if` of `Game::updateSprite` (lines 266-268). -/
def spriteUp (keystate : Nat → Bool) (g : Game) : Game :=
  if keystate SDL_SCANCODE_UP || keystate SDL_SCANCODE_W then
    { g with sprite_rect := { g.sprite_rect with y := floatSub g.sprite_rect.y SPRITE_VEL } }
  else g

/-- Fourth `if` of `Game::updateSprite` (lines 269-271). -/
def spriteDown (keystate : Nat → Bool) (g : Game) : Game :=
  if keystate SDL_SCANCODE_DOWN || keystate SDL_SCANCODE_S then
    { g with sprite_rect := { g.sprite_rect with y := floatAdd g.sprite_rect.y SPRITE_VEL } }
  else g

/-- `Game::updateSprite` (lines 259-272): its four `if` statements in order,
each a `float` subtraction or addition of `SPRITE_VEL`.  `keystate` is the
array `SDL_GetKeyboardState` points to, indexed by scancode, as it stands
when the function runs. -/
def updateSprite (keystate : Nat → Bool) (g : Game) : Game :=
  spriteDown keystate (spriteUp keystate (spriteRight keystate (spriteLeft keystate g)))

/-- One evaluation of `this->rand_color(this->gen)`: the next value of the
generator, as the `Uint8` the distribution returns, and the generator
advanced by one. -/
def rand_color (env : Env) (g : Game) : Nat × Game :=
  (env.sample g.gen % 256, { g with gen := g.gen + 1 })

/-- The red, green and blue arguments from the three values in the order they
were produced. -/
def ArgOrder.assign (o : ArgOrder) (v1 v2 v3 : Nat) : Nat × Nat × Nat :=
  match o with
  | .rgb => (v1, v2, v3)
  | .rbg => (v1, v3, v2)
  | .grb => (v2, v1, v3)
  | .gbr => (v3, v1, v2)
  | .brg => (v2, v3, v1)
  | .bgr => (v3, v2, v1)

/-- `Game::renderColor` (lines 231-237): the three `rand_color(gen)`
arguments are evaluated one after the other in the order `env.argOrder`, then
`SDL_SetRenderDrawColor` is called with alpha 255, then sound `cpp_sound` is
played. -/
def renderColor (env : Env) (g : Game) : Game :=
  let d1 := rand_color env g
  let d2 := rand_color env d1.2
  let d3 := rand_color env d2.2
  let c := env.argOrder.assign d1.1 d2.1 d3.1
  let g := d3.2.call (Call.SDL_SetRenderDrawColor c.1 c.2.1 c.2.2 255)
  g.call (Call.Mix_PlayChannel g.cpp_sound)

/-- The body of the loop of `Game::events` (lines 276-294): the two nested
`switch` statements on one polled event. -/
def handleEvent (env : Env) (g : Game) (event : SDL_Event) : Game :=
  if event.type = SDL_EVENT_QUIT then
    { g with is_running := false }
  else if event.type = SDL_EVENT_KEY_DOWN then
    if event.scancode = SDL_SCANCODE_ESCAPE then
      { g with is_running := false }
    else if event.scancode = SDL_SCANCODE_SPACE then
      renderColor env g
    else g
  else g

/-- `Game::events` (lines 274-296). The second argument is SDL's queue of
pending events; `SDL_PollEvent` removes its head and answers false when it is
empty.  Returns the state and what is left of the queue. -/
def events (env : Env) : Game → List SDL_Event → Game × List SDL_Event
  | g, [] => (g, [])
  | g, event :: queue => events env (handleEvent env g event) queue

/-- `Game::update` (lines 298-301). -/
def update (keystate : Nat → Bool) (g : Game) : Game :=
  updateSprite keystate (updateText g)

/-- `Game::draw` (lines 303-314). -/
def draw (g : Game) : Game :=
  let g := g.call Call.SDL_RenderClear
  let g := g.call (Call.SDL_RenderTexture g.background none)
  let g := g.call (Call.SDL_RenderTexture g.text_image (some g.text_rect))
  let g := g.call (Call.SDL_RenderTexture g.sprite_image (some g.sprite_rect))
  g.call Call.SDL_RenderPresent

/-- One iteration of the loop of `Game::run` (lines 323-329). -/
def tick (env : Env) (keystate : Nat → Bool) (queue : List SDL_Event) (g : Game) : Game :=
  let g := (events env g queue).1
  let g := update keystate g
  let g := draw g
  g.call (Call.SDL_Delay 16)

/-! ## Observations on the trace of calls -/

/-- Number of requests to play the chunk `chunk` among the calls. -/
def playCount (chunk : Option Res) (calls : List Call) : Nat :=
  calls.count (Call.Mix_PlayChannel chunk)

/-- Whether a call is `SDL_SetRenderDrawColor`. -/
def Call.isSetColor : Call → Bool
  | .SDL_SetRenderDrawColor _ _ _ _ => true
  | _ => false

/-- Whether a call is `Mix_PlayChannel`. -/
def Call.isPlay : Call → Bool
  | .Mix_PlayChannel _ => true
  | _ => false

/-- Effect of one call on the renderer's draw colour: only
`SDL_SetRenderDrawColor` changes it. -/
def colorStep (color : Option (Nat × Nat × Nat × Nat)) (c : Call) :
    Option (Nat × Nat × Nat × Nat) :=
  match c with
  | .SDL_SetRenderDrawColor r g b a => some (r, g, b, a)
  | _ => color

/-- The renderer's draw colour after the calls: the arguments of the last
`SDL_SetRenderDrawColor`, or `none` when the program has not set it yet. -/
def drawColor (calls : List Call) : Option (Nat × Nat × Nat × Nat) :=
  calls.foldl colorStep none

/-- The calls an operation added: the trace after it without the trace
before it. -/
def newCalls (before after : Game) : List Call :=
  after.calls.drop before.calls.length

/-- Sign of a velocity: 1, 0 or -1. -/
def velSign (v : Int) : Int := Int.sign v

/-- How many times the sign changes along a sequence of velocities. -/
def signChanges : List Int → Nat
  | a :: b :: rest => (if velSign a ≠ velSign b then 1 else 0) + signChanges (b :: rest)
  | _ => 0

/-! ## Reference definitions, written from the specification -/

/-- The text element of a state as (x, y, w, h, vx, vy). -/
def Game.text (g : Game) : Int × Int × Int × Int × Int × Int :=
  (g.text_rect.x, g.text_rect.y, g.text_rect.w, g.text_rect.h, g.text_xvel, g.text_yvel)

/-- The coordinate after an `if` of `updateSprite` that steps backward (Left
or Up): `SPRITE_VEL` subtracted when the direction is held. -/
def minusVel (held : Bool) (p : Int) : Int :=
  if held then floatSub p SPRITE_VEL else p

/-- The coordinate after an `if` of `updateSprite` that steps forward (Right
or Down): `SPRITE_VEL` added when the direction is held. -/
def plusVel (held : Bool) (p : Int) : Int :=
  if held then floatAdd p SPRITE_VEL else p

/-- Left or A is held. -/
def heldLeft (keystate : Nat → Bool) : Bool :=
  keystate SDL_SCANCODE_LEFT || keystate SDL_SCANCODE_A
/-- Right or D is held. -/
def heldRight (keystate : Nat → Bool) : Bool :=
  keystate SDL_SCANCODE_RIGHT || keystate SDL_SCANCODE_D
/-- Up or W is held. -/
def heldUp (keystate : Nat → Bool) : Bool :=
  keystate SDL_SCANCODE_UP || keystate SDL_SCANCODE_W
/-- Down or S is held. -/
def heldDown (keystate : Nat → Bool) : Bool :=
  keystate SDL_SCANCODE_DOWN || keystate SDL_SCANCODE_S

/-- A keyboard state in which exactly the listed scancodes are held. -/
def keysHeld (held : List Nat) : Nat → Bool :=
  fun sc => decide (sc ∈ held)

/-- Whether the x check of `updateText` fires after the move: the text box,
at the position the move gives it, is beyond the left or the right
boundary. -/
def exceedsX (g : Game) : Bool :=
  decide (floatAdd g.text_rect.x g.text_xvel < 0) ||
    decide (floatAdd (floatAdd g.text_rect.x g.text_xvel) g.text_rect.w > WINDOW_WIDTH)

/-- Whether the y check of `updateText` fires after the move: the text box,
at the position the move gives it, is beyond the top or the bottom
boundary. -/
def exceedsY (g : Game) : Bool :=
  decide (floatAdd g.text_rect.y g.text_yvel < 0) ||
    decide (floatAdd (floatAdd g.text_rect.y g.text_yvel) g.text_rect.h > WINDOW_HEIGHT)

/-- The state in which the frame loop is first entered when the rendered
text measures `w` by `h`: as constructed by `Game::Game()`, with the text
size stored by `loadMedia` (lines 178-179). -/
def startState (w h : Int) : Game :=
  { Game.new with text_rect := ⟨0, 0, w, h⟩ }

/-- The states of the runs whose text element starts at (0, 0) with size
`w` by `h` and velocity (+3, +3): closed under every per-frame operation, in
any order. -/
inductive Reachable (w h : Int) : Game → Prop where
  | start (g : Game) (hr : g.text_rect = ⟨0, 0, w, h⟩) (hx : g.text_xvel = TEXT_VEL)
      (hy : g.text_yvel = TEXT_VEL) : Reachable w h g
  | afterEvents (env : Env) (queue : List SDL_Event) {g : Game} (hg : Reachable w h g) :
      Reachable w h (SDL3Game.events env g queue).1
  | afterUpdateText {g : Game} (hg : Reachable w h g) : Reachable w h (SDL3Game.updateText g)
  | afterUpdateSprite (keystate : Nat → Bool) {g : Game} (hg : Reachable w h g) :
      Reachable w h (SDL3Game.updateSprite keystate g)
  | afterDraw {g : Game} (hg : Reachable w h g) : Reachable w h (SDL3Game.draw g)
  | afterDelay {g : Game} (hg : Reachable w h g) : Reachable w h (g.call (Call.SDL_Delay 16))

/-- The x-velocities `updateText` passes through, one per statement. -/
def xvelTrace (g : Game) : List Int := (updateTextStates g).map (fun s => s.text_xvel)

/-- The y-velocities `updateText` passes through, one per statement. -/
def yvelTrace (g : Game) : List Int := (updateTextStates g).map (fun s => s.text_yvel)

/-- Whether the call of `updateText` from `g` changes the sign of the
x-velocity. -/
def flipsX (g : Game) : Bool := decide (velSign (updateText g).text_xvel ≠ velSign g.text_xvel)

/-- Whether the call of `updateText` from `g` changes the sign of the
y-velocity. -/
def flipsY (g : Game) : Bool := decide (velSign (updateText g).text_yvel ≠ velSign g.text_yvel)

/-- Number of axes on which the call of `updateText` from `g` changes the
sign of the velocity. -/
def flipCount (g : Game) : Nat := (if flipsX g then 1 else 0) + (if flipsY g then 1 else 0)

/-- Invariant of one axis of the text element, for position `p`, velocity
`v`, size `s` and window size `limit`: the position is a binary32 value
between -3 and 2^26; moving forward the box ends within the window, moving
backward the position is at least 0 and the box will end within the window
after the next move. -/
def InvAxis (p v s limit : Int) : Prop :=
  -3 ≤ p ∧ p ≤ 67108864 ∧ toFloat p = p ∧
  ((v = 3 ∧ p + s ≤ limit) ∨ (v = -3 ∧ 0 ≤ p ∧ toFloat (p - 3) + s ≤ limit))

/-- Invariant of the x axis of the text element for an element of width at
most 800. -/
def InvX (g : Game) : Prop :=
  InvAxis g.text_rect.x g.text_xvel g.text_rect.w 800

/-- Invariant of the y axis of the text element for an element of height at
most 600. -/
def InvY (g : Game) : Prop :=
  InvAxis g.text_rect.y g.text_yvel g.text_rect.h 600

/-- A state whose text element is off the left edge while moving right
(x = -10, x-velocity +3). -/
def offLeftState : Game :=
  { Game.new with text_rect := ⟨-10, 0, 100, 50⟩ }

/-- The eight directional scancodes: the arrows and W, A, S, D. -/
def directionalKeys : List Nat :=
  [SDL_SCANCODE_LEFT, SDL_SCANCODE_A, SDL_SCANCODE_RIGHT, SDL_SCANCODE_D,
   SDL_SCANCODE_UP, SDL_SCANCODE_W, SDL_SCANCODE_DOWN, SDL_SCANCODE_S]

/-- A quit signal or a press of the cancel key: the event type is
`SDL_EVENT_QUIT`, or it is `SDL_EVENT_KEY_DOWN` with scancode Escape. -/
def isStop (e : SDL_Event) : Bool :=
  e.type == SDL_EVENT_QUIT ||
    (e.type == SDL_EVENT_KEY_DOWN && e.scancode == SDL_SCANCODE_ESCAPE)

/-- A press of the trigger-action key: `SDL_EVENT_KEY_DOWN` with scancode
Space. -/
def isTrigger (e : SDL_Event) : Bool :=
  e.type == SDL_EVENT_KEY_DOWN && e.scancode == SDL_SCANCODE_SPACE

/-- A state for the worked examples of the keyboard-driven element and of the
event drain: running, sprite at (7, 9). -/
def exampleRunning : Game :=
  { Game.new with
    sprite_rect := ⟨7, 9, 100, 100⟩
    text_rect := ⟨0, 0, 170, 90⟩
    cpp_sound := some Res.cpp_sound
    sdl_sound := some Res.sdl_sound }

/-- An environment for the worked examples: no call fails, the text measures
170 by 90, the sprite 100 by 100, the k-th generator value is k, arguments
are evaluated left to right. -/
def exampleEnv : Env :=
  { fails := fun _ => false
    text_w := 170
    text_h := 90
    sprite_w := 100
    sprite_h := 100
    sample := fun k => k
    argOrder := ArgOrder.rgb }

/-- The nine resources owned by members of `Game`; `font` and `text_surf`
are locals of `loadMedia`. -/
def Res.owned : Res → Bool
  | .font => false
  | .text_surf => false
  | _ => true

/-- The resources acquired, in order: the successful loader calls. -/
def acquisitions (calls : List Call) : List Res :=
  calls.filterMap (fun c => match c with
    | .create r true => some r
    | _ => none)

/-- The resources released, in order: the deleter calls. -/
def releases (calls : List Call) : List Res :=
  calls.filterMap (fun c => match c with
    | .destroy r => some r
    | _ => none)

/-- The four process-wide subsystems of `initSdl`: display (`SDL_Init`),
text (`TTF_Init`), mixer (`Mix_Init`) and the audio device
(`Mix_OpenAudio`). -/
inductive Subsystem where
  | display | text | mixer | device
  deriving DecidableEq, Repr

/-- The subsystems started, in order: the successful init calls. -/
def startups (calls : List Call) : List Subsystem :=
  calls.filterMap (fun c => match c with
    | .SDL_Init true => some Subsystem.display
    | .TTF_Init true => some Subsystem.text
    | .Mix_Init true => some Subsystem.mixer
    | .Mix_OpenAudio true => some Subsystem.device
    | _ => none)

/-- The subsystems shut down, in order. -/
def shutdowns (calls : List Call) : List Subsystem :=
  calls.filterMap (fun c => match c with
    | .SDL_Quit => some Subsystem.display
    | .TTF_Quit => some Subsystem.text
    | .Mix_Quit => some Subsystem.mixer
    | .Mix_CloseAudio => some Subsystem.device
    | _ => none)

/-- The owning members of `Game` in declaration order (lines 73-82), each
named by the resource it holds. -/
def memberOrder : List Res :=
  [Res.window, Res.renderer, Res.background, Res.text_image, Res.icon_surf,
   Res.sprite_image, Res.cpp_sound, Res.sdl_sound, Res.music]

/-- The pointers held by the owning members, in declaration order. -/
def Game.handles (g : Game) : List (Option Res) :=
  [g.window, g.renderer, g.background, g.text_image, g.icon_surf, g.sprite_image,
   g.cpp_sound, g.sdl_sound, g.music]

/-- The state after a startup in which nothing fails, in `exampleEnv`. -/
def exampleStarted : Game :=
  match init exampleEnv Game.new with
  | Outcome.returned g => g
  | Outcome.threw _ g => g

/-- The three values the generator delivers for the n-th resample (n from
1), as `Uint8`: its uses number 3n-2, 3n-1 and 3n, which are the indices
3(n-1), 3(n-1)+1 and 3(n-1)+2 counted from 0. -/
def draws (env : Env) (n : Nat) : Nat × Nat × Nat :=
  (env.sample (3 * (n - 1)) % 256, env.sample (3 * (n - 1) + 1) % 256,
   env.sample (3 * (n - 1) + 2) % 256)

/-- The n-th resampled colour as the code sets it: the three draws assigned
to red, green and blue by the evaluation order, and alpha 255. -/
def resampled (env : Env) (n : Nat) : Nat × Nat × Nat × Nat :=
  ((env.argOrder.assign (draws env n).1 (draws env n).2.1 (draws env n).2.2).1,
   (env.argOrder.assign (draws env n).1 (draws env n).2.1 (draws env n).2.2).2.1,
   (env.argOrder.assign (draws env n).1 (draws env n).2.1 (draws env n).2.2).2.2, 255)

/-- The n-th resampled colour as the specification states it: the three
draws as red, green and blue in that order, and alpha 255. -/
def resampledInOrder (env : Env) (n : Nat) : Nat × Nat × Nat × Nat :=
  ((draws env n).1, (draws env n).2.1, (draws env n).2.2, 255)

/-- The states of a session after `n` trigger-action events in all: from a
state with a freshly seeded generator and a draw colour not yet set, closed
under every per-frame operation, the event drain adding the Space key-downs
of its batch to the count. -/
inductive AfterTriggers (env : Env) : Nat → Game → Prop where
  | seeded (g : Game) (hgen : g.gen = 0) (hcolor : drawColor g.calls = none) :
      AfterTriggers env 0 g
  | afterEvents (queue : List SDL_Event) {n : Nat} {g : Game} (hg : AfterTriggers env n g) :
      AfterTriggers env (n + queue.countP isTrigger) (SDL3Game.events env g queue).1
  | afterUpdateText {n : Nat} {g : Game} (hg : AfterTriggers env n g) :
      AfterTriggers env n (SDL3Game.updateText g)
  | afterUpdateSprite (keystate : Nat → Bool) {n : Nat} {g : Game}
      (hg : AfterTriggers env n g) : AfterTriggers env n (SDL3Game.updateSprite keystate g)
  | afterDraw {n : Nat} {g : Game} (hg : AfterTriggers env n g) :
      AfterTriggers env n (SDL3Game.draw g)
  | afterDelay {n : Nat} {g : Game} (hg : AfterTriggers env n g) :
      AfterTriggers env n (g.call (Call.SDL_Delay 16))

/-- An environment whose compiler evaluates function arguments right to
left and whose k-th generator value is k. -/
def rightToLeftEnv : Env :=
  { exampleEnv with argOrder := ArgOrder.bgr }

/-- The calls the x check of `updateText` issues in the frame that starts in
`g`: the bounce triggers of the x axis. -/
def xTriggers (g : Game) : List Call :=
  newCalls (textMoveY (textMoveX g)) (textCheckX (textMoveY (textMoveX g)))

/-- The calls the y check of `updateText` issues in the frame that starts in
`g`: the bounce triggers of the y axis. -/
def yTriggers (g : Game) : List Call :=
  newCalls (textCheckX (textMoveY (textMoveX g)))
    (textCheckY (textCheckX (textMoveY (textMoveX g))))

/-- What one iteration of the frame loop finds: the events pending when
`events` runs and the keyboard state when `updateSprite` runs. -/
structure Frame where
  queue : List SDL_Event
  keystate : Nat → Bool

/-- The `while` loop of `Game::run` (lines 322-330). `frames i` is what the
iteration number `i` (from 0) finds; the first argument bounds the number of
iterations, and the answer is `none` when the bound is used up while the run
flag is still true. -/
def runLoop (env : Env) (frames : Nat → Frame) : Nat → Nat → Game → Option Game
  | 0, _, g => if g.is_running then none else some g
  | fuel + 1, i, g =>
    if g.is_running then
      runLoop env frames fuel (i + 1) (tick env (frames i).keystate (frames i).queue g)
    else some g

/-- `Game::run` (lines 316-331): start the music, throw when that fails,
else loop. -/
def run (env : Env) (frames : Nat → Frame) (fuel : Nat) (g : Game) : Option Outcome :=
  let g := g.call (Call.Mix_PlayMusic (!env.fails Step.Mix_PlayMusic))
  if env.fails Step.Mix_PlayMusic then
    some (Outcome.threw "Error playing Music: " (g.call Call.SDL_GetError))
  else (runLoop env frames fuel 0 g).map Outcome.returned

/-- The state after `n` ticks, the first of which finds `frames i`. -/
def ticksFrom (env : Env) (frames : Nat → Frame) : Nat → Nat → Game → Game
  | 0, _, g => g
  | n + 1, i, g => ticksFrom env frames n (i + 1) (tick env (frames i).keystate (frames i).queue g)

/-- Number of pacing delays among the calls: one per executed tick. -/
def delayCount (calls : List Call) : Nat :=
  calls.count (Call.SDL_Delay 16)

/-- Frames for the worked examples: nothing happens in frames 0 and 1, frame
2 delivers a Space press and then a quit event, later frames deliver
nothing. -/
def exampleFrames : Nat → Frame :=
  fun i =>
    if i = 2 then ⟨[⟨SDL_EVENT_KEY_DOWN, SDL_SCANCODE_SPACE⟩, ⟨SDL_EVENT_QUIT, 0⟩], keysHeld []⟩
    else ⟨[], keysHeld []⟩

/-- The fallible steps of `initSdl` followed by `loadMedia`, in program
order: the three subsystem inits, the audio device, window, renderer, icon,
background, font, text surface, text texture, sprite texture, sprite size
query, sound A, sound B, music. -/
def startupSteps : List Step :=
  [Step.SDL_Init, Step.TTF_Init, Step.Mix_Init, Step.Mix_OpenAudio,
   Step.create Res.window, Step.create Res.renderer, Step.create Res.icon_surf,
   Step.create Res.background, Step.create Res.font, Step.create Res.text_surf,
   Step.create Res.text_image, Step.create Res.sprite_image, Step.SDL_GetTextureSize,
   Step.create Res.cpp_sound, Step.create Res.sdl_sound, Step.create Res.music]

/-- The first startup step that fails, if any. -/
def firstFailing (env : Env) : Option Step :=
  startupSteps.find? env.fails

/-- The startup steps that come before step `K`. -/
def stepsBefore (K : Step) : List Step :=
  startupSteps.takeWhile (fun s => decide (s ≠ K))

/-- The startup steps from step `K` on. -/
def stepsFrom (K : Step) : List Step :=
  startupSteps.dropWhile (fun s => decide (s ≠ K))

/-- The resource a step acquires, if it acquires one. -/
def Step.res : Step → Option Res
  | .create r => some r
  | _ => none

/-- The steps attempted, in order, as the trace records them. -/
def attempts (calls : List Call) : List Step :=
  calls.filterMap (fun c => match c with
    | .SDL_Init _ => some Step.SDL_Init
    | .TTF_Init _ => some Step.TTF_Init
    | .Mix_Init _ => some Step.Mix_Init
    | .Mix_OpenAudio _ => some Step.Mix_OpenAudio
    | .create r _ => some (Step.create r)
    | .SDL_GetTextureSize _ => some Step.SDL_GetTextureSize
    | .Mix_PlayMusic _ => some Step.Mix_PlayMusic
    | _ => none)

/-- The message with which the source reports the failure of a step (the
text before the `SDL_GetError` part). -/
def Step.message : Step → String
  | .SDL_Init => "Error initialize SDL2: "
  | .TTF_Init => "Error initialize SDL_ttf: "
  | .Mix_Init => "Error initialize SDL_mixer: "
  | .Mix_OpenAudio => "Error Opening Audio: "
  | .create .window => "Error creating Window: "
  | .create .renderer => "Error creating Renderer: "
  | .create .icon_surf => "Error loading Surface: "
  | .create .background => "Error loading Texture: "
  | .create .font => "Error creating Font: "
  | .create .text_surf => "Error loading text Surface: "
  | .create .text_image => "Error creating Texture from Surface: "
  | .create .sprite_image => "Error creating Texture from Surface: "
  | .SDL_GetTextureSize => "Error getting Texture size: "
  | .create .cpp_sound => "Error loading Chunk: "
  | .create .sdl_sound => "Error loading Chunk: "
  | .create .music => "Error loading Music: "
  | .Mix_PlayMusic => "Error playing Music: "

/-- The state an operation leaves, returned or thrown. -/
def Outcome.game : Outcome → Game
  | .returned g => g
  | .threw _ g => g

/-- The message of the exception, when the operation threw. -/
def Outcome.error : Outcome → Option String
  | .returned _ => none
  | .threw msg _ => some msg

/-- Sequencing of two operations that can throw: the second runs on the
state the first returned, and a throw of the first is passed on. -/
def Outcome.andThen (o : Outcome) (f : Game → Outcome) : Outcome :=
  match o with
  | .returned g => f g
  | .threw msg g => Outcome.threw msg g

/-- What the teardown and the caller can see of an outcome: the error, the
trace and the nine handles. -/
def Outcome.summary (o : Outcome) : Option String × List Call × List (Option Res) :=
  (o.error, o.game.calls, o.game.handles)

/-- An environment in which exactly the step `K` fails (none when `K` is
`none`); sizes, generator values and evaluation order as in `exampleEnv`. -/
def failingAt (K : Option Step) : Env :=
  { exampleEnv with fails := fun s => decide (some s = K) }

/-- The part of a state the teardown and the trace depend on. -/
def Game.view (g : Game) : List Call × List (Option Res) := (g.calls, g.handles)

/-- The startup steps that failed, in order, as the trace records them. -/
def failures (calls : List Call) : List Step :=
  calls.filterMap (fun c => match c with
    | .SDL_Init false => some Step.SDL_Init
    | .TTF_Init false => some Step.TTF_Init
    | .Mix_Init false => some Step.Mix_Init
    | .Mix_OpenAudio false => some Step.Mix_OpenAudio
    | .create r false => some (Step.create r)
    | .SDL_GetTextureSize false => some Step.SDL_GetTextureSize
    | .Mix_PlayMusic false => some Step.Mix_PlayMusic
    | _ => none)

/-- Source constant `EXIT_SUCCESS` of `<cstdlib>`. -/
def EXIT_SUCCESS : Nat := 0
/-- Source constant `EXIT_FAILURE` of `<cstdlib>`. -/
def EXIT_FAILURE : Nat := 1

/-- What `main` leaves behind: the exit status, the lines written to
`std::cerr`, and the `Game` object after its destruction, whose trace holds
every library call of the session. -/
structure Exit where
  exit_val : Nat
  cerr : List String
  game : Game

/-- The function `main` (lines 333-346). The object `game` lives in the `try`
block: it is destroyed when the block is left, at its end or by an exception,
in which case the destruction comes before the handler prints the message.
The answer is `none` when the bound on the iterations of the frame loop is
used up before the loop ends. -/
def main (env : Env) (frames : Nat → Frame) (fuel : Nat) : Option Exit :=
  let exit_val := EXIT_SUCCESS
  let game := Game.new
  match init env game with
  | Outcome.threw msg game => some ⟨EXIT_FAILURE, [msg], destructor game⟩
  | Outcome.returned game =>
    match run env frames fuel game with
    | none => none
    | some (Outcome.threw msg game) => some ⟨EXIT_FAILURE, [msg], destructor game⟩
    | some (Outcome.returned game) => some ⟨exit_val, [], destructor game⟩

/-- The subsystems a library call belongs to, which must have been started
for the call to be in order: SDL calls need the display, font calls the
text subsystem, mixer calls the mixer, and loading, playing and halting
sounds also the audio device.  The inits themselves need nothing, except
that the audio device is opened through the mixer. -/
def Call.needs : Call → List Subsystem
  | .SDL_GetKeyboardState => [Subsystem.display]
  | .SDL_Init _ => []
  | .TTF_Init _ => []
  | .Mix_Init _ => []
  | .Mix_OpenAudio _ => [Subsystem.mixer]
  | .create .font _ => [Subsystem.text]
  | .create .text_surf _ => [Subsystem.text]
  | .create .cpp_sound _ => [Subsystem.mixer, Subsystem.device]
  | .create .sdl_sound _ => [Subsystem.mixer, Subsystem.device]
  | .create .music _ => [Subsystem.mixer, Subsystem.device]
  | .create _ _ => [Subsystem.display]
  | .destroy .font => [Subsystem.text]
  | .destroy .cpp_sound => [Subsystem.mixer]
  | .destroy .sdl_sound => [Subsystem.mixer]
  | .destroy .music => [Subsystem.mixer]
  | .destroy _ => [Subsystem.display]
  | .SDL_SetWindowIcon => [Subsystem.display]
  | .SDL_GetTextureSize _ => [Subsystem.display]
  | .SDL_GetError => [Subsystem.display]
  | .Mix_HaltChannel => [Subsystem.mixer, Subsystem.device]
  | .Mix_HaltMusic => [Subsystem.mixer, Subsystem.device]
  | .Mix_CloseAudio => [Subsystem.mixer, Subsystem.device]
  | .Mix_Quit => [Subsystem.mixer]
  | .TTF_Quit => [Subsystem.text]
  | .SDL_Quit => [Subsystem.display]
  | .Mix_PlayMusic _ => [Subsystem.mixer, Subsystem.device]
  | .Mix_PlayChannel _ => [Subsystem.mixer, Subsystem.device]
  | .SDL_SetRenderDrawColor _ _ _ _ => [Subsystem.display]
  | .SDL_RenderClear => [Subsystem.display]
  | .SDL_RenderTexture _ _ => [Subsystem.display]
  | .SDL_RenderPresent => [Subsystem.display]
  | .SDL_Delay _ => [Subsystem.display]

/-- The subsystems started once a call has been made: a successful init adds
its subsystem. -/
def startedAfter (started : List Subsystem) (c : Call) : List Subsystem :=
  match c with
  | .SDL_Init true => Subsystem.display :: started
  | .TTF_Init true => Subsystem.text :: started
  | .Mix_Init true => Subsystem.mixer :: started
  | .Mix_OpenAudio true => Subsystem.device :: started
  | _ => started

/-- The calls of a trace that are made into a subsystem which has not been
started by then, given the subsystems started before the trace. -/
def outOfOrder : List Subsystem → List Call → List Call
  | _, [] => []
  | started, c :: cs =>
    (if c.needs.all (fun s => started.contains s) then [] else [c]) ++
      outOfOrder (startedAfter started c) cs

/-- The calls a session makes into a subsystem that has not been started, by
the first startup step that fails (`none` when the startup succeeds): always
the constructor's `SDL_GetKeyboardState`; when `SDL_Init` fails, the
`SDL_GetError` of its failure branch; and when one of the four subsystem
steps fails, the calls `Game::~Game` makes into the subsystems that step and
the later ones would have started. -/
def earlyCalls (K : Option Step) : List Call :=
  Call.SDL_GetKeyboardState ::
    match K with
    | some Step.SDL_Init =>
      [Call.SDL_GetError, Call.Mix_HaltChannel, Call.Mix_HaltMusic, Call.Mix_CloseAudio,
       Call.Mix_Quit, Call.TTF_Quit, Call.SDL_Quit]
    | some Step.TTF_Init =>
      [Call.Mix_HaltChannel, Call.Mix_HaltMusic, Call.Mix_CloseAudio, Call.Mix_Quit,
       Call.TTF_Quit]
    | some Step.Mix_Init =>
      [Call.Mix_HaltChannel, Call.Mix_HaltMusic, Call.Mix_CloseAudio, Call.Mix_Quit]
    | some Step.Mix_OpenAudio =>
      [Call.Mix_HaltChannel, Call.Mix_HaltMusic, Call.Mix_CloseAudio]
    | _ => []

/-- The resources a library call is handed, from the argument lists of the
source; `none` when it is handed a null pointer where the source passes a
member. -/
def Call.uses : Call → Option (List Res)
  | .create .renderer _ => some [Res.window]
  | .create .background _ => some [Res.renderer]
  | .create .text_surf _ => some [Res.font]
  | .create .text_image _ => some [Res.renderer, Res.text_surf]
  | .create .sprite_image _ => some [Res.renderer, Res.icon_surf]
  | .create _ _ => some []
  | .destroy r => some [r]
  | .SDL_SetWindowIcon => some [Res.window, Res.icon_surf]
  | .SDL_GetTextureSize _ => some [Res.sprite_image]
  | .Mix_PlayMusic _ => some [Res.music]
  | .Mix_PlayChannel (some r) => some [r]
  | .Mix_PlayChannel none => none
  | .SDL_SetRenderDrawColor _ _ _ _ => some [Res.renderer]
  | .SDL_RenderClear => some [Res.renderer]
  | .SDL_RenderTexture (some r) _ => some [Res.renderer, r]
  | .SDL_RenderTexture none _ => none
  | .SDL_RenderPresent => some [Res.renderer]
  | _ => some []

/-- The resources held once a call has been made: a successful loader adds
its resource, a deleter removes it. -/
def liveAfter (live : List Res) (c : Call) : List Res :=
  match c with
  | .create r true => r :: live
  | .destroy r => live.erase r
  | _ => live

/-- Whether a call is handed only resources that are held. -/
def usesHeld (live : List Res) (c : Call) : Bool :=
  match c.uses with
  | some rs => rs.all (fun r => live.contains r)
  | none => false

/-- Whether every call of a trace is handed only resources that were acquired
before it and not yet released, given the resources held before the trace. -/
def resourcesOrdered : List Res → List Call → Bool
  | _, [] => true
  | live, c :: cs => usesHeld live c && resourcesOrdered (liveAfter live c) cs

/-- The calls a tick makes once every member holds its resource. -/
def Call.isFrameCall : Call → Bool
  | .SDL_SetRenderDrawColor _ _ _ _ => true
  | .Mix_PlayChannel (some .cpp_sound) => true
  | .Mix_PlayChannel (some .sdl_sound) => true
  | .SDL_RenderClear => true
  | .SDL_RenderTexture (some .background) _ => true
  | .SDL_RenderTexture (some .text_image) _ => true
  | .SDL_RenderTexture (some .sprite_image) _ => true
  | .SDL_RenderPresent => true
  | .SDL_Delay _ => true
  | _ => false

/-- The handles of a state in which every member holds its resource. -/
def allHeld : List (Option Res) :=
  [some Res.window, some Res.renderer, some Res.background, some Res.text_image,
   some Res.icon_surf, some Res.sprite_image, some Res.cpp_sound, some Res.sdl_sound,
   some Res.music]

/-- The trace of a startup in which no step fails. -/
def startupTrace : List Call :=
  [Call.SDL_GetKeyboardState, Call.SDL_Init true, Call.TTF_Init true, Call.Mix_Init true,
   Call.Mix_OpenAudio true, Call.create Res.window true, Call.create Res.renderer true,
   Call.create Res.icon_surf true, Call.SDL_SetWindowIcon,
   Call.create Res.background true, Call.create Res.font true,
   Call.create Res.text_surf true, Call.create Res.text_image true,
   Call.create Res.sprite_image true, Call.SDL_GetTextureSize true,
   Call.create Res.cpp_sound true, Call.create Res.sdl_sound true,
   Call.create Res.music true, Call.destroy Res.text_surf, Call.destroy Res.font]

/-- The calls of the teardown of a state in which every member holds its
resource. -/
def teardownTrace : List Call :=
  [Call.Mix_HaltChannel, Call.Mix_HaltMusic, Call.destroy Res.music,
   Call.destroy Res.sdl_sound, Call.destroy Res.cpp_sound, Call.destroy Res.sprite_image,
   Call.destroy Res.icon_surf, Call.destroy Res.text_image, Call.destroy Res.background,
   Call.destroy Res.renderer, Call.destroy Res.window, Call.Mix_CloseAudio, Call.Mix_Quit,
   Call.TTF_Quit, Call.SDL_Quit]

/-! ## The previous stage, `Video07/main.cpp` -/

/-- The class `Game` of `Video07/main.cpp` (lines 23-75): the members of the
final stage without the two sounds and the music, and the ghost trace of
library calls. -/
structure Video07.Game where
  is_running : Bool
  gen : Nat
  text_rect : SDL_FRect
  text_xvel : Int
  text_yvel : Int
  sprite_rect : SDL_FRect
  window : Option Res
  renderer : Option Res
  background : Option Res
  text_image : Option Res
  icon_surf : Option Res
  sprite_image : Option Res
  calls : List Call
  deriving DecidableEq, Repr

/-- Record one library call of the previous stage. -/
def Video07.Game.call (g : Video07.Game) (c : Call) : Video07.Game :=
  { g with calls := g.calls ++ [c] }

/-- First statement of `Game::updateText` of Video07 (line 188). -/
def Video07.textMoveX (g : Video07.Game) : Video07.Game :=
  { g with text_rect := { g.text_rect with x := floatAdd g.text_rect.x g.text_xvel } }

/-- Second statement of `Game::updateText` of Video07 (line 189). -/
def Video07.textMoveY (g : Video07.Game) : Video07.Game :=
  { g with text_rect := { g.text_rect with y := floatAdd g.text_rect.y g.text_yvel } }

/-- Third statement of `Game::updateText` of Video07 (lines 191-195): the
`if` / `else if` on the x axis; no sound is played. -/
def Video07.textCheckX (g : Video07.Game) : Video07.Game :=
  if g.text_rect.x < 0 then
    { g with text_xvel := TEXT_VEL }
  else if floatAdd g.text_rect.x g.text_rect.w > WINDOW_WIDTH then
    { g with text_xvel := -TEXT_VEL }
  else g

/-- Fourth statement of `Game::updateText` of Video07 (lines 196-200): the
`if` / `else if` on the y axis; no sound is played. -/
def Video07.textCheckY (g : Video07.Game) : Video07.Game :=
  if g.text_rect.y < 0 then
    { g with text_yvel := TEXT_VEL }
  else if floatAdd g.text_rect.y g.text_rect.h > WINDOW_HEIGHT then
    { g with text_yvel := -TEXT_VEL }
  else g

/-- `Game::updateText` of Video07 (lines 187-201). -/
def Video07.updateText (g : Video07.Game) : Video07.Game :=
  Video07.textCheckY (Video07.textCheckX (Video07.textMoveY (Video07.textMoveX g)))

/-- First `if` of `Game::updateSprite` of Video07 (lines 204-206). -/
def Video07.spriteLeft (keystate : Nat → Bool) (g : Video07.Game) : Video07.Game :=
  if keystate SDL_SCANCODE_LEFT || keystate SDL_SCANCODE_A then
    { g with sprite_rect := { g.sprite_rect with x := floatSub g.sprite_rect.x SPRITE_VEL } }
  else g

/-- Second `if` of `Game::updateSprite` of Video07 (lines 207-209). -/
def Video07.spriteRight (keystate : Nat → Bool) (g : Video07.Game) : Video07.Game :=
  if keystate SDL_SCANCODE_RIGHT || keystate SDL_SCANCODE_D then
    { g with sprite_rect := { g.sprite_rect with x := floatAdd g.sprite_rect.x SPRITE_VEL } }
  else g

/-- Third `if` of `Game::updateSprite` of Video07 (lines 210-212). -/
def Video07.spriteUp (keystate : Nat → Bool) (g : Video07.Game) : Video07.Game :=
  if keystate SDL_SCANCODE_UP || keystate SDL_SCANCODE_W then
    { g with sprite_rect := { g.sprite_rect with y := floatSub g.sprite_rect.y SPRITE_VEL } }
  else g

/-- Fourth `if` of `Game::updateSprite` of Video07 (lines 213-215). -/
def Video07.spriteDown (keystate : Nat → Bool) (g : Video07.Game) : Video07.Game :=
  if keystate SDL_SCANCODE_DOWN || keystate SDL_SCANCODE_S then
    { g with sprite_rect := { g.sprite_rect with y := floatAdd g.sprite_rect.y SPRITE_VEL } }
  else g

/-- `Game::updateSprite` of Video07 (lines 203-216). -/
def Video07.updateSprite (keystate : Nat → Bool) (g : Video07.Game) : Video07.Game :=
  Video07.spriteDown keystate (Video07.spriteUp keystate
    (Video07.spriteRight keystate (Video07.spriteLeft keystate g)))

/-- One evaluation of `this->rand_color(this->gen)` in Video07. -/
def Video07.rand_color (env : Env) (g : Video07.Game) : Nat × Video07.Game :=
  (env.sample g.gen % 256, { g with gen := g.gen + 1 })

/-- `Game::renderColor` of Video07 (lines 181-185): the three
`rand_color(gen)` arguments in the order `env.argOrder`, then
`SDL_SetRenderDrawColor` with alpha 255; no sound is played. -/
def Video07.renderColor (env : Env) (g : Video07.Game) : Video07.Game :=
  let d1 := Video07.rand_color env g
  let d2 := Video07.rand_color env d1.2
  let d3 := Video07.rand_color env d2.2
  let c := env.argOrder.assign d1.1 d2.1 d3.1
  d3.2.call (Call.SDL_SetRenderDrawColor c.1 c.2.1 c.2.2 255)

/-- The body of the loop of `Game::events` of Video07 (lines 220-238). -/
def Video07.handleEvent (env : Env) (g : Video07.Game) (event : SDL_Event) : Video07.Game :=
  if event.type = SDL_EVENT_QUIT then
    { g with is_running := false }
  else if event.type = SDL_EVENT_KEY_DOWN then
    if event.scancode = SDL_SCANCODE_ESCAPE then
      { g with is_running := false }
    else if event.scancode = SDL_SCANCODE_SPACE then
      Video07.renderColor env g
    else g
  else g

/-- `Game::events` of Video07 (lines 218-240). -/
def Video07.events (env : Env) : Video07.Game → List SDL_Event → Video07.Game × List SDL_Event
  | g, [] => (g, [])
  | g, event :: queue => Video07.events env (Video07.handleEvent env g event) queue

/-- `Game::update` of Video07 (lines 242-245). -/
def Video07.update (keystate : Nat → Bool) (g : Video07.Game) : Video07.Game :=
  Video07.updateSprite keystate (Video07.updateText g)

/-- A trace with its play requests erased. -/
def erasePlay (calls : List Call) : List Call :=
  calls.filter (fun c => !c.isPlay)

/-- A state of the final stage seen as a state of Video07: the members the
two stages share, and the trace with its play requests erased. -/
def Game.toVideo07 (g : Game) : Video07.Game :=
  { is_running := g.is_running
    gen := g.gen
    text_rect := g.text_rect
    text_xvel := g.text_xvel
    text_yvel := g.text_yvel
    sprite_rect := g.sprite_rect
    window := g.window
    renderer := g.renderer
    background := g.background
    text_image := g.text_image
    icon_surf := g.icon_surf
    sprite_image := g.sprite_image
    calls := erasePlay g.calls }

/-- A state of Video07 seen as a state of the final stage in which no sound
is loaded. -/
def Game.ofVideo07 (v : Video07.Game) : Game :=
  { is_running := v.is_running
    gen := v.gen
    text_rect := v.text_rect
    text_xvel := v.text_xvel
    text_yvel := v.text_yvel
    sprite_rect := v.sprite_rect
    window := v.window
    renderer := v.renderer
    background := v.background
    text_image := v.text_image
    icon_surf := v.icon_surf
    sprite_image := v.sprite_image
    cpp_sound := none
    sdl_sound := none
    music := none
    calls := v.calls }

/-! ## `float` arithmetic: where it is exact and how it rounds -/

/-- The spacing is positive. -/
theorem ulpAux_pos (fuel n : Nat) : 0 < ulpAux fuel n := by
  induction fuel generalizing n with
  | zero => simp [ulpAux]
  | succ f ih =>
    unfold ulpAux
    split_ifs
    · exact Nat.one_pos
    · have := ih (n / 2); omega

/-- From 2^23 on, the spacing times 2^23 is at most the number: the
significand has at least 24 bits. -/
theorem ulpAux_mul_le (fuel n : Nat) (h : 8388608 ≤ n) : ulpAux fuel n * 8388608 ≤ n := by
  induction fuel generalizing n with
  | zero => simp [ulpAux]; exact h
  | succ f ih =>
    unfold ulpAux
    split_ifs with h1
    · omega
    · have := ih (n / 2) (by omega)
      omega

theorem ulp_of_lt (n : Nat) (h : n < 16777216) : ulp n = 1 := by
  simp [ulp, ulpAux, h]

theorem ulp_of_lt_25 (n : Nat) (h1 : 16777216 ≤ n) (h2 : n < 33554432) : ulp n = 2 := by
  have a : ¬ n < 16777216 := by omega
  have b : n / 2 < 16777216 := by omega
  simp [ulp, ulpAux, a, b]

theorem ulp_of_lt_26 (n : Nat) (h1 : 33554432 ≤ n) (h2 : n < 67108864) : ulp n = 4 := by
  have a : ¬ n < 16777216 := by omega
  have b : ¬ n / 2 < 16777216 := by omega
  have c : n / 2 / 2 < 16777216 := by omega
  simp [ulp, ulpAux, a, b, c]

theorem ulp_of_lt_27 (n : Nat) (h1 : 67108864 ≤ n) (h2 : n < 134217728) : ulp n = 8 := by
  have a : ¬ n < 16777216 := by omega
  have b : ¬ n / 2 < 16777216 := by omega
  have c : ¬ n / 2 / 2 < 16777216 := by omega
  have d : n / 2 / 2 / 2 < 16777216 := by omega
  simp [ulp, ulpAux, a, b, c, d]

/-- Up to 2^24 every natural number is a binary32 value. -/
theorem roundNat_of_le (n : Nat) (h : n ≤ 16777216) : roundNat n = n := by
  rcases Nat.lt_or_ge n 16777216 with h1 | h1
  · simp [roundNat, ulp_of_lt n h1, Nat.mod_one]
  · have : n = 16777216 := by omega
    subst this
    decide

/-- From 2^24 on the rounded value is at least 2^23. -/
theorem le_roundNat (n : Nat) (h : 16777216 ≤ n) : 8388608 ≤ roundNat n := by
  have hu := ulpAux_pos 104 n
  have hm := ulpAux_mul_le 104 n (by omega)
  have hq : 8388608 ≤ n / ulp n := by
    unfold ulp
    rw [Nat.le_div_iff_mul_le hu]
    rw [Nat.mul_comm]
    exact hm
  have hqu : 8388608 ≤ n / ulp n * ulp n :=
    le_trans hq (Nat.le_mul_of_pos_right _ (by unfold ulp; exact hu))
  unfold roundNat
  split_ifs
  · exact hqu
  · exact hqu
  · exact le_trans hqu (Nat.mul_le_mul_right _ (Nat.le_succ _))

/-- The `float` of an integer of magnitude at most 2^24 is the integer. -/
theorem toFloat_exact (z : Int) (h1 : -16777216 ≤ z) (h2 : z ≤ 16777216) : toFloat z = z := by
  unfold toFloat
  split_ifs with h
  · rw [roundNat_of_le _ (by omega)]; omega
  · rw [roundNat_of_le _ (by omega)]; omega

/-- Rounding keeps the sign. -/
theorem toFloat_neg_iff (z : Int) : toFloat z < 0 ↔ z < 0 := by
  unfold toFloat
  split_ifs with h
  · constructor
    · intro h'; omega
    · intro h'; omega
  · constructor
    · intro _; omega
    · intro _
      rcases Nat.lt_or_ge (-z).toNat 16777216 with h1 | h1
      · rw [roundNat_of_le _ (by omega)]; omega
      · have := le_roundNat _ h1; omega

/-- Rounding does not move a value across an integer of magnitude below
2^23, such as the window width and height. -/
theorem toFloat_gt_iff (c z : Int) (h0 : 0 ≤ c) (h1 : c < 8388608) : c < toFloat z ↔ c < z := by
  rcases lt_or_le z 0 with hz | hz
  · have := (toFloat_neg_iff z).mpr hz
    constructor <;> intro h <;> omega
  · rcases le_or_lt z 16777216 with hz2 | hz2
    · rw [toFloat_exact z (by omega) hz2]
    · have : (8388608 : Int) ≤ toFloat z := by
        unfold toFloat
        rw [if_pos hz]
        have := le_roundNat z.toNat (by omega)
        omega
      constructor <;> intro h <;> omega


/-- The value of `toFloat` between 2^24 and 2^25: the nearest even number,
a tie going to the multiple of 4. -/
theorem toFloat_binade1 (z : Int) (h1 : 16777216 ≤ z) (h2 : z < 33554432) :
    (z % 2 = 0 ∧ toFloat z = z) ∨ (z % 4 = 1 ∧ toFloat z = z - 1) ∨
      (z % 4 = 3 ∧ toFloat z = z + 1) := by
  obtain ⟨n, rfl⟩ : ∃ n : Nat, z = n := ⟨z.toNat, by omega⟩
  have hu := ulp_of_lt_25 n (by omega) (by omega)
  unfold toFloat roundNat
  rw [if_pos (by omega), Int.toNat_ofNat, hu]
  split_ifs <;> omega

/-- The value of `toFloat` between 2^25 and 2^26: the nearest multiple of 4,
a tie going to the multiple of 8. -/
theorem toFloat_binade2 (z : Int) (h1 : 33554432 ≤ z) (h2 : z < 67108864) :
    (z % 4 = 0 ∧ toFloat z = z) ∨ (z % 4 = 1 ∧ toFloat z = z - 1) ∨
      (z % 4 = 3 ∧ toFloat z = z + 1) ∨ (z % 8 = 2 ∧ toFloat z = z - 2) ∨
      (z % 8 = 6 ∧ toFloat z = z + 2) := by
  obtain ⟨n, rfl⟩ : ∃ n : Nat, z = n := ⟨z.toNat, by omega⟩
  have hu := ulp_of_lt_26 n (by omega) (by omega)
  unfold toFloat roundNat
  rw [if_pos (by omega), Int.toNat_ofNat, hu]
  split_ifs <;> omega

/-- The value of `toFloat` just above 2^26. -/
theorem toFloat_binade3 (z : Int) (h1 : 67108864 ≤ z) (h2 : z ≤ 67108867) :
    toFloat z = 67108864 := by
  obtain ⟨n, rfl⟩ : ∃ n : Nat, z = n := ⟨z.toNat, by omega⟩
  have hu := ulp_of_lt_27 n (by omega) (by omega)
  unfold toFloat roundNat
  rw [if_pos (by omega), Int.toNat_ofNat, hu]
  split_ifs <;> omega

/-- One step to the right from a binary32 position between -3 and 2^26: the
sum is again such a position, at least 0, and stepping back from it does not
pass the position left. -/
theorem toFloat_step_up (p : Int) (h1 : -3 ≤ p) (h2 : p ≤ 67108864) (hp : toFloat p = p) :
    0 ≤ toFloat (p + 3) ∧ toFloat (p + 3) ≤ 67108864 ∧
    toFloat (toFloat (p + 3)) = toFloat (p + 3) ∧
    toFloat (toFloat (p + 3) - 3) ≤ p := by
  rcases le_or_lt p 16777213 with c1 | c1
  · have e1 := toFloat_exact (p + 3) (by omega) (by omega)
    rw [e1, toFloat_exact (p + 3) (by omega) (by omega)]
    have e2 : p + 3 - 3 = p := by omega
    rw [e2, hp]
    omega
  rcases le_or_lt p 16777216 with c2 | c2
  · have : p = 16777214 ∨ p = 16777215 ∨ p = 16777216 := by omega
    rcases this with rfl | rfl | rfl <;> decide
  rcases lt_or_le p 33554428 with c3 | c3
  · have b0 := toFloat_binade1 p (by omega) (by omega)
    have b1 := toFloat_binade1 (p + 3) (by omega) (by omega)
    have hpe : p % 2 = 0 := by omega
    have ha : (p % 4 = 2 ∧ toFloat (p + 3) = p + 2) ∨ (p % 4 = 0 ∧ toFloat (p + 3) = p + 4) := by
      omega
    rcases ha with ⟨m, ha⟩ | ⟨m, ha⟩
    · rw [ha]
      have b2 := toFloat_binade1 (p + 2) (by omega) (by omega)
      have b3 := toFloat_binade1 (p + 2 - 3) (by omega) (by omega)
      omega
    · rw [ha]
      have b2 := toFloat_binade1 (p + 4) (by omega) (by omega)
      have b3 := toFloat_binade1 (p + 4 - 3) (by omega) (by omega)
      omega
  rcases lt_or_le p 33554432 with c4 | c4
  · have b0 := toFloat_binade1 p (by omega) (by omega)
    have : p = 33554428 ∨ p = 33554430 := by omega
    rcases this with rfl | rfl <;> decide
  rcases lt_or_le p 67108860 with c5 | c5
  · have b0 := toFloat_binade2 p (by omega) (by omega)
    have b1 := toFloat_binade2 (p + 3) (by omega) (by omega)
    have ha : toFloat (p + 3) = p + 4 := by omega
    rw [ha]
    have b2 := toFloat_binade2 (p + 4) (by omega) (by omega)
    have b3 := toFloat_binade2 (p + 4 - 3) (by omega) (by omega)
    omega
  · have b0 : p < 67108864 → (p % 4 = 0 ∧ toFloat p = p) ∨ (p % 4 = 1 ∧ toFloat p = p - 1) ∨
        (p % 4 = 3 ∧ toFloat p = p + 1) ∨ (p % 8 = 2 ∧ toFloat p = p - 2) ∨
        (p % 8 = 6 ∧ toFloat p = p + 2) := fun h => toFloat_binade2 p (by omega) h
    have : p = 67108860 ∨ p = 67108864 := by omega
    rcases this with rfl | rfl <;> decide

/-- One step to the left from a binary32 position between 0 and 2^26: the
difference is again such a position, at least -3 and at most the position
left. -/
theorem toFloat_step_down (p : Int) (h1 : 0 ≤ p) (h2 : p ≤ 67108864) (hp : toFloat p = p) :
    -3 ≤ toFloat (p - 3) ∧ toFloat (p - 3) ≤ p ∧
    toFloat (toFloat (p - 3)) = toFloat (p - 3) := by
  rcases le_or_lt p 16777219 with c1 | c1
  · have e1 := toFloat_exact (p - 3) (by omega) (by omega)
    rw [e1, toFloat_exact (p - 3) (by omega) (by omega)]
    omega
  rcases lt_or_le p 33554432 with c2 | c2
  · have b0 := toFloat_binade1 p (by omega) (by omega)
    have b1 := toFloat_binade1 (p - 3) (by omega) (by omega)
    have ha : (p % 4 = 2 ∧ toFloat (p - 3) = p - 2) ∨ (p % 4 = 0 ∧ toFloat (p - 3) = p - 4) := by
      omega
    rcases ha with ⟨m, ha⟩ | ⟨m, ha⟩
    · rw [ha]
      have b2 := toFloat_binade1 (p - 2) (by omega) (by omega)
      omega
    · rw [ha]
      rcases lt_or_le (p - 4) 16777216 with c | c
      · rw [toFloat_exact (p - 4) (by omega) (by omega)]
        omega
      · have b2 := toFloat_binade1 (p - 4) (by omega) (by omega)
        omega
  rcases le_or_lt p 33554435 with c3 | c3
  · have b0 := toFloat_binade2 p (by omega) (by omega)
    have : p = 33554432 := by omega
    subst this
    decide
  rcases lt_or_le p 67108864 with c4 | c4
  · have b0 := toFloat_binade2 p (by omega) (by omega)
    have b1 := toFloat_binade2 (p - 3) (by omega) (by omega)
    have ha : toFloat (p - 3) = p - 4 := by omega
    rw [ha]
    have b2 := toFloat_binade2 (p - 4) (by omega) (by omega)
    omega
  · have : p = 67108864 := by omega
    subst this
    decide

theorem floatAdd_exact (a b : Int) (h1 : -16777216 ≤ a + b) (h2 : a + b ≤ 16777216) :
    floatAdd a b = a + b :=
  toFloat_exact (a + b) h1 h2

/-- A `float` sum exceeds the window size exactly when the exact sum does. -/
theorem floatAdd_gt_iff (c a b : Int) (h0 : 0 ≤ c) (h1 : c < 8388608) :
    floatAdd a b > c ↔ a + b > c :=
  toFloat_gt_iff c (a + b) h0 h1

/-- A `float` sum is negative exactly when the exact sum is. -/
theorem floatAdd_neg_iff (a b : Int) : floatAdd a b < 0 ↔ a + b < 0 :=
  toFloat_neg_iff (a + b)

/-! ## Frame lemmas: what each operation leaves alone -/

theorem call_calls (g : Game) (c : Call) : (g.call c).calls = g.calls ++ [c] := rfl

theorem newCalls_append (g g' : Game) (l : List Call) (h : g'.calls = g.calls ++ l) :
    newCalls g g' = l := by
  simp [newCalls, h]

/-- `renderColor` changes only the generator position and the trace. -/
theorem renderColor_frame (env : Env) (g : Game) :
    renderColor env g =
      { g with gen := g.gen + 3
               calls := g.calls ++
                 [Call.SDL_SetRenderDrawColor
                    (env.argOrder.assign (env.sample g.gen % 256) (env.sample (g.gen + 1) % 256)
                      (env.sample (g.gen + 2) % 256)).1
                    (env.argOrder.assign (env.sample g.gen % 256) (env.sample (g.gen + 1) % 256)
                      (env.sample (g.gen + 2) % 256)).2.1
                    (env.argOrder.assign (env.sample g.gen % 256) (env.sample (g.gen + 1) % 256)
                      (env.sample (g.gen + 2) % 256)).2.2 255,
                  Call.Mix_PlayChannel g.cpp_sound] } := by
  simp [renderColor, rand_color, Game.call]

/-- Handling one event changes only the run flag, the generator position and
the trace. -/
theorem handleEvent_frame (env : Env) (g : Game) (e : SDL_Event) :
    ∃ r n c, handleEvent env g e = { g with is_running := r, gen := n, calls := c } := by
  unfold handleEvent
  split_ifs
  · exact ⟨false, g.gen, g.calls, rfl⟩
  · exact ⟨false, g.gen, g.calls, rfl⟩
  · exact ⟨g.is_running, _, _, renderColor_frame env g⟩
  · exact ⟨g.is_running, g.gen, g.calls, rfl⟩
  · exact ⟨g.is_running, g.gen, g.calls, rfl⟩

/-- `events` changes only the run flag, the generator position and the
trace. -/
theorem events_frame (env : Env) (queue : List SDL_Event) (g : Game) :
    ∃ r n c, (events env g queue).1 = { g with is_running := r, gen := n, calls := c } := by
  induction queue generalizing g with
  | nil => exact ⟨g.is_running, g.gen, g.calls, rfl⟩
  | cons e q ih =>
    obtain ⟨r, n, c, h⟩ := handleEvent_frame env g e
    rw [events, h]
    obtain ⟨r', n', c', h'⟩ := ih { g with is_running := r, gen := n, calls := c }
    exact ⟨r', n', c', h'⟩

/-- The x check of `updateText` written as one update. -/
theorem textCheckX_eq (g : Game) :
    textCheckX g =
      { g with
        text_xvel :=
          if g.text_rect.x < 0 then 3
          else if floatAdd g.text_rect.x g.text_rect.w > 800 then -3 else g.text_xvel
        calls := g.calls ++
          (if (decide (g.text_rect.x < 0) ||
              decide (floatAdd g.text_rect.x g.text_rect.w > 800))
            then [Call.Mix_PlayChannel g.sdl_sound] else []) } := by
  unfold textCheckX Game.call
  simp only [WINDOW_WIDTH, TEXT_VEL]
  by_cases h1 : g.text_rect.x < 0
  · simp [h1]
  · by_cases h2 : floatAdd g.text_rect.x g.text_rect.w > 800
    · simp [h1, h2]
    · simp [h1, h2]

/-- The y check of `updateText` written as one update. -/
theorem textCheckY_eq (g : Game) :
    textCheckY g =
      { g with
        text_yvel :=
          if g.text_rect.y < 0 then 3
          else if floatAdd g.text_rect.y g.text_rect.h > 600 then -3 else g.text_yvel
        calls := g.calls ++
          (if (decide (g.text_rect.y < 0) ||
              decide (floatAdd g.text_rect.y g.text_rect.h > 600))
            then [Call.Mix_PlayChannel g.sdl_sound] else []) } := by
  unfold textCheckY Game.call
  simp only [WINDOW_HEIGHT, TEXT_VEL]
  by_cases h1 : g.text_rect.y < 0
  · simp [h1]
  · by_cases h2 : floatAdd g.text_rect.y g.text_rect.h > 600
    · simp [h1, h2]
    · simp [h1, h2]

/-- `updateText` written as one update of the state at entry. -/
theorem updateText_eq (g : Game) :
    updateText g =
      { g with
        text_rect := ⟨floatAdd g.text_rect.x g.text_xvel, floatAdd g.text_rect.y g.text_yvel,
          g.text_rect.w, g.text_rect.h⟩
        text_xvel :=
          if floatAdd g.text_rect.x g.text_xvel < 0 then 3
          else if floatAdd (floatAdd g.text_rect.x g.text_xvel) g.text_rect.w > 800 then -3
          else g.text_xvel
        text_yvel :=
          if floatAdd g.text_rect.y g.text_yvel < 0 then 3
          else if floatAdd (floatAdd g.text_rect.y g.text_yvel) g.text_rect.h > 600 then -3
          else g.text_yvel
        calls := g.calls ++
          (if exceedsX g then [Call.Mix_PlayChannel g.sdl_sound] else []) ++
          (if exceedsY g then [Call.Mix_PlayChannel g.sdl_sound] else []) } := by
  rw [updateText, textCheckY_eq, textCheckX_eq]
  rfl

/-- `updateSprite` written as one update of the state at entry. -/
theorem updateSprite_eq (keystate : Nat → Bool) (g : Game) :
    updateSprite keystate g =
      { g with sprite_rect :=
          ⟨plusVel (heldRight keystate) (minusVel (heldLeft keystate) g.sprite_rect.x),
           plusVel (heldDown keystate) (minusVel (heldUp keystate) g.sprite_rect.y),
           g.sprite_rect.w, g.sprite_rect.h⟩ } := by
  simp only [updateSprite, spriteDown, spriteUp, spriteRight, spriteLeft,
    heldLeft, heldRight, heldUp, heldDown, plusVel, minusVel]
  split_ifs <;> rfl

/-- `draw` changes only the trace. -/
theorem draw_eq (g : Game) :
    draw g =
      { g with calls := g.calls ++
          [Call.SDL_RenderClear, Call.SDL_RenderTexture g.background none,
           Call.SDL_RenderTexture g.text_image (some g.text_rect),
           Call.SDL_RenderTexture g.sprite_image (some g.sprite_rect),
           Call.SDL_RenderPresent] } := by
  simp [draw, Game.call]

theorem draw_text_rect (g : Game) : (draw g).text_rect = g.text_rect := by
  rw [draw_eq]

theorem draw_text_xvel (g : Game) : (draw g).text_xvel = g.text_xvel := by
  rw [draw_eq]

theorem draw_text_yvel (g : Game) : (draw g).text_yvel = g.text_yvel := by
  rw [draw_eq]

theorem draw_sprite_rect (g : Game) : (draw g).sprite_rect = g.sprite_rect := by
  rw [draw_eq]

theorem updateText_text_rect (g : Game) :
    (updateText g).text_rect =
      ⟨floatAdd g.text_rect.x g.text_xvel, floatAdd g.text_rect.y g.text_yvel,
        g.text_rect.w, g.text_rect.h⟩ := by
  rw [updateText_eq]

theorem updateText_text_xvel (g : Game) :
    (updateText g).text_xvel =
      if floatAdd g.text_rect.x g.text_xvel < 0 then 3
      else if floatAdd (floatAdd g.text_rect.x g.text_xvel) g.text_rect.w > 800 then -3
      else g.text_xvel := by
  rw [updateText_eq]

theorem updateText_text_yvel (g : Game) :
    (updateText g).text_yvel =
      if floatAdd g.text_rect.y g.text_yvel < 0 then 3
      else if floatAdd (floatAdd g.text_rect.y g.text_yvel) g.text_rect.h > 600 then -3
      else g.text_yvel := by
  rw [updateText_eq]

theorem updateText_calls (g : Game) :
    (updateText g).calls = g.calls ++
      (if exceedsX g then [Call.Mix_PlayChannel g.sdl_sound] else []) ++
      (if exceedsY g then [Call.Mix_PlayChannel g.sdl_sound] else []) := by
  rw [updateText_eq]

theorem updateSprite_text_rect (keystate : Nat → Bool) (g : Game) :
    (updateSprite keystate g).text_rect = g.text_rect := by
  rw [updateSprite_eq]

theorem updateSprite_text_xvel (keystate : Nat → Bool) (g : Game) :
    (updateSprite keystate g).text_xvel = g.text_xvel := by
  rw [updateSprite_eq]

theorem updateSprite_text_yvel (keystate : Nat → Bool) (g : Game) :
    (updateSprite keystate g).text_yvel = g.text_yvel := by
  rw [updateSprite_eq]

theorem events_text_rect (env : Env) (queue : List SDL_Event) (g : Game) :
    (events env g queue).1.text_rect = g.text_rect := by
  obtain ⟨r, n, c, h⟩ := events_frame env queue g
  rw [h]

theorem events_text_xvel (env : Env) (queue : List SDL_Event) (g : Game) :
    (events env g queue).1.text_xvel = g.text_xvel := by
  obtain ⟨r, n, c, h⟩ := events_frame env queue g
  rw [h]

theorem events_text_yvel (env : Env) (queue : List SDL_Event) (g : Game) :
    (events env g queue).1.text_yvel = g.text_yvel := by
  obtain ⟨r, n, c, h⟩ := events_frame env queue g
  rw [h]

theorem events_sprite_rect (env : Env) (queue : List SDL_Event) (g : Game) :
    (events env g queue).1.sprite_rect = g.sprite_rect := by
  obtain ⟨r, n, c, h⟩ := events_frame env queue g
  rw [h]

/-! ## The moving text element -/

/-- The axis invariant is kept by the move and the check of `updateText`. -/
theorem InvAxis_step (p v s limit : Int) (hl0 : 0 ≤ limit) (hl1 : limit < 8388608)
    (h : InvAxis p v s limit) :
    InvAxis (floatAdd p v)
      (if floatAdd p v < 0 then 3
        else if floatAdd (floatAdd p v) s > limit then -3 else v) s limit := by
  obtain ⟨h1, h2, hp, hv⟩ := h
  rcases hv with ⟨rfl, hb⟩ | ⟨rfl, h0, hb⟩
  · obtain ⟨a1, a2, a3, a4⟩ := toFloat_step_up p h1 h2 hp
    unfold InvAxis floatAdd
    have hn : ¬ toFloat (p + 3) < 0 := by omega
    rw [if_neg hn]
    by_cases hr : toFloat (toFloat (p + 3) + s) > limit
    · rw [if_pos hr]
      have hr' := (toFloat_gt_iff limit _ hl0 hl1).mp hr
      exact ⟨by omega, a2, a3, Or.inr ⟨rfl, a1, by omega⟩⟩
    · rw [if_neg hr]
      have hr' : ¬ limit < toFloat (p + 3) + s :=
        fun hc => hr ((toFloat_gt_iff limit _ hl0 hl1).mpr hc)
      exact ⟨by omega, a2, a3, Or.inl ⟨rfl, by omega⟩⟩
  · obtain ⟨b1, b2, b3⟩ := toFloat_step_down p h0 h2 hp
    unfold InvAxis floatAdd
    have e : p + -3 = p - 3 := by omega
    rw [e]
    by_cases hl : toFloat (p - 3) < 0
    · rw [if_pos hl]
      exact ⟨b1, by omega, b3, Or.inl ⟨rfl, by omega⟩⟩
    · rw [if_neg hl]
      have hr : ¬ toFloat (toFloat (p - 3) + s) > limit := by
        intro hc
        have := (toFloat_gt_iff limit _ hl0 hl1).mp hc
        omega
      rw [if_neg hr]
      obtain ⟨c1, c2, c3⟩ := toFloat_step_down (toFloat (p - 3)) (by omega) (by omega) b3
      exact ⟨b1, by omega, b3, Or.inr ⟨rfl, by omega, by omega⟩⟩

/-- Under the axis invariant the sign of the velocity changes exactly when
the check of `updateText` fires. -/
theorem InvAxis_flip (p v s limit : Int) (hl0 : 0 ≤ limit) (hl1 : limit < 8388608)
    (h : InvAxis p v s limit) :
    velSign (if floatAdd p v < 0 then 3
        else if floatAdd (floatAdd p v) s > limit then -3 else v) ≠ velSign v ↔
      (floatAdd p v < 0 ∨ floatAdd (floatAdd p v) s > limit) := by
  obtain ⟨h1, h2, hp, hv⟩ := h
  rcases hv with ⟨rfl, hb⟩ | ⟨rfl, h0, hb⟩
  · obtain ⟨a1, a2, a3, a4⟩ := toFloat_step_up p h1 h2 hp
    unfold floatAdd
    have hn : ¬ toFloat (p + 3) < 0 := by omega
    rw [if_neg hn]
    by_cases hr : toFloat (toFloat (p + 3) + s) > limit
    · rw [if_pos hr]
      exact ⟨fun _ => Or.inr hr, fun _ => by decide⟩
    · rw [if_neg hr]
      exact ⟨fun hc => absurd rfl hc, fun hc => by rcases hc with hc | hc <;> contradiction⟩
  · obtain ⟨b1, b2, b3⟩ := toFloat_step_down p h0 h2 hp
    unfold floatAdd
    have e : p + -3 = p - 3 := by omega
    rw [e]
    by_cases hl : toFloat (p - 3) < 0
    · rw [if_pos hl]
      exact ⟨fun _ => Or.inl hl, fun _ => by decide⟩
    · rw [if_neg hl]
      have hr : ¬ toFloat (toFloat (p - 3) + s) > limit := by
        intro hc
        have := (toFloat_gt_iff limit _ hl0 hl1).mp hc
        omega
      rw [if_neg hr]
      exact ⟨fun hc => absurd rfl hc, fun hc => by rcases hc with hc | hc <;> contradiction⟩

/-- In the range where `float` arithmetic is exact the axis invariant reads:
moving forward the position is within [-3, limit - s], moving backward within
[0, limit + 3 - s]. -/
theorem InvAxis_exact (p v s limit : Int) (hs : 0 ≤ s) (hl0 : 0 ≤ limit)
    (hl1 : limit < 8388608) (h : InvAxis p v s limit) :
    (v = 3 ∧ -3 ≤ p ∧ p + s ≤ limit) ∨ (v = -3 ∧ 0 ≤ p ∧ p + s ≤ limit + 3) := by
  obtain ⟨h1, h2, hp, hv⟩ := h
  rcases hv with ⟨rfl, hb⟩ | ⟨rfl, h0, hb⟩
  · exact Or.inl ⟨rfl, h1, hb⟩
  · have hle : p - 3 ≤ limit := by
      by_contra hc
      have := (toFloat_gt_iff limit (p - 3) hl0 hl1).mpr (by omega)
      omega
    rw [toFloat_exact (p - 3) (by omega) (by omega)] at hb
    exact Or.inr ⟨rfl, h0, by omega⟩

/-- The x invariant is kept by `updateText`. -/
theorem InvX_updateText (g : Game) (h : InvX g) : InvX (updateText g) := by
  unfold InvX at *
  rw [updateText_text_rect, updateText_text_xvel]
  exact InvAxis_step _ _ _ 800 (by decide) (by decide) h

/-- The y invariant is kept by `updateText`. -/
theorem InvY_updateText (g : Game) (h : InvY g) : InvY (updateText g) := by
  unfold InvY at *
  rw [updateText_text_rect, updateText_text_yvel]
  exact InvAxis_step _ _ _ 600 (by decide) (by decide) h

/-- Every reachable state of an element no larger than the window keeps its
size and satisfies both axis invariants. -/
theorem reachable_inv (w h : Int) (hw : w ≤ 800) (hh : h ≤ 600) (g : Game)
    (hg : Reachable w h g) :
    g.text_rect.w = w ∧ g.text_rect.h = h ∧ InvX g ∧ InvY g := by
  induction hg with
  | start g hr hx hy =>
    unfold InvX InvY InvAxis
    rw [hr, hx, hy]
    simp only [TEXT_VEL]
    refine ⟨trivial, trivial, ⟨by omega, by omega, by decide, Or.inl ⟨trivial, by omega⟩⟩,
      ⟨by omega, by omega, by decide, Or.inl ⟨trivial, by omega⟩⟩⟩
  | afterEvents env queue hg ih =>
    unfold InvX InvY at *
    rw [events_text_rect, events_text_xvel, events_text_yvel]
    exact ih
  | afterUpdateText hg ih =>
    refine ⟨?_, ?_, InvX_updateText _ ih.2.2.1, InvY_updateText _ ih.2.2.2⟩
    · rw [updateText_text_rect]; exact ih.1
    · rw [updateText_text_rect]; exact ih.2.1
  | afterUpdateSprite keystate hg ih =>
    unfold InvX InvY at *
    rw [updateSprite_text_rect, updateSprite_text_xvel, updateSprite_text_yvel]
    exact ih
  | afterDraw hg ih =>
    unfold InvX InvY at *
    rw [draw_text_rect, draw_text_xvel, draw_text_yvel]
    exact ih
  | afterDelay hg ih => exact ih

/-- Under the x invariant the sign of the x-velocity changes exactly when the
box exceeds a boundary after the move. -/
theorem flipsX_eq_exceedsX (g : Game) (h : InvX g) : flipsX g = exceedsX g := by
  unfold flipsX exceedsX
  rw [updateText_text_xvel, Bool.eq_iff_iff]
  simp only [decide_eq_true_eq, Bool.or_eq_true, WINDOW_WIDTH]
  exact InvAxis_flip _ _ _ 800 (by decide) (by decide) h

/-- Under the y invariant the sign of the y-velocity changes exactly when the
box exceeds a boundary after the move. -/
theorem flipsY_eq_exceedsY (g : Game) (h : InvY g) : flipsY g = exceedsY g := by
  unfold flipsY exceedsY
  rw [updateText_text_yvel, Bool.eq_iff_iff]
  simp only [decide_eq_true_eq, Bool.or_eq_true, WINDOW_HEIGHT]
  exact InvAxis_flip _ _ _ 600 (by decide) (by decide) h

/-- Within one call the x-velocity is assigned at most once, so its sign
changes at most once. -/
theorem signChanges_xvelTrace (g : Game) : signChanges (xvelTrace g) ≤ 1 := by
  have h1 : (textMoveX g).text_xvel = g.text_xvel := rfl
  have h2 : (textMoveY (textMoveX g)).text_xvel = g.text_xvel := rfl
  have h3 : (textCheckY (textCheckX (textMoveY (textMoveX g)))).text_xvel =
      (textCheckX (textMoveY (textMoveX g))).text_xvel := by
    rw [textCheckY_eq]
  simp only [xvelTrace, updateTextStates, List.map, h1, h2, h3, signChanges]
  split_ifs <;> simp_all

/-- Within one call the y-velocity is assigned at most once, so its sign
changes at most once. -/
theorem signChanges_yvelTrace (g : Game) : signChanges (yvelTrace g) ≤ 1 := by
  have h1 : (textMoveX g).text_yvel = g.text_yvel := rfl
  have h2 : (textMoveY (textMoveX g)).text_yvel = g.text_yvel := rfl
  have h3 : (textCheckX (textMoveY (textMoveX g))).text_yvel = g.text_yvel := by
    rw [textCheckX_eq]; rfl
  simp only [yvelTrace, updateTextStates, List.map, h1, h2, h3, signChanges]
  split_ifs <;> simp_all

/-- C2 (as stated, refuted): with a text element 801 wide, the state after
the first frame is reachable, the second call of `updateText` from it finds
the box beyond the right boundary after the move (0 + 801 > 800), and yet the
sign of the x-velocity is the same before and after that call (-3 is set
again). -/
theorem flip_iff_exceeds_fails_for_wide_text :
    Reachable 801 100 (updateText (startState 801 100)) ∧
    exceedsX (updateText (startState 801 100)) = true ∧
    (updateText (updateText (startState 801 100))).text_rect.x + 801 > 800 ∧
    velSign (updateText (updateText (startState 801 100))).text_xvel
      = velSign (updateText (startState 801 100)).text_xvel ∧
    ¬ (velSign (updateText (updateText (startState 801 100))).text_xvel
        ≠ velSign (updateText (startState 801 100)).text_xvel ↔
       exceedsX (updateText (startState 801 100)) = true) := by
  refine ⟨Reachable.afterUpdateText (Reachable.start _ rfl rfl rfl), by decide, by decide,
    by decide, by decide⟩

/-- C2 (amended): in every state reachable from the initial state (text
element at (0, 0), velocity (+3, +3)) with an element no larger than the
window (w ≤ 800, h ≤ 600), the sign of the velocity on an axis after
`updateText` differs from its sign before the call if and only if the box
exceeds a boundary on that axis after the move of that call; and for every
state the sign changes at most once per axis along the statements of one
call. -/
theorem flip_iff_exceeds (w h : Int) (g : Game) (hw : w ≤ 800) (hh : h ≤ 600)
    (hg : Reachable w h g) :
    (velSign (updateText g).text_xvel ≠ velSign g.text_xvel ↔
      ((updateText g).text_rect.x < 0 ∨ (updateText g).text_rect.x + w > 800)) ∧
    (velSign (updateText g).text_yvel ≠ velSign g.text_yvel ↔
      ((updateText g).text_rect.y < 0 ∨ (updateText g).text_rect.y + h > 600)) ∧
    signChanges (xvelTrace g) ≤ 1 ∧ signChanges (yvelTrace g) ≤ 1 := by
  obtain ⟨ew, eh, ix, iy⟩ := reachable_inv w h hw hh g hg
  have hx := flipsX_eq_exceedsX g ix
  have hy := flipsY_eq_exceedsY g iy
  have gx : ∀ a b : Int, floatAdd a b > 800 ↔ a + b > 800 :=
    fun a b => floatAdd_gt_iff 800 a b (by decide) (by decide)
  have gy : ∀ a b : Int, floatAdd a b > 600 ↔ a + b > 600 :=
    fun a b => floatAdd_gt_iff 600 a b (by decide) (by decide)
  refine ⟨?_, ?_, signChanges_xvelTrace g, signChanges_yvelTrace g⟩
  · have : (velSign (updateText g).text_xvel ≠ velSign g.text_xvel) ↔ flipsX g = true := by
      simp [flipsX]
    rw [this, hx, updateText_text_rect, ← ew]
    simp [exceedsX, WINDOW_WIDTH, gx]
  · have : (velSign (updateText g).text_yvel ≠ velSign g.text_yvel) ↔ flipsY g = true := by
      simp [flipsY]
    rw [this, hy, updateText_text_rect, ← eh]
    simp [exceedsY, WINDOW_HEIGHT, gy]

/-- Witness of `flip_iff_exceeds`: an element of 798 by 598 bounces on both
axes in the first frame. -/
theorem flip_iff_exceeds_witness :
    (798 : Int) ≤ 800 ∧ (598 : Int) ≤ 600 ∧ Reachable 798 598 (startState 798 598) ∧
    ((velSign (updateText (startState 798 598)).text_xvel ≠
        velSign (startState 798 598).text_xvel ↔
      ((updateText (startState 798 598)).text_rect.x < 0 ∨
        (updateText (startState 798 598)).text_rect.x + 798 > 800)) ∧
    (velSign (updateText (startState 798 598)).text_yvel ≠
        velSign (startState 798 598).text_yvel ↔
      ((updateText (startState 798 598)).text_rect.y < 0 ∨
        (updateText (startState 798 598)).text_rect.y + 598 > 600)) ∧
    signChanges (xvelTrace (startState 798 598)) ≤ 1 ∧
    signChanges (yvelTrace (startState 798 598)) ≤ 1) :=
  ⟨by decide, by decide, Reachable.start _ rfl rfl rfl,
    flip_iff_exceeds 798 598 (startState 798 598) (by decide) (by decide)
      (Reachable.start _ rfl rfl rfl)⟩

/-- The calls one `updateText` adds: one play request of sound B per axis
whose check fires. -/
theorem newCalls_updateText (g : Game) :
    newCalls g (updateText g) =
      (if exceedsX g then [Call.Mix_PlayChannel g.sdl_sound] else []) ++
      (if exceedsY g then [Call.Mix_PlayChannel g.sdl_sound] else []) := by
  apply newCalls_append
  rw [updateText_calls, List.append_assoc]

/-- C3 (as stated, refuted): from a state off the left edge and moving right
(x = -10, vx = +3) one call issues one play request of sound B although no
velocity sign changes; the same happens in a reachable state when the text is
taller than the window (h = 601, second frame). -/
theorem requests_eq_flips_fails :
    (playCount offLeftState.sdl_sound (newCalls offLeftState (updateText offLeftState)) = 1 ∧
      flipCount offLeftState = 0) ∧
    (Reachable 100 601 (updateText (startState 100 601)) ∧
      playCount (updateText (startState 100 601)).sdl_sound
        (newCalls (updateText (startState 100 601))
          (updateText (updateText (startState 100 601)))) = 1 ∧
      flipCount (updateText (startState 100 601)) = 0) := by
  refine ⟨⟨by decide, by decide⟩,
    Reachable.afterUpdateText (Reachable.start _ rfl rfl rfl), by decide, by decide⟩

/-- C3 (amended): in every state reachable from the initial state with an
element no larger than the window (w ≤ 800, h ≤ 600), the calls one
`updateText` issues are exactly as many play requests of sound B as there are
axes on which the velocity sign flipped in that call: one per flipping axis,
two when both flip, none when no sign flips. -/
theorem requests_eq_flips (w h : Int) (g : Game) (hw : w ≤ 800) (hh : h ≤ 600)
    (hg : Reachable w h g) :
    newCalls g (updateText g) =
      List.replicate (flipCount g) (Call.Mix_PlayChannel g.sdl_sound) ∧
    playCount g.sdl_sound (newCalls g (updateText g)) = flipCount g ∧
    (flipsX g = true → flipsY g = true →
      newCalls g (updateText g) =
        [Call.Mix_PlayChannel g.sdl_sound, Call.Mix_PlayChannel g.sdl_sound]) ∧
    (flipsX g = false → flipsY g = false → newCalls g (updateText g) = []) := by
  obtain ⟨_, _, ix, iy⟩ := reachable_inv w h hw hh g hg
  have hx := flipsX_eq_exceedsX g ix
  have hy := flipsY_eq_exceedsY g iy
  rw [newCalls_updateText, ← hx, ← hy]
  unfold flipCount playCount
  cases flipsX g <;> cases flipsY g <;> simp [List.replicate]

/-- Witness of `requests_eq_flips`: an element of 798 by 598 flips on both
axes in the first frame and two requests are issued. -/
theorem requests_eq_flips_witness :
    Reachable 798 598 (startState 798 598) ∧ flipCount (startState 798 598) = 2 ∧
    newCalls (startState 798 598) (updateText (startState 798 598)) =
      List.replicate (flipCount (startState 798 598))
        (Call.Mix_PlayChannel (startState 798 598).sdl_sound) :=
  ⟨Reachable.start _ rfl rfl rfl, by decide,
    (requests_eq_flips 798 598 (startState 798 598) (by decide) (by decide)
      (Reachable.start _ rfl rfl rfl)).1⟩

/-! ## The keyboard-driven element -/

theorem updateText_sprite_rect (g : Game) : (updateText g).sprite_rect = g.sprite_rect := by
  rw [updateText_eq]

theorem updateText_is_running (g : Game) : (updateText g).is_running = g.is_running := by
  rw [updateText_eq]

theorem updateSprite_is_running (keystate : Nat → Bool) (g : Game) :
    (updateSprite keystate g).is_running = g.is_running := by
  rw [updateSprite_eq]

theorem draw_is_running (g : Game) : (draw g).is_running = g.is_running := by
  rw [draw_eq]

theorem renderColor_is_running (env : Env) (g : Game) :
    (renderColor env g).is_running = g.is_running := by
  rw [renderColor_frame]

/-- The sprite rectangle after a whole tick is the one `updateSprite` makes
from the rectangle before the tick. -/
theorem tick_sprite_rect (env : Env) (keystate : Nat → Bool) (queue : List SDL_Event)
    (g : Game) :
    (tick env keystate queue g).sprite_rect =
      ⟨plusVel (heldRight keystate) (minusVel (heldLeft keystate) g.sprite_rect.x),
       plusVel (heldDown keystate) (minusVel (heldUp keystate) g.sprite_rect.y),
       g.sprite_rect.w, g.sprite_rect.h⟩ := by
  show (draw (updateSprite keystate (updateText (events env g queue).1))).sprite_rect = _
  rw [draw_sprite_rect, updateSprite_eq]
  simp only [updateText_sprite_rect, events_sprite_rect]

/-- C5: a full tick (event drain, text advance, sprite advance, render pass,
delay) in which none of the eight directional keys is held leaves the
rectangle of the keyboard-driven element, position and size, equal to what it
was before the tick, whatever the events drained and whatever the state. -/
theorem tick_without_keys_keeps_sprite (env : Env) (keystate : Nat → Bool)
    (queue : List SDL_Event) (g : Game)
    (hkeys : ∀ sc ∈ directionalKeys, keystate sc = false) :
    (tick env keystate queue g).sprite_rect = g.sprite_rect := by
  have hL : heldLeft keystate = false := by
    simp [heldLeft, hkeys SDL_SCANCODE_LEFT (by decide), hkeys SDL_SCANCODE_A (by decide)]
  have hR : heldRight keystate = false := by
    simp [heldRight, hkeys SDL_SCANCODE_RIGHT (by decide), hkeys SDL_SCANCODE_D (by decide)]
  have hU : heldUp keystate = false := by
    simp [heldUp, hkeys SDL_SCANCODE_UP (by decide), hkeys SDL_SCANCODE_W (by decide)]
  have hD : heldDown keystate = false := by
    simp [heldDown, hkeys SDL_SCANCODE_DOWN (by decide), hkeys SDL_SCANCODE_S (by decide)]
  rw [tick_sprite_rect, hL, hR, hU, hD]
  rfl

/-- Witness of `tick_without_keys_keeps_sprite`: a tick that drains a Space
press and a quit with only Space held leaves the sprite at (7, 9). -/
theorem tick_without_keys_keeps_sprite_witness :
    (tick exampleEnv (keysHeld [SDL_SCANCODE_SPACE])
        [⟨SDL_EVENT_KEY_DOWN, SDL_SCANCODE_SPACE⟩, ⟨SDL_EVENT_QUIT, 0⟩] exampleRunning).sprite_rect
      = ⟨7, 9, 100, 100⟩ :=
  tick_without_keys_keeps_sprite exampleEnv (keysHeld [SDL_SCANCODE_SPACE])
    [⟨SDL_EVENT_KEY_DOWN, SDL_SCANCODE_SPACE⟩, ⟨SDL_EVENT_QUIT, 0⟩] exampleRunning (by decide)

/-- The two nested `switch` statements as a case distinction on the kind of
event. -/
theorem handleEvent_eq (env : Env) (g : Game) (e : SDL_Event) :
    handleEvent env g e =
      if isStop e then { g with is_running := false }
      else if isTrigger e then renderColor env g else g := by
  unfold handleEvent isStop isTrigger
  by_cases h1 : e.type = SDL_EVENT_QUIT
  · simp [h1]
  · by_cases h2 : e.type = SDL_EVENT_KEY_DOWN
    · by_cases h3 : e.scancode = SDL_SCANCODE_ESCAPE
      · simp [h1, h2, h3]
      · simp [h1, h2, h3]
    · simp [h1, h2]

theorem events_cons (env : Env) (g : Game) (e : SDL_Event) (q : List SDL_Event) :
    events env g (e :: q) = events env (handleEvent env g e) q := rfl

theorem events_append (env : Env) (q1 q2 : List SDL_Event) (g : Game) :
    (events env g (q1 ++ q2)).1 = (events env (events env g q1).1 q2).1 := by
  induction q1 generalizing g with
  | nil => rfl
  | cons e q ih => rw [List.cons_append, events_cons, events_cons, ih]

theorem events_queue_empty (env : Env) (q : List SDL_Event) (g : Game) :
    (events env g q).2 = [] := by
  induction q generalizing g with
  | nil => rfl
  | cons e q ih => rw [events_cons, ih]

theorem handleEvent_is_running (env : Env) (g : Game) (e : SDL_Event) :
    (handleEvent env g e).is_running = (g.is_running && !isStop e) := by
  rw [handleEvent_eq]
  split_ifs with h1 h2
  · simp [h1]
  · rw [renderColor_is_running]; simp [h1]
  · simp [h1]

theorem events_is_running (env : Env) (q : List SDL_Event) (g : Game) :
    (events env g q).1.is_running = (g.is_running && !q.any isStop) := by
  induction q generalizing g with
  | nil => simp [events]
  | cons e q ih =>
    rw [events_cons, ih, handleEvent_is_running, List.any_cons]
    cases g.is_running <;> cases isStop e <;> simp

theorem handleEvent_cpp_sound (env : Env) (g : Game) (e : SDL_Event) :
    (handleEvent env g e).cpp_sound = g.cpp_sound := by
  obtain ⟨r, n, c, h⟩ := handleEvent_frame env g e
  rw [h]

theorem isStop_not_isTrigger (e : SDL_Event) (h : isStop e = true) : isTrigger e = false := by
  unfold isStop at h
  unfold isTrigger
  simp only [Bool.or_eq_true, Bool.and_eq_true, beq_iff_eq] at h
  rcases h with h | ⟨h, h'⟩
  · simp [h, SDL_EVENT_QUIT, SDL_EVENT_KEY_DOWN]
  · simp [h, h', SDL_SCANCODE_ESCAPE, SDL_SCANCODE_SPACE]

theorem handleEvent_gen (env : Env) (g : Game) (e : SDL_Event) :
    (handleEvent env g e).gen = g.gen + (if isTrigger e then 3 else 0) := by
  rw [handleEvent_eq]
  by_cases h1 : isStop e = true
  · have h2 := isStop_not_isTrigger e h1
    simp [h1, h2]
  · by_cases h2 : isTrigger e = true
    · rw [Bool.not_eq_true] at h1
      rw [h1, h2, if_neg Bool.false_ne_true, if_pos rfl, if_pos rfl, renderColor_frame]
    · simp [h1, h2]

theorem events_gen (env : Env) (q : List SDL_Event) (g : Game) :
    (events env g q).1.gen = g.gen + 3 * q.countP isTrigger := by
  induction q generalizing g with
  | nil => simp [events]
  | cons e q ih =>
    rw [events_cons, ih, handleEvent_gen, List.countP_cons]
    split_ifs <;> omega

/-- The calls the handling of one event adds: the colour change and the play
request of sound A for a trigger, nothing otherwise. -/
theorem handleEvent_calls (env : Env) (g : Game) (e : SDL_Event) :
    ∃ r gr b, (handleEvent env g e).calls = g.calls ++
      (if isTrigger e then
        [Call.SDL_SetRenderDrawColor r gr b 255, Call.Mix_PlayChannel g.cpp_sound]
       else []) := by
  rw [handleEvent_eq]
  by_cases h1 : isStop e = true
  · have h2 := isStop_not_isTrigger e h1
    exact ⟨0, 0, 0, by simp [h1, h2]⟩
  · by_cases h2 : isTrigger e = true
    · rw [Bool.not_eq_true] at h1
      rw [h1, h2, if_neg Bool.false_ne_true, if_pos rfl, renderColor_frame]
      exact ⟨_, _, _, by rw [if_pos rfl]⟩
    · exact ⟨0, 0, 0, by simp [h1, h2]⟩

/-- The calls one event drain adds: per trigger one colour change and one
play request of sound A, and nothing else. -/
theorem events_calls (env : Env) (q : List SDL_Event) (g : Game) :
    ∃ l, (events env g q).1.calls = g.calls ++ l ∧
      l.countP Call.isSetColor = q.countP isTrigger ∧
      playCount g.cpp_sound l = q.countP isTrigger ∧
      l.length = 2 * q.countP isTrigger := by
  induction q generalizing g with
  | nil => exact ⟨[], by simp [events], by simp, by simp [playCount], by simp⟩
  | cons e q ih =>
    obtain ⟨l, hl, h1, h2, h3⟩ := ih (handleEvent env g e)
    obtain ⟨r, gr, b, hc⟩ := handleEvent_calls env g e
    rw [handleEvent_cpp_sound] at h2
    rw [events_cons, hl, hc]
    by_cases ht : isTrigger e = true
    · refine ⟨[Call.SDL_SetRenderDrawColor r gr b 255, Call.Mix_PlayChannel g.cpp_sound] ++ l,
        by simp [ht], ?_, ?_, ?_⟩
      · rw [List.countP_append, h1, List.countP_cons_of_pos _ _ ht]
        simp [List.countP_cons, Call.isSetColor]; omega
      · unfold playCount at *
        rw [List.count_append, h2, List.countP_cons_of_pos _ _ ht]
        simp [List.count_cons]; omega
      · rw [List.length_append, h3, List.countP_cons_of_pos _ _ ht]
        simp; omega
    · simp only [Bool.not_eq_true] at ht
      refine ⟨l, by simp [ht], ?_, ?_, ?_⟩
      · rw [h1, List.countP_cons]; simp [ht]
      · rw [h2, List.countP_cons]; simp [ht]
      · rw [h3, List.countP_cons]; simp [ht]

/-- An event that is neither a stop nor a trigger changes nothing. -/
theorem handleEvent_other (env : Env) (g : Game) (e : SDL_Event)
    (h1 : isStop e = false) (h2 : isTrigger e = false) : handleEvent env g e = g := by
  rw [handleEvent_eq]; simp [h1, h2]

/-- C7: the run flag is true after construction; after `Game::events` it
equals the flag before AND the batch holding neither a quit event nor a
key-down of Escape; every other operation leaves it as it is, so nothing sets
it from false back to true; and a batch of key-up events and key-downs of
other keys leaves it as it is. -/
theorem run_flag_contract :
    Game.new.is_running = true ∧
    (∀ (env : Env) (g : Game) (queue : List SDL_Event),
      (events env g queue).1.is_running = (g.is_running && !queue.any isStop)) ∧
    (∀ (env : Env) (keystate : Nat → Bool) (queue : List SDL_Event) (g : Game),
      g.is_running = false →
        (events env g queue).1.is_running = false ∧ (renderColor env g).is_running = false ∧
        (updateText g).is_running = false ∧ (updateSprite keystate g).is_running = false ∧
        (draw g).is_running = false ∧ (tick env keystate queue g).is_running = false) ∧
    (∀ (env : Env) (g : Game) (queue : List SDL_Event),
      (∀ e ∈ queue, e.type = SDL_EVENT_KEY_UP ∨
        (e.type = SDL_EVENT_KEY_DOWN ∧ e.scancode ≠ SDL_SCANCODE_ESCAPE)) →
      (events env g queue).1.is_running = g.is_running) := by
  refine ⟨rfl, fun env g queue => events_is_running env queue g, ?_, ?_⟩
  · intro env keystate queue g hg
    refine ⟨by rw [events_is_running, hg]; rfl, by rw [renderColor_is_running, hg],
      by rw [updateText_is_running, hg], by rw [updateSprite_is_running, hg],
      by rw [draw_is_running, hg], ?_⟩
    show (draw (updateSprite keystate (updateText (events env g queue).1))).is_running = false
    rw [draw_is_running, updateSprite_is_running, updateText_is_running, events_is_running, hg]
    rfl
  · intro env g queue hq
    rw [events_is_running]
    have : queue.any isStop = false := by
      rw [List.any_eq_false]
      intro e he
      rcases hq e he with h | ⟨h, h'⟩
      · simp [isStop, h, SDL_EVENT_KEY_UP, SDL_EVENT_QUIT, SDL_EVENT_KEY_DOWN]
      · simp [isStop, h, h', SDL_EVENT_QUIT, SDL_EVENT_KEY_DOWN]
    rw [this]; simp

/-- Witness of `run_flag_contract`: a stopped session stays stopped through a
drain of a Space press, and a running one keeps running through a key-up of
Escape and a key-down of Space. -/
theorem run_flag_contract_witness :
    (events exampleEnv { exampleRunning with is_running := false }
        [⟨SDL_EVENT_KEY_DOWN, SDL_SCANCODE_SPACE⟩]).1.is_running = false ∧
    (events exampleEnv exampleRunning
        [⟨SDL_EVENT_KEY_UP, SDL_SCANCODE_ESCAPE⟩,
         ⟨SDL_EVENT_KEY_DOWN, SDL_SCANCODE_SPACE⟩]).1.is_running = true :=
  ⟨(run_flag_contract.2.2.1 exampleEnv (keysHeld [])
      [⟨SDL_EVENT_KEY_DOWN, SDL_SCANCODE_SPACE⟩] { exampleRunning with is_running := false }
      rfl).1,
   run_flag_contract.2.2.2 exampleEnv exampleRunning
      [⟨SDL_EVENT_KEY_UP, SDL_SCANCODE_ESCAPE⟩, ⟨SDL_EVENT_KEY_DOWN, SDL_SCANCODE_SPACE⟩]
      (by decide)⟩

/-- C8: `Game::events` handles every pending event in queue order and stops
only when the queue is empty; the colour resamples and the play requests of
sound A it issues are each as many as the Space key-downs of the batch, also
those behind a quit or an Escape press, and it issues no other call; an event
that is neither quit, nor a key-down of Escape or Space, changes nothing. -/
theorem events_drains_queue :
    (∀ (env : Env) (g : Game) (queue : List SDL_Event), (events env g queue).2 = []) ∧
    (∀ (env : Env) (g : Game) (e : SDL_Event) (queue : List SDL_Event),
      events env g (e :: queue) = events env (handleEvent env g e) queue) ∧
    (∀ (env : Env) (g : Game) (q1 q2 : List SDL_Event),
      (events env g (q1 ++ q2)).1 = (events env (events env g q1).1 q2).1) ∧
    (∀ (env : Env) (g : Game) (queue : List SDL_Event),
      (newCalls g (events env g queue).1).countP Call.isSetColor = queue.countP isTrigger ∧
      playCount g.cpp_sound (newCalls g (events env g queue).1) = queue.countP isTrigger ∧
      (newCalls g (events env g queue).1).length = 2 * queue.countP isTrigger) ∧
    newCalls exampleRunning
        (events exampleEnv exampleRunning
          [⟨SDL_EVENT_QUIT, 0⟩, ⟨SDL_EVENT_KEY_DOWN, SDL_SCANCODE_SPACE⟩,
           ⟨SDL_EVENT_KEY_DOWN, SDL_SCANCODE_ESCAPE⟩,
           ⟨SDL_EVENT_KEY_DOWN, SDL_SCANCODE_SPACE⟩]).1
      = [Call.SDL_SetRenderDrawColor 0 1 2 255, Call.Mix_PlayChannel (some Res.cpp_sound),
         Call.SDL_SetRenderDrawColor 3 4 5 255, Call.Mix_PlayChannel (some Res.cpp_sound)] ∧
    (∀ (env : Env) (g : Game) (e : SDL_Event),
      isStop e = false → isTrigger e = false → handleEvent env g e = g) ∧
    (∀ (env : Env) (g : Game) (queue : List SDL_Event),
      (∀ e ∈ queue, isStop e = false ∧ isTrigger e = false) → events env g queue = (g, [])) := by
  refine ⟨fun env g queue => events_queue_empty env queue g, fun _ _ _ _ => rfl,
    fun env g q1 q2 => events_append env q1 q2 g, ?_, by decide,
    fun env g e h1 h2 => handleEvent_other env g e h1 h2, ?_⟩
  · intro env g queue
    obtain ⟨l, hl, h1, h2, h3⟩ := events_calls env queue g
    rw [newCalls_append g _ l hl]
    exact ⟨h1, h2, h3⟩
  · intro env g queue
    induction queue with
    | nil => intro _; rfl
    | cons e q ih =>
      intro h
      rw [events_cons, handleEvent_other env g e (h e (List.mem_cons_self _ _)).1
        (h e (List.mem_cons_self _ _)).2]
      exact ih (fun e' he' => h e' (List.mem_cons_of_mem _ he'))

/-- Witness of `events_drains_queue`: a batch of a Space key-up, an Escape
key-up and an event of another type leaves the state as it was. -/
theorem events_drains_queue_witness :
    events exampleEnv exampleRunning
      [⟨SDL_EVENT_KEY_UP, SDL_SCANCODE_SPACE⟩, ⟨SDL_EVENT_KEY_UP, SDL_SCANCODE_ESCAPE⟩,
       ⟨0x400, 0⟩] = (exampleRunning, []) :=
  events_drains_queue.2.2.2.2.2.2 exampleEnv exampleRunning
    [⟨SDL_EVENT_KEY_UP, SDL_SCANCODE_SPACE⟩, ⟨SDL_EVENT_KEY_UP, SDL_SCANCODE_ESCAPE⟩,
     ⟨0x400, 0⟩] (by decide)

/-! ## Startup -/

theorem loadIcon_returned (env : Env) (g g' : Game) (h : loadIcon env g = Outcome.returned g') :
    g' = { g with
      icon_surf := some Res.icon_surf
      calls := g.calls ++ [Call.create Res.icon_surf true] ++ deleterCalls g.icon_surf ++
        [Call.SDL_SetWindowIcon] } := by
  unfold loadIcon loaded at h
  generalize env.fails (Step.create Res.icon_surf) = b at h
  cases b
  · injection h with h
    rw [← h]
    simp [Game.call]
  · cases h

theorem createRenderer_returned (env : Env) (g g' : Game)
    (h : createRenderer env g = Outcome.returned g') :
    g' = { g with
      renderer := some Res.renderer
      icon_surf := some Res.icon_surf
      calls := g.calls ++ [Call.create Res.renderer true] ++ deleterCalls g.renderer ++
        [Call.create Res.icon_surf true] ++ deleterCalls g.icon_surf ++
        [Call.SDL_SetWindowIcon] } := by
  unfold createRenderer loaded at h
  generalize env.fails (Step.create Res.renderer) = b at h
  cases b
  · rw [loadIcon_returned env _ g' h]
    simp [Game.call]
  · cases h

theorem createWindow_returned (env : Env) (g g' : Game)
    (h : createWindow env g = Outcome.returned g') :
    g' = { g with
      window := some Res.window
      renderer := some Res.renderer
      icon_surf := some Res.icon_surf
      calls := g.calls ++ [Call.create Res.window true] ++ deleterCalls g.window ++
        [Call.create Res.renderer true] ++ deleterCalls g.renderer ++
        [Call.create Res.icon_surf true] ++ deleterCalls g.icon_surf ++
        [Call.SDL_SetWindowIcon] } := by
  unfold createWindow loaded at h
  generalize env.fails (Step.create Res.window) = b at h
  cases b
  · rw [createRenderer_returned env _ g' h]
    simp [Game.call]
  · cases h

theorem openAudio_returned (env : Env) (g g' : Game)
    (h : openAudio env g = Outcome.returned g') :
    g' = { g with
      window := some Res.window
      renderer := some Res.renderer
      icon_surf := some Res.icon_surf
      calls := g.calls ++ [Call.Mix_OpenAudio true, Call.create Res.window true] ++
        deleterCalls g.window ++
        [Call.create Res.renderer true] ++ deleterCalls g.renderer ++
        [Call.create Res.icon_surf true] ++ deleterCalls g.icon_surf ++
        [Call.SDL_SetWindowIcon] } := by
  unfold openAudio at h
  generalize env.fails Step.Mix_OpenAudio = b at h
  cases b
  · rw [createWindow_returned env _ g' h]
    simp [Game.call]
  · cases h

theorem initMixer_returned (env : Env) (g g' : Game)
    (h : initMixer env g = Outcome.returned g') :
    g' = { g with
      window := some Res.window
      renderer := some Res.renderer
      icon_surf := some Res.icon_surf
      calls := g.calls ++ [Call.Mix_Init true, Call.Mix_OpenAudio true,
        Call.create Res.window true] ++ deleterCalls g.window ++
        [Call.create Res.renderer true] ++ deleterCalls g.renderer ++
        [Call.create Res.icon_surf true] ++ deleterCalls g.icon_surf ++
        [Call.SDL_SetWindowIcon] } := by
  unfold initMixer at h
  generalize env.fails Step.Mix_Init = b at h
  cases b
  · rw [openAudio_returned env _ g' h]
    simp [Game.call]
  · cases h

theorem initTtf_returned (env : Env) (g g' : Game)
    (h : initTtf env g = Outcome.returned g') :
    g' = { g with
      window := some Res.window
      renderer := some Res.renderer
      icon_surf := some Res.icon_surf
      calls := g.calls ++ [Call.TTF_Init true, Call.Mix_Init true, Call.Mix_OpenAudio true,
        Call.create Res.window true] ++ deleterCalls g.window ++
        [Call.create Res.renderer true] ++ deleterCalls g.renderer ++
        [Call.create Res.icon_surf true] ++ deleterCalls g.icon_surf ++
        [Call.SDL_SetWindowIcon] } := by
  unfold initTtf at h
  generalize env.fails Step.TTF_Init = b at h
  cases b
  · rw [initMixer_returned env _ g' h]
    simp [Game.call]
  · cases h

/-- When `initSdl` returns, every one of its steps succeeded and the state is
the one at entry with the three handles set and the calls recorded. -/
theorem initSdl_returned (env : Env) (g g' : Game) (h : initSdl env g = Outcome.returned g') :
    g' = { g with
      window := some Res.window
      renderer := some Res.renderer
      icon_surf := some Res.icon_surf
      calls := g.calls ++ [Call.SDL_Init true, Call.TTF_Init true, Call.Mix_Init true,
        Call.Mix_OpenAudio true, Call.create Res.window true] ++ deleterCalls g.window ++
        [Call.create Res.renderer true] ++ deleterCalls g.renderer ++
        [Call.create Res.icon_surf true] ++ deleterCalls g.icon_surf ++
        [Call.SDL_SetWindowIcon] } := by
  unfold initSdl at h
  generalize env.fails Step.SDL_Init = b at h
  cases b
  · rw [initTtf_returned env _ g' h]
    simp [Game.call]
  · cases h

theorem loadMusic_returned (env : Env) (font text_surf : Option Res) (g g' : Game)
    (h : loadMusic env font text_surf g = Outcome.returned g') :
    g' = { g with
      music := some Res.music
      calls := g.calls ++ [Call.create Res.music true] ++ deleterCalls g.music ++
        deleterCalls text_surf ++ deleterCalls font } := by
  unfold loadMusic loaded at h
  generalize env.fails (Step.create Res.music) = b at h
  cases b
  · injection h with h
    rw [← h]
    simp [Game.call, leaveLoadMedia]
  · cases h

theorem loadSdlSound_returned (env : Env) (font text_surf : Option Res) (g g' : Game)
    (h : loadSdlSound env font text_surf g = Outcome.returned g') :
    g' = { g with
      sdl_sound := some Res.sdl_sound
      music := some Res.music
      calls := g.calls ++ [Call.create Res.sdl_sound true] ++ deleterCalls g.sdl_sound ++
        [Call.create Res.music true] ++ deleterCalls g.music ++
        deleterCalls text_surf ++ deleterCalls font } := by
  unfold loadSdlSound loaded at h
  generalize env.fails (Step.create Res.sdl_sound) = b at h
  cases b
  · rw [loadMusic_returned env _ _ _ g' h]
    simp [Game.call]
  · cases h

theorem loadCppSound_returned (env : Env) (font text_surf : Option Res) (g g' : Game)
    (h : loadCppSound env font text_surf g = Outcome.returned g') :
    g' = { g with
      cpp_sound := some Res.cpp_sound
      sdl_sound := some Res.sdl_sound
      music := some Res.music
      calls := g.calls ++ [Call.create Res.cpp_sound true] ++ deleterCalls g.cpp_sound ++
        [Call.create Res.sdl_sound true] ++ deleterCalls g.sdl_sound ++
        [Call.create Res.music true] ++ deleterCalls g.music ++
        deleterCalls text_surf ++ deleterCalls font } := by
  unfold loadCppSound loaded at h
  generalize env.fails (Step.create Res.cpp_sound) = b at h
  cases b
  · rw [loadSdlSound_returned env _ _ _ g' h]
    simp [Game.call]
  · cases h

theorem querySpriteSize_returned (env : Env) (font text_surf : Option Res) (g g' : Game)
    (h : querySpriteSize env font text_surf g = Outcome.returned g') :
    g' = { g with
      sprite_rect := ⟨g.sprite_rect.x, g.sprite_rect.y, env.sprite_w, env.sprite_h⟩
      cpp_sound := some Res.cpp_sound
      sdl_sound := some Res.sdl_sound
      music := some Res.music
      calls := g.calls ++ [Call.SDL_GetTextureSize true, Call.create Res.cpp_sound true] ++
        deleterCalls g.cpp_sound ++
        [Call.create Res.sdl_sound true] ++ deleterCalls g.sdl_sound ++
        [Call.create Res.music true] ++ deleterCalls g.music ++
        deleterCalls text_surf ++ deleterCalls font } := by
  unfold querySpriteSize at h
  generalize env.fails Step.SDL_GetTextureSize = b at h
  cases b
  · rw [loadCppSound_returned env _ _ _ g' h]
    simp [Game.call]
  · cases h

theorem createSpriteImage_returned (env : Env) (font text_surf : Option Res) (g g' : Game)
    (h : createSpriteImage env font text_surf g = Outcome.returned g') :
    g' = { g with
      sprite_image := some Res.sprite_image
      sprite_rect := ⟨g.sprite_rect.x, g.sprite_rect.y, env.sprite_w, env.sprite_h⟩
      cpp_sound := some Res.cpp_sound
      sdl_sound := some Res.sdl_sound
      music := some Res.music
      calls := g.calls ++ [Call.create Res.sprite_image true] ++ deleterCalls g.sprite_image ++
        [Call.SDL_GetTextureSize true, Call.create Res.cpp_sound true] ++
        deleterCalls g.cpp_sound ++
        [Call.create Res.sdl_sound true] ++ deleterCalls g.sdl_sound ++
        [Call.create Res.music true] ++ deleterCalls g.music ++
        deleterCalls text_surf ++ deleterCalls font } := by
  unfold createSpriteImage loaded at h
  generalize env.fails (Step.create Res.sprite_image) = b at h
  cases b
  · rw [querySpriteSize_returned env _ _ _ g' h]
    simp [Game.call]
  · cases h

theorem createTextImage_returned (env : Env) (font text_surf : Option Res) (g g' : Game)
    (h : createTextImage env font text_surf g = Outcome.returned g') :
    g' = { g with
      text_rect := ⟨g.text_rect.x, g.text_rect.y, env.text_w, env.text_h⟩
      text_image := some Res.text_image
      sprite_image := some Res.sprite_image
      sprite_rect := ⟨g.sprite_rect.x, g.sprite_rect.y, env.sprite_w, env.sprite_h⟩
      cpp_sound := some Res.cpp_sound
      sdl_sound := some Res.sdl_sound
      music := some Res.music
      calls := g.calls ++ [Call.create Res.text_image true] ++ deleterCalls g.text_image ++
        [Call.create Res.sprite_image true] ++ deleterCalls g.sprite_image ++
        [Call.SDL_GetTextureSize true, Call.create Res.cpp_sound true] ++
        deleterCalls g.cpp_sound ++
        [Call.create Res.sdl_sound true] ++ deleterCalls g.sdl_sound ++
        [Call.create Res.music true] ++ deleterCalls g.music ++
        deleterCalls text_surf ++ deleterCalls font } := by
  unfold createTextImage loaded at h
  generalize env.fails (Step.create Res.text_image) = b at h
  cases b
  · rw [createSpriteImage_returned env _ _ _ g' h]
    simp [Game.call]
  · cases h

theorem renderText_returned (env : Env) (font : Option Res) (g g' : Game)
    (h : renderText env font g = Outcome.returned g') :
    g' = { g with
      text_rect := ⟨g.text_rect.x, g.text_rect.y, env.text_w, env.text_h⟩
      text_image := some Res.text_image
      sprite_image := some Res.sprite_image
      sprite_rect := ⟨g.sprite_rect.x, g.sprite_rect.y, env.sprite_w, env.sprite_h⟩
      cpp_sound := some Res.cpp_sound
      sdl_sound := some Res.sdl_sound
      music := some Res.music
      calls := g.calls ++ [Call.create Res.text_surf true, Call.create Res.text_image true] ++
        deleterCalls g.text_image ++
        [Call.create Res.sprite_image true] ++ deleterCalls g.sprite_image ++
        [Call.SDL_GetTextureSize true, Call.create Res.cpp_sound true] ++
        deleterCalls g.cpp_sound ++
        [Call.create Res.sdl_sound true] ++ deleterCalls g.sdl_sound ++
        [Call.create Res.music true] ++ deleterCalls g.music ++
        [Call.destroy Res.text_surf] ++ deleterCalls font } := by
  unfold renderText loaded at h
  generalize env.fails (Step.create Res.text_surf) = b at h
  cases b
  · rw [createTextImage_returned env _ _ _ g' h]
    simp [Game.call, deleterCalls]
  · cases h

theorem openFont_returned (env : Env) (g g' : Game)
    (h : openFont env g = Outcome.returned g') :
    g' = { g with
      text_rect := ⟨g.text_rect.x, g.text_rect.y, env.text_w, env.text_h⟩
      text_image := some Res.text_image
      sprite_image := some Res.sprite_image
      sprite_rect := ⟨g.sprite_rect.x, g.sprite_rect.y, env.sprite_w, env.sprite_h⟩
      cpp_sound := some Res.cpp_sound
      sdl_sound := some Res.sdl_sound
      music := some Res.music
      calls := g.calls ++ [Call.create Res.font true, Call.create Res.text_surf true,
        Call.create Res.text_image true] ++ deleterCalls g.text_image ++
        [Call.create Res.sprite_image true] ++ deleterCalls g.sprite_image ++
        [Call.SDL_GetTextureSize true, Call.create Res.cpp_sound true] ++
        deleterCalls g.cpp_sound ++
        [Call.create Res.sdl_sound true] ++ deleterCalls g.sdl_sound ++
        [Call.create Res.music true] ++ deleterCalls g.music ++
        [Call.destroy Res.text_surf, Call.destroy Res.font] } := by
  unfold openFont loaded at h
  generalize env.fails (Step.create Res.font) = b at h
  cases b
  · rw [renderText_returned env _ _ g' h]
    simp [Game.call, deleterCalls]
  · cases h

/-- When `loadMedia` returns, every one of its steps succeeded and the state
is the one at entry with the six handles and the two sizes set and the calls
recorded, the two transient resources released last. -/
theorem loadMedia_returned (env : Env) (g g' : Game)
    (h : loadMedia env g = Outcome.returned g') :
    g' = { g with
      background := some Res.background
      text_rect := ⟨g.text_rect.x, g.text_rect.y, env.text_w, env.text_h⟩
      text_image := some Res.text_image
      sprite_image := some Res.sprite_image
      sprite_rect := ⟨g.sprite_rect.x, g.sprite_rect.y, env.sprite_w, env.sprite_h⟩
      cpp_sound := some Res.cpp_sound
      sdl_sound := some Res.sdl_sound
      music := some Res.music
      calls := g.calls ++ [Call.create Res.background true] ++ deleterCalls g.background ++
        [Call.create Res.font true, Call.create Res.text_surf true,
         Call.create Res.text_image true] ++ deleterCalls g.text_image ++
        [Call.create Res.sprite_image true] ++ deleterCalls g.sprite_image ++
        [Call.SDL_GetTextureSize true, Call.create Res.cpp_sound true] ++
        deleterCalls g.cpp_sound ++
        [Call.create Res.sdl_sound true] ++ deleterCalls g.sdl_sound ++
        [Call.create Res.music true] ++ deleterCalls g.music ++
        [Call.destroy Res.text_surf, Call.destroy Res.font] } := by
  unfold loadMedia loaded at h
  generalize env.fails (Step.create Res.background) = b at h
  cases b
  · rw [openFont_returned env _ g' h]
    simp [Game.call]
  · cases h

/-- The calls the destruction of a `Game` makes, from the handles it holds:
the body releases every member, so the member destructors find null
pointers. -/
theorem newCalls_destructor (g : Game) :
    newCalls g (destructor g) =
      [Call.Mix_HaltChannel, Call.Mix_HaltMusic] ++ deleterCalls g.music ++
      deleterCalls g.sdl_sound ++ deleterCalls g.cpp_sound ++ deleterCalls g.sprite_image ++
      deleterCalls g.icon_surf ++ deleterCalls g.text_image ++ deleterCalls g.background ++
      deleterCalls g.renderer ++ deleterCalls g.window ++
      [Call.Mix_CloseAudio, Call.Mix_Quit, Call.TTF_Quit, Call.SDL_Quit] := by
  apply newCalls_append
  simp [destructor, destructorBody, destroyMembers, Game.call, deleterCalls]

/-- After the destruction every member is null. -/
theorem destructor_handles (g : Game) :
    (destructor g).handles = [none, none, none, none, none, none, none, none, none] := rfl

/-- The trace of a startup in which both `initSdl` and `loadMedia` return. -/
theorem startup_calls (env : Env) (g1 g2 : Game)
    (h1 : initSdl env Game.new = Outcome.returned g1)
    (h2 : loadMedia env g1 = Outcome.returned g2) :
    g2.calls =
      [Call.SDL_GetKeyboardState, Call.SDL_Init true, Call.TTF_Init true, Call.Mix_Init true,
       Call.Mix_OpenAudio true, Call.create Res.window true, Call.create Res.renderer true,
       Call.create Res.icon_surf true, Call.SDL_SetWindowIcon,
       Call.create Res.background true, Call.create Res.font true,
       Call.create Res.text_surf true, Call.create Res.text_image true,
       Call.create Res.sprite_image true, Call.SDL_GetTextureSize true,
       Call.create Res.cpp_sound true, Call.create Res.sdl_sound true,
       Call.create Res.music true, Call.destroy Res.text_surf, Call.destroy Res.font] := by
  rw [loadMedia_returned env g1 g2 h2, initSdl_returned env Game.new g1 h1]
  rfl

/-- The handles after a startup in which both `initSdl` and `loadMedia`
return: every member holds its resource. -/
theorem startup_handles (env : Env) (g1 g2 : Game)
    (h1 : initSdl env Game.new = Outcome.returned g1)
    (h2 : loadMedia env g1 = Outcome.returned g2) :
    g2.handles =
      [some Res.window, some Res.renderer, some Res.background, some Res.text_image,
       some Res.icon_surf, some Res.sprite_image, some Res.cpp_sound, some Res.sdl_sound,
       some Res.music] := by
  rw [loadMedia_returned env g1 g2 h2, initSdl_returned env Game.new g1 h1]
  rfl

/-- When `init` returns, `initSdl` and `loadMedia` returned and the generator
was seeded last. -/
theorem init_returned (env : Env) (g : Game) (h : init env Game.new = Outcome.returned g) :
    ∃ g1 g2, initSdl env Game.new = Outcome.returned g1 ∧
      loadMedia env g1 = Outcome.returned g2 ∧ g = { g2 with gen := 0 } := by
  unfold init at h
  cases h1 : initSdl env Game.new with
  | threw msg g' => rw [h1] at h; cases h
  | returned g1 =>
    rw [h1] at h
    dsimp only at h
    cases h2 : loadMedia env g1 with
    | threw msg g' => rw [h2] at h; cases h
    | returned g2 =>
      rw [h2] at h
      injection h with h
      exact ⟨g1, g2, rfl, h2, h.symm⟩

/-- A tick leaves the nine handles as they are. -/
theorem tick_handles (env : Env) (keystate : Nat → Bool) (queue : List SDL_Event) (g : Game) :
    (tick env keystate queue g).handles = g.handles := by
  show (draw (updateSprite keystate (updateText (events env g queue).1))).handles = g.handles
  obtain ⟨r, n, c, h⟩ := events_frame env queue g
  rw [draw_eq, updateSprite_eq, updateText_eq, h]
  rfl

/-! ## The draw colour -/

theorem assign_perm (o : ArgOrder) (v1 v2 v3 : Nat) :
    [(o.assign v1 v2 v3).1, (o.assign v1 v2 v3).2.1, (o.assign v1 v2 v3).2.2].Perm
      [v1, v2, v3] := by
  cases o <;> simp only [ArgOrder.assign]
  · exact List.Perm.refl _
  · exact List.Perm.cons _ (List.Perm.swap _ _ _)
  · exact List.Perm.swap _ _ _
  · exact (List.Perm.swap _ _ _).trans (List.Perm.cons _ (List.Perm.swap _ _ _))
  · exact (List.Perm.cons _ (List.Perm.swap _ _ _)).trans (List.Perm.swap _ _ _)
  · exact ((List.Perm.swap _ _ _).trans (List.Perm.cons _ (List.Perm.swap _ _ _))).trans
      (List.Perm.swap _ _ _)

theorem assign_lt (o : ArgOrder) (v1 v2 v3 : Nat) (h1 : v1 < 256) (h2 : v2 < 256)
    (h3 : v3 < 256) :
    (o.assign v1 v2 v3).1 < 256 ∧ (o.assign v1 v2 v3).2.1 < 256 ∧
      (o.assign v1 v2 v3).2.2 < 256 := by
  cases o <;> simp only [ArgOrder.assign] <;> exact ⟨by assumption, by assumption, by assumption⟩

theorem drawColor_append (l1 l2 : List Call) :
    drawColor (l1 ++ l2) = l2.foldl colorStep (drawColor l1) := by
  unfold drawColor
  rw [List.foldl_append]

theorem drawColor_updateText (g : Game) :
    drawColor (updateText g).calls = drawColor g.calls := by
  rw [updateText_calls, drawColor_append, drawColor_append]
  split_ifs <;> rfl

theorem drawColor_updateSprite (keystate : Nat → Bool) (g : Game) :
    drawColor (updateSprite keystate g).calls = drawColor g.calls := by
  rw [updateSprite_eq]

theorem drawColor_draw (g : Game) : drawColor (draw g).calls = drawColor g.calls := by
  rw [draw_eq]
  simp only
  rw [drawColor_append]
  rfl

theorem drawColor_delay (g : Game) :
    drawColor (g.call (Call.SDL_Delay 16)).calls = drawColor g.calls := by
  rw [call_calls, drawColor_append]
  rfl

theorem updateText_gen (g : Game) : (updateText g).gen = g.gen := by
  rw [updateText_eq]

theorem updateSprite_gen (keystate : Nat → Bool) (g : Game) :
    (updateSprite keystate g).gen = g.gen := by
  rw [updateSprite_eq]

theorem draw_gen (g : Game) : (draw g).gen = g.gen := by
  rw [draw_eq]

/-- The draw colour right after `renderColor`. -/
theorem drawColor_renderColor (env : Env) (g : Game) :
    drawColor (renderColor env g).calls =
      some ((env.argOrder.assign (env.sample g.gen % 256) (env.sample (g.gen + 1) % 256)
              (env.sample (g.gen + 2) % 256)).1,
            (env.argOrder.assign (env.sample g.gen % 256) (env.sample (g.gen + 1) % 256)
              (env.sample (g.gen + 2) % 256)).2.1,
            (env.argOrder.assign (env.sample g.gen % 256) (env.sample (g.gen + 1) % 256)
              (env.sample (g.gen + 2) % 256)).2.2, 255) := by
  rw [renderColor_frame]
  simp only
  rw [drawColor_append]
  rfl

/-- Generator position and draw colour after handling one event, from those
before it. -/
theorem handleEvent_color (env : Env) (n : Nat) (g : Game) (e : SDL_Event)
    (hgen : g.gen = 3 * n)
    (hc : drawColor g.calls = if n = 0 then none else some (resampled env n)) :
    (handleEvent env g e).gen = 3 * (n + if isTrigger e then 1 else 0) ∧
    drawColor (handleEvent env g e).calls =
      if n + (if isTrigger e then 1 else 0) = 0 then none
      else some (resampled env (n + if isTrigger e then 1 else 0)) := by
  rw [handleEvent_eq]
  by_cases h1 : isStop e = true
  · have h2 := isStop_not_isTrigger e h1
    simp only [h1, h2, if_true, Bool.false_eq_true, if_false, Nat.add_zero]
    exact ⟨hgen, hc⟩
  · rw [Bool.not_eq_true] at h1
    by_cases h2 : isTrigger e = true
    · simp only [h1, h2, if_true, Bool.false_eq_true, if_false]
      refine ⟨by rw [renderColor_frame]; simp only; omega, ?_⟩
      rw [drawColor_renderColor, if_neg (by omega)]
      simp only [resampled, draws, hgen, Nat.add_sub_cancel]
    · rw [Bool.not_eq_true] at h2
      simp only [h1, h2, Bool.false_eq_true, if_false, Nat.add_zero]
      exact ⟨hgen, hc⟩

/-- Generator position and draw colour after an event drain, from those
before it. -/
theorem events_color (env : Env) (queue : List SDL_Event) (n : Nat) (g : Game)
    (hgen : g.gen = 3 * n)
    (hc : drawColor g.calls = if n = 0 then none else some (resampled env n)) :
    (events env g queue).1.gen = 3 * (n + queue.countP isTrigger) ∧
    drawColor (events env g queue).1.calls =
      if n + queue.countP isTrigger = 0 then none
      else some (resampled env (n + queue.countP isTrigger)) := by
  induction queue generalizing n g with
  | nil => exact ⟨hgen, hc⟩
  | cons e q ih =>
    obtain ⟨h1, h2⟩ := handleEvent_color env n g e hgen hc
    have h := ih _ (handleEvent env g e) h1 h2
    have hcount : n + List.countP isTrigger (e :: q) =
        n + (if isTrigger e = true then 1 else 0) + List.countP isTrigger q := by
      rw [List.countP_cons]; omega
    rw [events_cons, hcount]
    exact h

/-- After `n` trigger-action events the generator has delivered 3n values and
the draw colour is unset for n = 0 and the n-th resampled colour otherwise. -/
theorem afterTriggers_color (env : Env) (n : Nat) (g : Game) (hg : AfterTriggers env n g) :
    g.gen = 3 * n ∧
    drawColor g.calls = if n = 0 then none else some (resampled env n) := by
  induction hg with
  | seeded g hgen hcolor => exact ⟨by rw [hgen], by rw [hcolor]; rfl⟩
  | afterEvents queue hg ih => exact events_color env queue _ _ ih.1 ih.2
  | afterUpdateText hg ih => exact ⟨by rw [updateText_gen]; exact ih.1,
      by rw [drawColor_updateText]; exact ih.2⟩
  | afterUpdateSprite keystate hg ih => exact ⟨by rw [updateSprite_gen]; exact ih.1,
      by rw [drawColor_updateSprite]; exact ih.2⟩
  | afterDraw hg ih => exact ⟨by rw [draw_gen]; exact ih.1, by rw [drawColor_draw]; exact ih.2⟩
  | afterDelay hg ih => exact ⟨ih.1, by rw [drawColor_delay]; exact ih.2⟩

/-- C9 (as stated, refuted): when the compiler evaluates the arguments of the
call in `renderColor` right to left and the generator delivers 0, 1, 2, the
first trigger sets the draw colour (2, 1, 0, 255): red is the third draw and
blue the first, not the draws in the order red, green, blue. -/
theorem resample_order_fails_right_to_left :
    AfterTriggers rightToLeftEnv 1
      (events rightToLeftEnv (startState 170 90)
        [⟨SDL_EVENT_KEY_DOWN, SDL_SCANCODE_SPACE⟩]).1 ∧
    drawColor (events rightToLeftEnv (startState 170 90)
        [⟨SDL_EVENT_KEY_DOWN, SDL_SCANCODE_SPACE⟩]).1.calls = some (2, 1, 0, 255) ∧
    resampledInOrder rightToLeftEnv 1 = (0, 1, 2, 255) ∧
    drawColor (events rightToLeftEnv (startState 170 90)
        [⟨SDL_EVENT_KEY_DOWN, SDL_SCANCODE_SPACE⟩]).1.calls
      ≠ some (resampledInOrder rightToLeftEnv 1) := by
  refine ⟨?_, by decide, by decide, by decide⟩
  exact AfterTriggers.afterEvents (n := 0) [⟨SDL_EVENT_KEY_DOWN, SDL_SCANCODE_SPACE⟩]
    (AfterTriggers.seeded _ rfl rfl)

/-- C9 (amended): each call of `Game::renderColor` takes exactly three
successive values from the generator and sets them as the red, green and
blue channels in the order in which the compiler evaluates the three
arguments (a rearrangement of the three values; red, green, blue in that
order when evaluation is left to right), with alpha 255 and every channel in
[0, 255]; hence after n >= 1 trigger-action events since seeding the draw
colour is the n-th resampled triple, made of the generator values 3n-2, 3n-1
and 3n, and the generator has delivered 3n values; and `updateText`,
`updateSprite`, `draw`, the delay and an event drain without a Space key-down
leave the draw colour as it is; the count of events starts at a successful
`init`, which seeds the generator and sets no colour. -/
theorem resample_contract (env : Env) :
    (∀ g : Game,
      (renderColor env g).gen = g.gen + 3 ∧
      ∃ r gr b, drawColor (renderColor env g).calls = some (r, gr, b, 255) ∧
        [r, gr, b].Perm [env.sample g.gen % 256, env.sample (g.gen + 1) % 256,
          env.sample (g.gen + 2) % 256] ∧
        r ≤ 255 ∧ gr ≤ 255 ∧ b ≤ 255 ∧
        (env.argOrder = ArgOrder.rgb →
          (r, gr, b) = (env.sample g.gen % 256, env.sample (g.gen + 1) % 256,
            env.sample (g.gen + 2) % 256))) ∧
    (∀ (n : Nat) (g : Game), AfterTriggers env n g →
      g.gen = 3 * n ∧
      (n = 0 → drawColor g.calls = none) ∧
      (1 ≤ n → drawColor g.calls = some (resampled env n) ∧
        [(resampled env n).1, (resampled env n).2.1, (resampled env n).2.2.1].Perm
          [(draws env n).1, (draws env n).2.1, (draws env n).2.2] ∧
        (resampled env n).1 ≤ 255 ∧ (resampled env n).2.1 ≤ 255 ∧
        (resampled env n).2.2.1 ≤ 255 ∧ (resampled env n).2.2.2 = 255 ∧
        (env.argOrder = ArgOrder.rgb → resampled env n = resampledInOrder env n))) ∧
    (∀ (keystate : Nat → Bool) (g : Game),
      drawColor (updateText g).calls = drawColor g.calls ∧
      drawColor (updateSprite keystate g).calls = drawColor g.calls ∧
      drawColor (draw g).calls = drawColor g.calls ∧
      drawColor (g.call (Call.SDL_Delay 16)).calls = drawColor g.calls) ∧
    (∀ (g : Game) (queue : List SDL_Event), queue.countP isTrigger = 0 →
      drawColor (events env g queue).1.calls = drawColor g.calls) ∧
    (∀ g : Game, init env Game.new = Outcome.returned g → AfterTriggers env 0 g) := by
  refine ⟨?_, ?_, ?_, ?_, ?_⟩
  · intro g
    refine ⟨by rw [renderColor_frame], _, _, _, drawColor_renderColor env g,
      assign_perm _ _ _ _, ?_⟩
    have hb := assign_lt env.argOrder (env.sample g.gen % 256) (env.sample (g.gen + 1) % 256)
      (env.sample (g.gen + 2) % 256) (Nat.mod_lt _ (by decide)) (Nat.mod_lt _ (by decide))
      (Nat.mod_lt _ (by decide))
    refine ⟨by omega, by omega, by omega, ?_⟩
    intro ho
    rw [ho]
    rfl
  · intro n g hg
    obtain ⟨h1, h2⟩ := afterTriggers_color env n g hg
    refine ⟨h1, fun h0 => by rw [h2, if_pos h0], fun hn => ?_⟩
    have hb := assign_lt env.argOrder (draws env n).1 (draws env n).2.1 (draws env n).2.2
      (Nat.mod_lt _ (by decide)) (Nat.mod_lt _ (by decide)) (Nat.mod_lt _ (by decide))
    refine ⟨by rw [h2, if_neg (by omega)], assign_perm _ _ _ _, ?_, ?_, ?_, rfl, ?_⟩
    · exact Nat.le_of_lt_succ hb.1
    · exact Nat.le_of_lt_succ hb.2.1
    · exact Nat.le_of_lt_succ hb.2.2
    · intro ho
      simp only [resampled, resampledInOrder, ho, ArgOrder.assign]
  · intro keystate g
    exact ⟨drawColor_updateText g, drawColor_updateSprite keystate g, drawColor_draw g,
      drawColor_delay g⟩
  · intro g queue hq
    obtain ⟨l, hl, h1, _, h3⟩ := events_calls env queue g
    rw [hq] at h3
    have : l = [] := List.length_eq_zero.mp (by omega)
    rw [hl, this, List.append_nil]
  · intro g hg
    obtain ⟨g1, g2, h1, h2, e⟩ := init_returned env g hg
    refine AfterTriggers.seeded g (by rw [e]) ?_
    have hc : g.calls = g2.calls := by rw [e]
    rw [hc, startup_calls env g1 g2 h1 h2]
    decide

/-- Witness of `resample_contract`: with left-to-right evaluation and
generator values 0, 1, 2, ..., two Space presses in one batch leave the draw
colour (3, 4, 5, 255), the second resampled triple. -/
theorem resample_contract_witness :
    AfterTriggers exampleEnv 2
      (events exampleEnv (startState 170 90)
        [⟨SDL_EVENT_KEY_DOWN, SDL_SCANCODE_SPACE⟩, ⟨SDL_EVENT_KEY_DOWN, SDL_SCANCODE_SPACE⟩]).1 ∧
    resampled exampleEnv 2 = (3, 4, 5, 255) ∧
    drawColor (events exampleEnv (startState 170 90)
        [⟨SDL_EVENT_KEY_DOWN, SDL_SCANCODE_SPACE⟩,
         ⟨SDL_EVENT_KEY_DOWN, SDL_SCANCODE_SPACE⟩]).1.calls = some (resampled exampleEnv 2) :=
  ⟨AfterTriggers.afterEvents (n := 0)
      [⟨SDL_EVENT_KEY_DOWN, SDL_SCANCODE_SPACE⟩, ⟨SDL_EVENT_KEY_DOWN, SDL_SCANCODE_SPACE⟩]
      (AfterTriggers.seeded _ rfl rfl),
    by decide,
    (((resample_contract exampleEnv).2.1 2
      (events exampleEnv (startState 170 90)
        [⟨SDL_EVENT_KEY_DOWN, SDL_SCANCODE_SPACE⟩, ⟨SDL_EVENT_KEY_DOWN, SDL_SCANCODE_SPACE⟩]).1
      (AfterTriggers.afterEvents (n := 0)
        [⟨SDL_EVENT_KEY_DOWN, SDL_SCANCODE_SPACE⟩, ⟨SDL_EVENT_KEY_DOWN, SDL_SCANCODE_SPACE⟩]
        (AfterTriggers.seeded (startState 170 90) rfl rfl))).2.2 (by decide)).1⟩

/-! ## Teardown -/

/-- C10 (as stated, refuted): after a startup in which nothing fails, the
resources are acquired in the order window, renderer, icon surface,
background, text texture, sprite texture, sound A, sound B, music, but
`Game::~Game` releases the icon surface between the sprite texture and the
text texture: the release sequence is not the reverse of the acquisition
sequence. -/
theorem teardown_not_reverse_of_acquisition :
    init exampleEnv Game.new = Outcome.returned exampleStarted ∧
    (acquisitions exampleStarted.calls).filter Res.owned =
      [Res.window, Res.renderer, Res.icon_surf, Res.background, Res.text_image,
       Res.sprite_image, Res.cpp_sound, Res.sdl_sound, Res.music] ∧
    releases (newCalls exampleStarted (destructor exampleStarted)) =
      [Res.music, Res.sdl_sound, Res.cpp_sound, Res.sprite_image, Res.icon_surf,
       Res.text_image, Res.background, Res.renderer, Res.window] ∧
    releases (newCalls exampleStarted (destructor exampleStarted)) ≠
      ((acquisitions exampleStarted.calls).filter Res.owned).reverse := by
  refine ⟨by decide, by decide, by decide, by decide⟩

/-- C10 (amended): after a fully successful startup (`initSdl` and
`loadMedia` both return), in any later state holding the same nine handles,
`Game::~Game` releases the nine owned resources each exactly once in the
reverse of the order in which the members are declared (music, sound B,
sound A, sprite texture, icon surface, text texture, background, renderer,
window), which is a rearrangement of the acquisition sequence, and then shuts
the subsystems down in the reverse of their init order (audio device, mixer,
text, display). -/
theorem teardown_order (env : Env) (g1 g2 g3 : Game)
    (h1 : initSdl env Game.new = Outcome.returned g1)
    (h2 : loadMedia env g1 = Outcome.returned g2)
    (h3 : g3.handles = g2.handles) :
    (acquisitions g2.calls).filter Res.owned =
      [Res.window, Res.renderer, Res.icon_surf, Res.background, Res.text_image,
       Res.sprite_image, Res.cpp_sound, Res.sdl_sound, Res.music] ∧
    releases (newCalls g3 (destructor g3)) = memberOrder.reverse ∧
    (releases (newCalls g3 (destructor g3))).Nodup ∧
    (releases (newCalls g3 (destructor g3))).Perm ((acquisitions g2.calls).filter Res.owned) ∧
    startups g2.calls =
      [Subsystem.display, Subsystem.text, Subsystem.mixer, Subsystem.device] ∧
    shutdowns (newCalls g3 (destructor g3)) = (startups g2.calls).reverse ∧
    newCalls g3 (destructor g3) =
      [Call.Mix_HaltChannel, Call.Mix_HaltMusic, Call.destroy Res.music,
       Call.destroy Res.sdl_sound, Call.destroy Res.cpp_sound, Call.destroy Res.sprite_image,
       Call.destroy Res.icon_surf, Call.destroy Res.text_image, Call.destroy Res.background,
       Call.destroy Res.renderer, Call.destroy Res.window, Call.Mix_CloseAudio, Call.Mix_Quit,
       Call.TTF_Quit, Call.SDL_Quit] ∧
    (destructor g3).handles = [none, none, none, none, none, none, none, none, none] := by
  have hcalls := startup_calls env g1 g2 h1 h2
  have hh := startup_handles env g1 g2 h1 h2
  rw [hh] at h3
  simp only [Game.handles, List.cons.injEq, and_true] at h3
  obtain ⟨w1, w2, w3, w4, w5, w6, w7, w8, w9⟩ := h3
  have hd : newCalls g3 (destructor g3) =
      [Call.Mix_HaltChannel, Call.Mix_HaltMusic, Call.destroy Res.music,
       Call.destroy Res.sdl_sound, Call.destroy Res.cpp_sound, Call.destroy Res.sprite_image,
       Call.destroy Res.icon_surf, Call.destroy Res.text_image, Call.destroy Res.background,
       Call.destroy Res.renderer, Call.destroy Res.window, Call.Mix_CloseAudio, Call.Mix_Quit,
       Call.TTF_Quit, Call.SDL_Quit] := by
    rw [newCalls_destructor, w1, w2, w3, w4, w5, w6, w7, w8, w9]; rfl
  rw [hd, hcalls]
  refine ⟨by decide, by decide, by decide, by decide, by decide, by decide, rfl,
    destructor_handles g3⟩

/-- Witness of `teardown_order`: startup in `exampleEnv`, one tick that
drains a quit event, then the destruction. -/
theorem teardown_order_witness :
    initSdl exampleEnv Game.new = Outcome.returned
      { exampleStarted with
        background := none, text_image := none, sprite_image := none, cpp_sound := none,
        sdl_sound := none, music := none, text_rect := ⟨0, 0, 0, 0⟩,
        sprite_rect := ⟨0, 0, 0, 0⟩, calls := exampleStarted.calls.take 9 } ∧
    releases (newCalls (tick exampleEnv (keysHeld []) [⟨SDL_EVENT_QUIT, 0⟩] exampleStarted)
      (destructor (tick exampleEnv (keysHeld []) [⟨SDL_EVENT_QUIT, 0⟩] exampleStarted)))
      = memberOrder.reverse :=
  ⟨by decide,
   (teardown_order exampleEnv
    { exampleStarted with
        background := none, text_image := none, sprite_image := none, cpp_sound := none,
        sdl_sound := none, music := none, text_rect := ⟨0, 0, 0, 0⟩,
        sprite_rect := ⟨0, 0, 0, 0⟩, calls := exampleStarted.calls.take 9 }
    exampleStarted
    (tick exampleEnv (keysHeld []) [⟨SDL_EVENT_QUIT, 0⟩] exampleStarted)
    (by decide) (by decide) (by decide)).2.1⟩


/-! ## Invariants of the moving text element -/

/-- In every reachable state each velocity component is +3 or -3. -/
theorem reachable_vel (w h : Int) (g : Game) (hg : Reachable w h g) :
    (g.text_xvel = 3 ∨ g.text_xvel = -3) ∧ (g.text_yvel = 3 ∨ g.text_yvel = -3) := by
  induction hg with
  | start g hr hx hy =>
    rw [hx, hy]
    exact ⟨Or.inl rfl, Or.inl rfl⟩
  | afterEvents env queue hg ih =>
    rw [events_text_xvel, events_text_yvel]
    exact ih
  | afterUpdateText hg ih =>
    obtain ⟨h3, h4⟩ := ih
    rw [updateText_text_xvel, updateText_text_yvel]
    refine ⟨?_, ?_⟩
    · split_ifs
      · exact Or.inl rfl
      · exact Or.inr rfl
      · exact h3
    · split_ifs
      · exact Or.inl rfl
      · exact Or.inr rfl
      · exact h4
  | afterUpdateSprite keystate hg ih =>
    rw [updateSprite_text_xvel, updateSprite_text_yvel]
    exact ih
  | afterDraw hg ih =>
    rw [draw_text_xvel, draw_text_yvel]
    exact ih
  | afterDelay hg ih => exact ih

/-- Every reachable state of an element that fits the window (0 ≤ w ≤ 800,
0 ≤ h ≤ 600) keeps its size and is in the range where `float` arithmetic is
exact: moving right the position is within [-3, 800 - w], moving left within
[0, 803 - w], and likewise on the y axis. -/
theorem reachable_exact (w h : Int) (hw0 : 0 ≤ w) (hw : w ≤ 800) (hh0 : 0 ≤ h)
    (hh : h ≤ 600) (g : Game) (hg : Reachable w h g) :
    g.text_rect.w = w ∧ g.text_rect.h = h ∧
    ((g.text_xvel = 3 ∧ -3 ≤ g.text_rect.x ∧ g.text_rect.x + g.text_rect.w ≤ 800) ∨
      (g.text_xvel = -3 ∧ 0 ≤ g.text_rect.x ∧ g.text_rect.x + g.text_rect.w ≤ 800 + 3)) ∧
    ((g.text_yvel = 3 ∧ -3 ≤ g.text_rect.y ∧ g.text_rect.y + g.text_rect.h ≤ 600) ∨
      (g.text_yvel = -3 ∧ 0 ≤ g.text_rect.y ∧ g.text_rect.y + g.text_rect.h ≤ 600 + 3)) := by
  obtain ⟨ew, eh, ix, iy⟩ := reachable_inv w h hw hh g hg
  exact ⟨ew, eh,
    InvAxis_exact _ _ _ 800 (by rw [ew]; exact hw0) (by decide) (by decide) ix,
    InvAxis_exact _ _ _ 600 (by rw [eh]; exact hh0) (by decide) (by decide) iy⟩

/-- Every reachable position of a text element that fits the window is a
multiple of the velocity step on both axes. -/
theorem reachable_mod3 (w h : Int) (hw0 : 0 ≤ w) (hw : w ≤ 800) (hh0 : 0 ≤ h)
    (hh : h ≤ 600) (g : Game) (hg : Reachable w h g) :
    g.text_rect.x % 3 = 0 ∧ g.text_rect.y % 3 = 0 := by
  induction hg with
  | start g hr hx hy =>
    rw [hr]
    exact ⟨rfl, rfl⟩
  | afterEvents env queue hg ih =>
    rw [events_text_rect]
    exact ih
  | @afterUpdateText g hg ih =>
    obtain ⟨h1, h2⟩ := ih
    obtain ⟨ew, eh, ix, iy⟩ := reachable_exact w h hw0 hw hh0 hh g hg
    rw [ew] at ix
    rw [eh] at iy
    rw [updateText_text_rect]
    simp only
    rw [floatAdd_exact g.text_rect.x g.text_xvel
        (by rcases ix with ⟨hv, a, b⟩ | ⟨hv, a, b⟩ <;> omega)
        (by rcases ix with ⟨hv, a, b⟩ | ⟨hv, a, b⟩ <;> omega),
      floatAdd_exact g.text_rect.y g.text_yvel
        (by rcases iy with ⟨hv, a, b⟩ | ⟨hv, a, b⟩ <;> omega)
        (by rcases iy with ⟨hv, a, b⟩ | ⟨hv, a, b⟩ <;> omega)]
    constructor
    · rcases ix with ⟨hv, a, b⟩ | ⟨hv, a, b⟩ <;> omega
    · rcases iy with ⟨hv, a, b⟩ | ⟨hv, a, b⟩ <;> omega
  | afterUpdateSprite keystate hg ih =>
    rw [updateSprite_text_rect]
    exact ih
  | afterDraw hg ih =>
    rw [draw_text_rect]
    exact ih
  | afterDelay hg ih => exact ih

/-- The states after any number of `updateText` calls from the initial state
are reachable. -/
theorem reachable_iterate (w h : Int) (n : Nat) :
    Reachable w h (updateText^[n] (startState w h)) := by
  induction n with
  | zero => exact Reachable.start _ rfl rfl rfl
  | succ n ih =>
    rw [Function.iterate_succ_apply']
    exact Reachable.afterUpdateText ih

/-- C14: for an element no larger than the window (0 ≤ w ≤ 800,
0 ≤ h ≤ 600), in every state reachable from the initial state (position
(0, 0), velocity (+3, +3)), in particular after any number of `updateText`
calls, the box of the text element exceeds a window boundary by at most one
velocity step: -3 ≤ x, x + w ≤ 803, -3 ≤ y and y + h ≤ 603. -/
theorem text_box_overshoot_bound (w h : Int) (_hw0 : 0 ≤ w) (hw : w ≤ 800) (_hh0 : 0 ≤ h)
    (hh : h ≤ 600) :
    (∀ g : Game, Reachable w h g →
      -3 ≤ g.text_rect.x ∧ g.text_rect.x + w ≤ 803 ∧
      -3 ≤ g.text_rect.y ∧ g.text_rect.y + h ≤ 603) ∧
    (∀ n : Nat,
      -3 ≤ (updateText^[n] (startState w h)).text_rect.x ∧
      (updateText^[n] (startState w h)).text_rect.x + w ≤ 803 ∧
      -3 ≤ (updateText^[n] (startState w h)).text_rect.y ∧
      (updateText^[n] (startState w h)).text_rect.y + h ≤ 603) := by
  have key : ∀ g : Game, Reachable w h g →
      -3 ≤ g.text_rect.x ∧ g.text_rect.x + w ≤ 803 ∧
      -3 ≤ g.text_rect.y ∧ g.text_rect.y + h ≤ 603 := by
    intro g hg
    obtain ⟨ew, eh, ix, iy⟩ := reachable_exact w h _hw0 hw _hh0 hh g hg
    rw [ew] at ix
    rw [eh] at iy
    rcases ix with ⟨_, a, b⟩ | ⟨_, a, b⟩ <;> rcases iy with ⟨_, c, d⟩ | ⟨_, c, d⟩ <;>
      exact ⟨by omega, by omega, by omega, by omega⟩
  exact ⟨key, fun n => key _ (reachable_iterate w h n)⟩

/-- Witness of `text_box_overshoot_bound`: an element of 800 by 600 reaches
the bound exactly, x + w = 803 and y + h = 603 after the first call. -/
theorem text_box_overshoot_bound_witness :
    (updateText^[1] (startState 800 600)).text_rect.x + 800 = 803 ∧
    (updateText^[1] (startState 800 600)).text_rect.y + 600 = 603 ∧
    (-3 ≤ (updateText^[1] (startState 800 600)).text_rect.x ∧
      (updateText^[1] (startState 800 600)).text_rect.x + 800 ≤ 803 ∧
      -3 ≤ (updateText^[1] (startState 800 600)).text_rect.y ∧
      (updateText^[1] (startState 800 600)).text_rect.y + 600 ≤ 603) :=
  ⟨by decide, by decide,
    (text_box_overshoot_bound 800 600 (by decide) (by decide) (by decide) (by decide)).2 1⟩

theorem renderColor_text_xvel (env : Env) (g : Game) :
    (renderColor env g).text_xvel = g.text_xvel := by
  rw [renderColor_frame]

theorem renderColor_text_yvel (env : Env) (g : Game) :
    (renderColor env g).text_yvel = g.text_yvel := by
  rw [renderColor_frame]

/-- After a successful `init` the text element is at (0, 0) with the size of
the rendered text and velocity (+3, +3): the state is the start of a run. -/
theorem init_reachable (env : Env) (g : Game) (h : init env Game.new = Outcome.returned g) :
    Reachable env.text_w env.text_h g := by
  obtain ⟨g1, g2, h1, h2, e⟩ := init_returned env g h
  have e1 := initSdl_returned env Game.new g1 h1
  have e2 := loadMedia_returned env g1 g2 h2
  refine Reachable.start g ?_ ?_ ?_
  · rw [e, e2, e1]; rfl
  · rw [e, e2, e1]; rfl
  · rw [e, e2, e1]; rfl

/-- C15: in every state reachable from construction by any sequence of
events, `updateText` and `updateSprite` calls (and render passes), before or
after a successful `init` and whatever the size of the text, each component
of the text element's velocity is +3 or -3, so its magnitude is exactly 3;
`events`, `renderColor`, `updateSprite` and `draw` leave both components as
they are, so only `updateText` changes the sign. -/
theorem velocity_magnitude_fixed :
    (Game.new.text_xvel = 3 ∧ Game.new.text_yvel = 3 ∧ Reachable 0 0 Game.new) ∧
    (∀ (env : Env) (g : Game), init env Game.new = Outcome.returned g →
      Reachable env.text_w env.text_h g) ∧
    (∀ (w h : Int) (g : Game), Reachable w h g →
      (g.text_xvel = 3 ∨ g.text_xvel = -3) ∧ (g.text_yvel = 3 ∨ g.text_yvel = -3) ∧
      g.text_xvel.natAbs = 3 ∧ g.text_yvel.natAbs = 3) ∧
    (∀ (env : Env) (keystate : Nat → Bool) (queue : List SDL_Event) (g : Game),
      (events env g queue).1.text_xvel = g.text_xvel ∧
      (events env g queue).1.text_yvel = g.text_yvel ∧
      (renderColor env g).text_xvel = g.text_xvel ∧
      (renderColor env g).text_yvel = g.text_yvel ∧
      (updateSprite keystate g).text_xvel = g.text_xvel ∧
      (updateSprite keystate g).text_yvel = g.text_yvel ∧
      (draw g).text_xvel = g.text_xvel ∧ (draw g).text_yvel = g.text_yvel) := by
  refine ⟨⟨rfl, rfl, Reachable.start _ rfl rfl rfl⟩, init_reachable, ?_, ?_⟩
  · intro w h g hg
    obtain ⟨hx, hy⟩ := reachable_vel w h g hg
    refine ⟨hx, hy, ?_, ?_⟩
    · rcases hx with hx | hx <;> rw [hx] <;> rfl
    · rcases hy with hy | hy <;> rw [hy] <;> rfl
  · intro env keystate queue g
    exact ⟨events_text_xvel env queue g, events_text_yvel env queue g,
      renderColor_text_xvel env g, renderColor_text_yvel env g,
      updateSprite_text_xvel keystate g, updateSprite_text_yvel keystate g,
      draw_text_xvel g, draw_text_yvel g⟩

/-- Witness of `velocity_magnitude_fixed`: after a startup in which nothing
fails and one call of `updateText` with a text of 798 by 598 the velocity is
(-3, -3). -/
theorem velocity_magnitude_fixed_witness :
    Reachable 170 90 exampleStarted ∧
    ((updateText (startState 798 598)).text_xvel = -3 ∧
      (updateText (startState 798 598)).text_yvel = -3) ∧
    (updateText (startState 798 598)).text_xvel.natAbs = 3 :=
  ⟨velocity_magnitude_fixed.2.1 exampleEnv exampleStarted (by decide),
    ⟨by decide, by decide⟩,
    (velocity_magnitude_fixed.2.2.1 798 598 (updateText (startState 798 598))
      (Reachable.afterUpdateText (Reachable.start _ rfl rfl rfl))).2.2.1⟩

/-- The calls of the x check: one play request when the box exceeds a
boundary of the x axis after the move, none otherwise. -/
theorem xTriggers_eq (g : Game) :
    xTriggers g = if exceedsX g then [Call.Mix_PlayChannel g.sdl_sound] else [] := by
  unfold xTriggers
  apply newCalls_append
  rw [textCheckX_eq]
  rfl

/-- The calls of the y check: one play request when the box exceeds a
boundary of the y axis after the move, none otherwise. -/
theorem yTriggers_eq (g : Game) :
    yTriggers g = if exceedsY g then [Call.Mix_PlayChannel g.sdl_sound] else [] := by
  unfold yTriggers
  apply newCalls_append
  rw [textCheckY_eq, textCheckX_eq]
  rfl

/-- C18: for an element no larger than the window (0 ≤ w ≤ 800,
0 ≤ h ≤ 600), in every run from the initial state, when the frame that
starts in a reachable state `g` issues a bounce trigger on an axis, the next
frame, which starts in any state `g2` with the text element `updateText` left
(the sprite update, the render pass, the delay and the next event drain do
not touch it), issues no bounce trigger on that axis and finds the element
inside both boundaries of that axis after its move. -/
theorem no_bounce_in_consecutive_frames (w h : Int) (g g2 : Game) (_hw0 : 0 ≤ w)
    (hw : w ≤ 800) (_hh0 : 0 ≤ h) (hh : h ≤ 600) (hg : Reachable w h g)
    (h2 : g2.text = (updateText g).text) :
    (xTriggers g ≠ [] →
      xTriggers g2 = [] ∧ 0 ≤ (updateText g2).text_rect.x ∧
        (updateText g2).text_rect.x + w ≤ 800) ∧
    (yTriggers g ≠ [] →
      yTriggers g2 = [] ∧ 0 ≤ (updateText g2).text_rect.y ∧
        (updateText g2).text_rect.y + h ≤ 600) := by
  obtain ⟨ew, eh, ix, iy⟩ := reachable_exact w h _hw0 hw _hh0 hh g hg
  obtain ⟨mx, my⟩ := reachable_mod3 w h _hw0 hw _hh0 hh g hg
  subst ew
  subst eh
  have gx : ∀ a b : Int, floatAdd a b > 800 ↔ a + b > 800 :=
    fun a b => floatAdd_gt_iff 800 a b (by decide) (by decide)
  have gy : ∀ a b : Int, floatAdd a b > 600 ↔ a + b > 600 :=
    fun a b => floatAdd_gt_iff 600 a b (by decide) (by decide)
  have hxe : floatAdd g.text_rect.x g.text_xvel = g.text_rect.x + g.text_xvel :=
    floatAdd_exact _ _ (by rcases ix with ⟨hv, a, b⟩ | ⟨hv, a, b⟩ <;> omega)
      (by rcases ix with ⟨hv, a, b⟩ | ⟨hv, a, b⟩ <;> omega)
  have hye : floatAdd g.text_rect.y g.text_yvel = g.text_rect.y + g.text_yvel :=
    floatAdd_exact _ _ (by rcases iy with ⟨hv, a, b⟩ | ⟨hv, a, b⟩ <;> omega)
      (by rcases iy with ⟨hv, a, b⟩ | ⟨hv, a, b⟩ <;> omega)
  simp only [Game.text, Prod.mk.injEq] at h2
  obtain ⟨ex, ey, ew2, eh2, evx, evy⟩ := h2
  rw [updateText_text_rect] at ex ey ew2 eh2
  simp only [hxe, hye] at ex ey ew2 eh2
  rw [updateText_text_xvel] at evx
  rw [updateText_text_yvel] at evy
  simp only [hxe, hye, gx, gy] at evx evy
  have hx2 : floatAdd g2.text_rect.x g2.text_xvel = g2.text_rect.x + g2.text_xvel := by
    apply floatAdd_exact <;> rw [ex, evx] <;>
      rcases ix with ⟨hv, a, b⟩ | ⟨hv, a, b⟩ <;> rw [hv] <;> split_ifs <;> omega
  have hy2 : floatAdd g2.text_rect.y g2.text_yvel = g2.text_rect.y + g2.text_yvel := by
    apply floatAdd_exact <;> rw [ey, evy] <;>
      rcases iy with ⟨hv, a, b⟩ | ⟨hv, a, b⟩ <;> rw [hv] <;> split_ifs <;> omega
  rw [xTriggers_eq, xTriggers_eq, yTriggers_eq, yTriggers_eq, updateText_text_rect]
  simp only [exceedsX, exceedsY, WINDOW_WIDTH, WINDOW_HEIGHT, hxe, hye, hx2, hy2, gx, gy]
  simp only [ex, ey, ew2, eh2, evx, evy]
  constructor
  · intro hb
    have hb' : g.text_rect.x + g.text_xvel < 0 ∨ g.text_rect.x + g.text_xvel + g.text_rect.w > 800 := by
      by_contra hn
      push_neg at hn
      apply hb
      simp [hn.1, hn.2]
    have hgoal : ¬ (g.text_rect.x + g.text_xvel +
          (if g.text_rect.x + g.text_xvel < 0 then 3
            else if g.text_rect.x + g.text_xvel + g.text_rect.w > 800 then -3 else g.text_xvel) < 0) ∧
        ¬ (g.text_rect.x + g.text_xvel +
          (if g.text_rect.x + g.text_xvel < 0 then 3
            else if g.text_rect.x + g.text_xvel + g.text_rect.w > 800 then -3 else g.text_xvel) +
            g.text_rect.w > 800) := by
      rcases ix with ⟨hv, a, b⟩ | ⟨hv, a, b⟩ <;> rw [hv] at hb' ⊢ <;>
        split_ifs <;> constructor <;> omega
    refine ⟨by simp [hgoal.1, hgoal.2], by omega, by omega⟩
  · intro hb
    have hb' : g.text_rect.y + g.text_yvel < 0 ∨ g.text_rect.y + g.text_yvel + g.text_rect.h > 600 := by
      by_contra hn
      push_neg at hn
      apply hb
      simp [hn.1, hn.2]
    have hgoal : ¬ (g.text_rect.y + g.text_yvel +
          (if g.text_rect.y + g.text_yvel < 0 then 3
            else if g.text_rect.y + g.text_yvel + g.text_rect.h > 600 then -3 else g.text_yvel) < 0) ∧
        ¬ (g.text_rect.y + g.text_yvel +
          (if g.text_rect.y + g.text_yvel < 0 then 3
            else if g.text_rect.y + g.text_yvel + g.text_rect.h > 600 then -3 else g.text_yvel) +
            g.text_rect.h > 600) := by
      rcases iy with ⟨hv, a, b⟩ | ⟨hv, a, b⟩ <;> rw [hv] at hb' ⊢ <;>
        split_ifs <;> constructor <;> omega
    refine ⟨by simp [hgoal.1, hgoal.2], by omega, by omega⟩

/-- Witness of `no_bounce_in_consecutive_frames`: an element of 798 by 598
bounces on both axes in the first frame; the second frame, entered after the
sprite update, the render pass, the delay and an event drain, issues no
trigger on the x axis. -/
theorem no_bounce_in_consecutive_frames_witness :
    xTriggers (startState 798 598) = [Call.Mix_PlayChannel none] ∧
    xTriggers
      (events exampleEnv
        ((draw (updateSprite (keysHeld [SDL_SCANCODE_UP])
          (updateText (startState 798 598)))).call (Call.SDL_Delay 16))
        [⟨SDL_EVENT_KEY_DOWN, SDL_SCANCODE_SPACE⟩]).1 = [] :=
  ⟨by decide,
    ((no_bounce_in_consecutive_frames 798 598 (startState 798 598)
      (events exampleEnv
        ((draw (updateSprite (keysHeld [SDL_SCANCODE_UP])
          (updateText (startState 798 598)))).call (Call.SDL_Delay 16))
        [⟨SDL_EVENT_KEY_DOWN, SDL_SCANCODE_SPACE⟩]).1
      (by decide) (by decide) (by decide) (by decide) (Reachable.start _ rfl rfl rfl)
      (by decide)).1 (by decide)).1⟩

/-! ## The frame loop -/

/-- The run flag after a tick: the flag before it, cleared when the drained
batch holds a quit event or a key-down of Escape. -/
theorem tick_is_running (env : Env) (keystate : Nat → Bool) (queue : List SDL_Event)
    (g : Game) :
    (tick env keystate queue g).is_running = (g.is_running && !queue.any isStop) := by
  show (draw (updateSprite keystate (updateText (events env g queue).1))).is_running = _
  rw [draw_is_running, updateSprite_is_running, updateText_is_running, events_is_running]

theorem events_delayCount (env : Env) (q : List SDL_Event) (g : Game) :
    delayCount (events env g q).1.calls = delayCount g.calls := by
  induction q generalizing g with
  | nil => rfl
  | cons e q ih =>
    rw [events_cons, ih]
    obtain ⟨r, gr, b, hc⟩ := handleEvent_calls env g e
    rw [hc]
    unfold delayCount
    rw [List.count_append]
    split_ifs <;> simp

/-- The trace after a tick: the calls of the event drain, then those of the
text advance, then the five calls of the render pass, then the delay. -/
theorem tick_calls (env : Env) (keystate : Nat → Bool) (queue : List SDL_Event) (g : Game) :
    (tick env keystate queue g).calls =
      (updateText (events env g queue).1).calls ++
        [Call.SDL_RenderClear, Call.SDL_RenderTexture g.background none,
         Call.SDL_RenderTexture g.text_image
           (some (updateText (events env g queue).1).text_rect),
         Call.SDL_RenderTexture g.sprite_image
           (some (updateSprite keystate (updateText (events env g queue).1)).sprite_rect),
         Call.SDL_RenderPresent, Call.SDL_Delay 16] := by
  show ((draw (updateSprite keystate (updateText (events env g queue).1))).call
    (Call.SDL_Delay 16)).calls = _
  obtain ⟨r, n, c, h⟩ := events_frame env queue g
  have hb : (updateSprite keystate (updateText (events env g queue).1)).background
      = g.background := by rw [updateSprite_eq, updateText_eq, h]
  have ht : (updateSprite keystate (updateText (events env g queue).1)).text_image
      = g.text_image := by rw [updateSprite_eq, updateText_eq, h]
  have hs : (updateSprite keystate (updateText (events env g queue).1)).sprite_image
      = g.sprite_image := by rw [updateSprite_eq, updateText_eq, h]
  have hc : (updateSprite keystate (updateText (events env g queue).1)).calls
      = (updateText (events env g queue).1).calls := by rw [updateSprite_eq]
  rw [call_calls, draw_eq]
  simp only [hb, ht, hs, hc, updateSprite_text_rect, List.append_assoc, List.cons_append,
    List.nil_append]

/-- A tick adds exactly one pacing delay to the trace. -/
theorem tick_delayCount (env : Env) (keystate : Nat → Bool) (queue : List SDL_Event)
    (g : Game) :
    delayCount (tick env keystate queue g).calls = delayCount g.calls + 1 := by
  rw [tick_calls, updateText_calls]
  have h := events_delayCount env queue g
  unfold delayCount at *
  simp only [List.count_append, h]
  split_ifs <;> simp

theorem ticksFrom_succ (env : Env) (frames : Nat → Frame) (n i : Nat) (g : Game) :
    ticksFrom env frames (n + 1) i g =
      tick env (frames (i + n)).keystate (frames (i + n)).queue (ticksFrom env frames n i g) := by
  induction n generalizing i g with
  | zero => rfl
  | succ n ih =>
    show ticksFrom env frames (n + 1) (i + 1) _ = _
    rw [ih]
    have : i + 1 + n = i + (n + 1) := by omega
    rw [this]
    rfl

theorem ticksFrom_delayCount (env : Env) (frames : Nat → Frame) (n i : Nat) (g : Game) :
    delayCount (ticksFrom env frames n i g).calls = delayCount g.calls + n := by
  induction n with
  | zero => rfl
  | succ n ih => rw [ticksFrom_succ, tick_delayCount, ih]; omega

/-- The run flag stays true through ticks whose batches hold no stop event. -/
theorem ticksFrom_is_running (env : Env) (frames : Nat → Frame) (n i : Nat) (g : Game)
    (hrun : g.is_running = true)
    (hq : ∀ m < n, (frames (i + m)).queue.any isStop = false) :
    (ticksFrom env frames n i g).is_running = true := by
  induction n with
  | zero => exact hrun
  | succ n ih =>
    rw [ticksFrom_succ, tick_is_running, ih (fun m hm => hq m (by omega)),
      hq n (by omega)]
    rfl

/-- The loop, entered with the run flag true, when the first batch with a
stop event is the one of iteration `i + j`: it ends after `j + 1` ticks. -/
theorem runLoop_stops (env : Env) (frames : Nat → Frame) (j : Nat) :
    ∀ (fuel i : Nat) (g : Game), g.is_running = true →
      (∀ m < j, (frames (i + m)).queue.any isStop = false) →
      (frames (i + j)).queue.any isStop = true → j + 1 ≤ fuel →
      runLoop env frames fuel i g = some (ticksFrom env frames (j + 1) i g) := by
  induction j with
  | zero =>
    intro fuel i g hrun _ hstop hfuel
    obtain ⟨f, rfl⟩ : ∃ f, fuel = f + 1 := ⟨fuel - 1, by omega⟩
    have h1 : (tick env (frames i).keystate (frames i).queue g).is_running = false := by
      rw [Nat.add_zero] at hstop
      rw [tick_is_running, hstop, hrun]; rfl
    rw [runLoop, if_pos hrun]
    cases f with
    | zero => rw [runLoop, h1]; rfl
    | succ f => rw [runLoop, h1]; rfl
  | succ j ih =>
    intro fuel i g hrun hq hstop hfuel
    obtain ⟨f, rfl⟩ : ∃ f, fuel = f + 1 := ⟨fuel - 1, by omega⟩
    have h1 : (tick env (frames i).keystate (frames i).queue g).is_running = true := by
      have h0 := hq 0 (by omega)
      rw [Nat.add_zero] at h0
      rw [tick_is_running, h0, hrun]; rfl
    rw [runLoop, if_pos hrun]
    rw [ih f (i + 1) _ h1 (fun m hm => by
        have := hq (m + 1) (by omega)
        rwa [show i + (m + 1) = i + 1 + m by omega] at this)
      (by rwa [show i + (j + 1) = i + 1 + j by omega] at hstop) (by omega)]
    rfl

/-- C16: once the music has started, `Game::run`, entered with the run flag
true, executes exactly k = j + 1 ticks when the first batch that holds a quit
event or a key-down of Escape is the one of tick k (iteration j counted from
0): it returns the state after j + 1 ticks, the trace holds j + 1 pacing
delays, every one of these ticks started with the run flag true, and the flag
is false afterwards.  Every tick is the event drain, the text advance, the
sprite advance, the render pass and the 16 ms delay in this order; the k-th
tick, which drains the stop event, still moves the text, renders and
delays. -/
theorem run_executes_ticks_until_stop (env : Env) (frames : Nat → Frame) (g : Game)
    (j fuel : Nat) (hmusic : env.fails Step.Mix_PlayMusic = false)
    (hrun : g.is_running = true)
    (hbefore : ∀ m < j, (frames m).queue.any isStop = false)
    (hstop : (frames j).queue.any isStop = true) (hfuel : j + 1 ≤ fuel) :
    run env frames fuel g =
      some (Outcome.returned
        (ticksFrom env frames (j + 1) 0 (g.call (Call.Mix_PlayMusic true)))) ∧
    delayCount (ticksFrom env frames (j + 1) 0 (g.call (Call.Mix_PlayMusic true))).calls
      = delayCount g.calls + (j + 1) ∧
    (∀ n ≤ j, (ticksFrom env frames n 0 (g.call (Call.Mix_PlayMusic true))).is_running = true) ∧
    (ticksFrom env frames (j + 1) 0 (g.call (Call.Mix_PlayMusic true))).is_running = false ∧
    (∀ (keystate : Nat → Bool) (queue : List SDL_Event) (s : Game),
      tick env keystate queue s =
        (draw (updateSprite keystate (updateText (events env s queue).1))).call
          (Call.SDL_Delay 16)) ∧
    (ticksFrom env frames (j + 1) 0 (g.call (Call.Mix_PlayMusic true)) =
        tick env (frames j).keystate (frames j).queue
          (ticksFrom env frames j 0 (g.call (Call.Mix_PlayMusic true))) ∧
      ∃ s : Game, s = (events env (ticksFrom env frames j 0 (g.call (Call.Mix_PlayMusic true)))
          (frames j).queue).1 ∧
        s.is_running = false ∧
        (ticksFrom env frames (j + 1) 0 (g.call (Call.Mix_PlayMusic true))).text_rect
          = (updateText s).text_rect ∧
        (ticksFrom env frames (j + 1) 0 (g.call (Call.Mix_PlayMusic true))).calls
          = (updateText s).calls ++
            [Call.SDL_RenderClear, Call.SDL_RenderTexture s.background none,
             Call.SDL_RenderTexture s.text_image (some (updateText s).text_rect),
             Call.SDL_RenderTexture s.sprite_image
               (some (updateSprite (frames j).keystate (updateText s)).sprite_rect),
             Call.SDL_RenderPresent, Call.SDL_Delay 16]) := by
  have hrun' : (g.call (Call.Mix_PlayMusic true)).is_running = true := hrun
  have hloop := runLoop_stops env frames j fuel 0 (g.call (Call.Mix_PlayMusic true)) hrun'
    (fun m hm => by rw [Nat.zero_add]; exact hbefore m hm)
    (by rw [Nat.zero_add]; exact hstop) hfuel
  have hlast := ticksFrom_succ env frames j 0 (g.call (Call.Mix_PlayMusic true))
  rw [Nat.zero_add] at hlast
  have hbeforeJ : (ticksFrom env frames j 0 (g.call (Call.Mix_PlayMusic true))).is_running
      = true :=
    ticksFrom_is_running env frames j 0 _ hrun'
      (fun m hm => by rw [Nat.zero_add]; exact hbefore m hm)
  refine ⟨?_, ?_, ?_, ?_, fun _ _ _ => rfl, hlast, _, rfl, ?_, ?_, ?_⟩
  · unfold run
    simp only [hmusic, Bool.not_false, Bool.false_eq_true, if_false]
    rw [hloop]
    rfl
  · rw [ticksFrom_delayCount]
    unfold delayCount
    rw [call_calls, List.count_append]
    simp
  · intro n hn
    exact ticksFrom_is_running env frames n 0 _ hrun'
      (fun m hm => by rw [Nat.zero_add]; exact hbefore m (by omega))
  · rw [hlast, tick_is_running, hstop, hbeforeJ]
    rfl
  · rw [events_is_running, hstop, hbeforeJ]
    rfl
  · rw [hlast]
    show (draw (updateSprite (frames j).keystate (updateText _))).text_rect = _
    rw [draw_text_rect, updateSprite_text_rect]
  · rw [hlast, tick_calls]
    obtain ⟨r, n, c, h⟩ := events_frame env (frames j).queue
      (ticksFrom env frames j 0 (g.call (Call.Mix_PlayMusic true)))
    have hb : (events env (ticksFrom env frames j 0 (g.call (Call.Mix_PlayMusic true)))
        (frames j).queue).1.background
        = (ticksFrom env frames j 0 (g.call (Call.Mix_PlayMusic true))).background := by
      rw [h]
    have ht : (events env (ticksFrom env frames j 0 (g.call (Call.Mix_PlayMusic true)))
        (frames j).queue).1.text_image
        = (ticksFrom env frames j 0 (g.call (Call.Mix_PlayMusic true))).text_image := by
      rw [h]
    have hs : (events env (ticksFrom env frames j 0 (g.call (Call.Mix_PlayMusic true)))
        (frames j).queue).1.sprite_image
        = (ticksFrom env frames j 0 (g.call (Call.Mix_PlayMusic true))).sprite_image := by
      rw [h]
    rw [hb, ht, hs]

/-- Witness of `run_executes_ticks_until_stop`: after a startup in which
nothing fails, with the quit event in the batch of the third tick, `run`
returns after exactly three ticks. -/
theorem run_executes_ticks_until_stop_witness :
    run exampleEnv exampleFrames 5 exampleStarted =
      some (Outcome.returned
        (ticksFrom exampleEnv exampleFrames 3 0
          (exampleStarted.call (Call.Mix_PlayMusic true)))) ∧
    delayCount (ticksFrom exampleEnv exampleFrames 3 0
        (exampleStarted.call (Call.Mix_PlayMusic true))).calls = 3 :=
  ⟨(run_executes_ticks_until_stop exampleEnv exampleFrames exampleStarted 2 5 rfl
      (by decide) (by decide) (by decide) (by decide)).1,
    by decide⟩

/-! ## Startup, one check at a time -/

theorem initSdl_eq (env : Env) (g : Game) :
    initSdl env g =
      if env.fails Step.SDL_Init then Outcome.threw "Error initialize SDL2: " ((g.call (Call.SDL_Init false)).call Call.SDL_GetError)
      else initTtf env (g.call (Call.SDL_Init true)) := by
  unfold initSdl
  generalize env.fails Step.SDL_Init = b
  cases b <;> rfl

theorem initTtf_eq (env : Env) (g : Game) :
    initTtf env g =
      if env.fails Step.TTF_Init then Outcome.threw "Error initialize SDL_ttf: " ((g.call (Call.TTF_Init false)).call Call.SDL_GetError)
      else initMixer env (g.call (Call.TTF_Init true)) := by
  unfold initTtf
  generalize env.fails Step.TTF_Init = b
  cases b <;> rfl

theorem initMixer_eq (env : Env) (g : Game) :
    initMixer env g =
      if env.fails Step.Mix_Init then Outcome.threw "Error initialize SDL_mixer: " ((g.call (Call.Mix_Init false)).call Call.SDL_GetError)
      else openAudio env (g.call (Call.Mix_Init true)) := by
  unfold initMixer
  generalize env.fails Step.Mix_Init = b
  cases b <;> rfl

theorem openAudio_eq (env : Env) (g : Game) :
    openAudio env g =
      if env.fails Step.Mix_OpenAudio then Outcome.threw "Error Opening Audio: " ((g.call (Call.Mix_OpenAudio false)).call Call.SDL_GetError)
      else createWindow env (g.call (Call.Mix_OpenAudio true)) := by
  unfold openAudio
  generalize env.fails Step.Mix_OpenAudio = b
  cases b <;> rfl

theorem createWindow_eq (env : Env) (g : Game) :
    createWindow env g =
      if env.fails (Step.create Res.window) then
        Outcome.threw "Error creating Window: "
          { g with window := none,
                   calls := g.calls ++ [Call.create Res.window false] ++
                     deleterCalls g.window ++
                     [Call.SDL_GetError] }
      else
        createRenderer env
          { g with window := some Res.window,
                   calls := g.calls ++ [Call.create Res.window true] ++
                     deleterCalls g.window } := by
  unfold createWindow loaded
  generalize env.fails (Step.create Res.window) = b
  cases b <;> rfl

theorem createRenderer_eq (env : Env) (g : Game) :
    createRenderer env g =
      if env.fails (Step.create Res.renderer) then
        Outcome.threw "Error creating Renderer: "
          { g with renderer := none,
                   calls := g.calls ++ [Call.create Res.renderer false] ++
                     deleterCalls g.renderer ++
                     [Call.SDL_GetError] }
      else
        loadIcon env
          { g with renderer := some Res.renderer,
                   calls := g.calls ++ [Call.create Res.renderer true] ++
                     deleterCalls g.renderer } := by
  unfold createRenderer loaded
  generalize env.fails (Step.create Res.renderer) = b
  cases b <;> rfl

theorem loadIcon_eq (env : Env) (g : Game) :
    loadIcon env g =
      if env.fails (Step.create Res.icon_surf) then
        Outcome.threw "Error loading Surface: "
          { g with icon_surf := none,
                   calls := g.calls ++ [Call.create Res.icon_surf false] ++
                     deleterCalls g.icon_surf ++
                     [Call.SDL_GetError] }
      else
        Outcome.returned (Game.call
          { g with icon_surf := some Res.icon_surf,
                   calls := g.calls ++ [Call.create Res.icon_surf true] ++
                     deleterCalls g.icon_surf }
          Call.SDL_SetWindowIcon) := by
  unfold loadIcon loaded
  generalize env.fails (Step.create Res.icon_surf) = b
  cases b <;> rfl

theorem loadMedia_eq (env : Env) (g : Game) :
    loadMedia env g =
      if env.fails (Step.create Res.background) then
        Outcome.threw "Error loading Texture: "
          { g with background := none,
                   calls := g.calls ++ [Call.create Res.background false] ++
                     deleterCalls g.background ++
                     [Call.SDL_GetError] }
      else
        openFont env
          { g with background := some Res.background,
                   calls := g.calls ++ [Call.create Res.background true] ++
                     deleterCalls g.background } := by
  unfold loadMedia loaded
  generalize env.fails (Step.create Res.background) = b
  cases b <;> rfl

theorem createSpriteImage_eq (env : Env) (font text_surf : Option Res) (g : Game) :
    createSpriteImage env font text_surf g =
      if env.fails (Step.create Res.sprite_image) then
        Outcome.threw "Error creating Texture from Surface: " (leaveLoadMedia font text_surf
          { g with sprite_image := none,
                   calls := g.calls ++ [Call.create Res.sprite_image false] ++
                     deleterCalls g.sprite_image ++
                     [Call.SDL_GetError] })
      else
        querySpriteSize env font text_surf
          { g with sprite_image := some Res.sprite_image,
                   calls := g.calls ++ [Call.create Res.sprite_image true] ++
                     deleterCalls g.sprite_image } := by
  unfold createSpriteImage loaded
  generalize env.fails (Step.create Res.sprite_image) = b
  cases b <;> rfl

theorem loadCppSound_eq (env : Env) (font text_surf : Option Res) (g : Game) :
    loadCppSound env font text_surf g =
      if env.fails (Step.create Res.cpp_sound) then
        Outcome.threw "Error loading Chunk: " (leaveLoadMedia font text_surf
          { g with cpp_sound := none,
                   calls := g.calls ++ [Call.create Res.cpp_sound false] ++
                     deleterCalls g.cpp_sound ++
                     [Call.SDL_GetError] })
      else
        loadSdlSound env font text_surf
          { g with cpp_sound := some Res.cpp_sound,
                   calls := g.calls ++ [Call.create Res.cpp_sound true] ++
                     deleterCalls g.cpp_sound } := by
  unfold loadCppSound loaded
  generalize env.fails (Step.create Res.cpp_sound) = b
  cases b <;> rfl

theorem loadSdlSound_eq (env : Env) (font text_surf : Option Res) (g : Game) :
    loadSdlSound env font text_surf g =
      if env.fails (Step.create Res.sdl_sound) then
        Outcome.threw "Error loading Chunk: " (leaveLoadMedia font text_surf
          { g with sdl_sound := none,
                   calls := g.calls ++ [Call.create Res.sdl_sound false] ++
                     deleterCalls g.sdl_sound ++
                     [Call.SDL_GetError] })
      else
        loadMusic env font text_surf
          { g with sdl_sound := some Res.sdl_sound,
                   calls := g.calls ++ [Call.create Res.sdl_sound true] ++
                     deleterCalls g.sdl_sound } := by
  unfold loadSdlSound loaded
  generalize env.fails (Step.create Res.sdl_sound) = b
  cases b <;> rfl

theorem loadMusic_eq (env : Env) (font text_surf : Option Res) (g : Game) :
    loadMusic env font text_surf g =
      if env.fails (Step.create Res.music) then
        Outcome.threw "Error loading Music: " (leaveLoadMedia font text_surf
          { g with music := none,
                   calls := g.calls ++ [Call.create Res.music false] ++
                     deleterCalls g.music ++
                     [Call.SDL_GetError] })
      else
        Outcome.returned (leaveLoadMedia font text_surf
          { g with music := some Res.music,
                   calls := g.calls ++ [Call.create Res.music true] ++
                     deleterCalls g.music }) := by
  unfold loadMusic loaded
  generalize env.fails (Step.create Res.music) = b
  cases b <;> rfl

theorem openFont_eq (env : Env) (g : Game) :
    openFont env g =
      if env.fails (Step.create Res.font) then
        Outcome.threw "Error creating Font: "
          (leaveLoadMedia none none ((g.call (Call.create Res.font false)).call Call.SDL_GetError))
      else renderText env (some Res.font) (g.call (Call.create Res.font true)) := by
  unfold openFont loaded
  generalize env.fails (Step.create Res.font) = b
  cases b <;> rfl

theorem renderText_eq (env : Env) (font : Option Res) (g : Game) :
    renderText env font g =
      if env.fails (Step.create Res.text_surf) then
        Outcome.threw "Error loading text Surface: "
          (leaveLoadMedia font none ((g.call (Call.create Res.text_surf false)).call Call.SDL_GetError))
      else
        createTextImage env font (some Res.text_surf)
          (g.call (Call.create Res.text_surf true)) := by
  unfold renderText loaded
  generalize env.fails (Step.create Res.text_surf) = b
  cases b <;> rfl

theorem createTextImage_eq (env : Env) (font text_surf : Option Res) (g : Game) :
    createTextImage env font text_surf g =
      if env.fails (Step.create Res.text_image) then
        Outcome.threw "Error creating Texture from Surface: " (leaveLoadMedia font text_surf
          { g with text_rect := ⟨g.text_rect.x, g.text_rect.y, env.text_w, env.text_h⟩,
                   calls := g.calls ++ [Call.create Res.text_image false] ++
                     deleterCalls g.text_image ++
                     [Call.SDL_GetError],
                   text_image := none })
      else
        createSpriteImage env font text_surf
          { g with text_rect := ⟨g.text_rect.x, g.text_rect.y, env.text_w, env.text_h⟩,
                   calls := g.calls ++ [Call.create Res.text_image true] ++
                     deleterCalls g.text_image,
                   text_image := some Res.text_image } := by
  unfold createTextImage loaded
  generalize env.fails (Step.create Res.text_image) = b
  cases b <;> rfl

theorem querySpriteSize_eq (env : Env) (font text_surf : Option Res) (g : Game) :
    querySpriteSize env font text_surf g =
      if env.fails Step.SDL_GetTextureSize then
        Outcome.threw "Error getting Texture size: "
          (leaveLoadMedia font text_surf ((g.call (Call.SDL_GetTextureSize false)).call Call.SDL_GetError))
      else
        loadCppSound env font text_surf
          { g with sprite_rect := ⟨g.sprite_rect.x, g.sprite_rect.y, env.sprite_w, env.sprite_h⟩,
                   calls := g.calls ++ [Call.SDL_GetTextureSize true] } := by
  unfold querySpriteSize
  generalize env.fails Step.SDL_GetTextureSize = b
  cases b <;> rfl

theorem init_eq (env : Env) (g : Game) :
    init env g =
      ((initSdl env g).andThen (loadMedia env)).andThen
        (fun g => Outcome.returned { g with gen := 0 }) := by
  unfold init Outcome.andThen
  cases initSdl env g with
  | threw msg g1 => rfl
  | returned g1 =>
    simp only
    cases loadMedia env g1 <;> rfl

theorem andThen_returned (g : Game) (f : Game → Outcome) :
    (Outcome.returned g).andThen f = f g := rfl

theorem andThen_threw (msg : String) (g : Game) (f : Game → Outcome) :
    (Outcome.threw msg g).andThen f = Outcome.threw msg g := rfl


/-! ## Startup depends on the environment through the first failing step -/

theorem view_eq_iff (g g' : Game) :
    g.view = g'.view ↔
      g.calls = g'.calls ∧ g.window = g'.window ∧ g.renderer = g'.renderer ∧
      g.background = g'.background ∧ g.text_image = g'.text_image ∧
      g.icon_surf = g'.icon_surf ∧ g.sprite_image = g'.sprite_image ∧
      g.cpp_sound = g'.cpp_sound ∧ g.sdl_sound = g'.sdl_sound ∧ g.music = g'.music := by
  simp only [Game.view, Game.handles, Prod.mk.injEq, List.cons.injEq, and_true]

theorem find?_fails_true {l : List Step} {f : Step → Bool} {s : Step}
    (h : l.find? f = some s) : f s = true := List.find?_some h

theorem summary_andThen_seed (o : Outcome) :
    (o.andThen (fun g => Outcome.returned { g with gen := 0 })).summary = o.summary := by
  cases o <;> rfl

theorem loadMusic_sim (env env' : Env) (font text_surf : Option Res) (g g' : Game)
    (hv : g.view = g'.view)
    (hf : List.find? env.fails
      [Step.create Res.music] =
      List.find? env'.fails
      [Step.create Res.music]) :
    (loadMusic env font text_surf g).summary =
      (loadMusic env' font text_surf g').summary := by
  rw [loadMusic_eq, loadMusic_eq]
  rw [view_eq_iff] at hv
  obtain ⟨hc, w1, w2, w3, w4, w5, w6, w7, w8, w9⟩ := hv
  cases h : env.fails (Step.create Res.music) <;> cases h' : env'.fails (Step.create Res.music)
  · simp only [Bool.false_eq_true, if_false]
    simp only [Outcome.summary, Outcome.error, Outcome.game, leaveLoadMedia, Game.handles,
      hc, w1, w2, w3, w4, w5, w6, w7, w8, w9]
  · exfalso
    have hr : List.find? env'.fails
      [Step.create Res.music] = some (Step.create Res.music) := by
      rw [List.find?_cons, h']
    have := find?_fails_true (hf.trans hr)
    rw [h] at this
    exact Bool.false_ne_true this
  · exfalso
    have hr : List.find? env.fails
      [Step.create Res.music] = some (Step.create Res.music) := by
      rw [List.find?_cons, h]
    have := find?_fails_true (hf.symm.trans hr)
    rw [h'] at this
    exact Bool.false_ne_true this
  · simp only [if_true, Outcome.summary, Outcome.error, Outcome.game, leaveLoadMedia,
      Game.call, Game.handles, hc, w1, w2, w3, w4, w5, w6, w7, w8, w9]

theorem loadSdlSound_sim (env env' : Env) (font text_surf : Option Res) (g g' : Game)
    (hv : g.view = g'.view)
    (hf : List.find? env.fails
      [Step.create Res.sdl_sound, Step.create Res.music] =
      List.find? env'.fails
      [Step.create Res.sdl_sound, Step.create Res.music]) :
    (loadSdlSound env font text_surf g).summary =
      (loadSdlSound env' font text_surf g').summary := by
  rw [loadSdlSound_eq, loadSdlSound_eq]
  rw [view_eq_iff] at hv
  obtain ⟨hc, w1, w2, w3, w4, w5, w6, w7, w8, w9⟩ := hv
  cases h : env.fails (Step.create Res.sdl_sound) <;> cases h' : env'.fails (Step.create Res.sdl_sound)
  · simp only [Bool.false_eq_true, if_false]
    refine loadMusic_sim env env' font text_surf _ _ ?_ ?_
    · rw [view_eq_iff]
      simp only [Game.call, hc, w1, w2, w3, w4, w5, w6, w7, w8, w9, and_self]
    · simpa [List.find?_cons, h, h'] using hf
  · exfalso
    have hr : List.find? env'.fails
      [Step.create Res.sdl_sound, Step.create Res.music] = some (Step.create Res.sdl_sound) := by
      rw [List.find?_cons, h']
    have := find?_fails_true (hf.trans hr)
    rw [h] at this
    exact Bool.false_ne_true this
  · exfalso
    have hr : List.find? env.fails
      [Step.create Res.sdl_sound, Step.create Res.music] = some (Step.create Res.sdl_sound) := by
      rw [List.find?_cons, h]
    have := find?_fails_true (hf.symm.trans hr)
    rw [h'] at this
    exact Bool.false_ne_true this
  · simp only [if_true, Outcome.summary, Outcome.error, Outcome.game, leaveLoadMedia,
      Game.call, Game.handles, hc, w1, w2, w3, w4, w5, w6, w7, w8, w9]

theorem loadCppSound_sim (env env' : Env) (font text_surf : Option Res) (g g' : Game)
    (hv : g.view = g'.view)
    (hf : List.find? env.fails
      [Step.create Res.cpp_sound, Step.create Res.sdl_sound, Step.create Res.music] =
      List.find? env'.fails
      [Step.create Res.cpp_sound, Step.create Res.sdl_sound, Step.create Res.music]) :
    (loadCppSound env font text_surf g).summary =
      (loadCppSound env' font text_surf g').summary := by
  rw [loadCppSound_eq, loadCppSound_eq]
  rw [view_eq_iff] at hv
  obtain ⟨hc, w1, w2, w3, w4, w5, w6, w7, w8, w9⟩ := hv
  cases h : env.fails (Step.create Res.cpp_sound) <;> cases h' : env'.fails (Step.create Res.cpp_sound)
  · simp only [Bool.false_eq_true, if_false]
    refine loadSdlSound_sim env env' font text_surf _ _ ?_ ?_
    · rw [view_eq_iff]
      simp only [Game.call, hc, w1, w2, w3, w4, w5, w6, w7, w8, w9, and_self]
    · simpa [List.find?_cons, h, h'] using hf
  · exfalso
    have hr : List.find? env'.fails
      [Step.create Res.cpp_sound, Step.create Res.sdl_sound, Step.create Res.music] = some (Step.create Res.cpp_sound) := by
      rw [List.find?_cons, h']
    have := find?_fails_true (hf.trans hr)
    rw [h] at this
    exact Bool.false_ne_true this
  · exfalso
    have hr : List.find? env.fails
      [Step.create Res.cpp_sound, Step.create Res.sdl_sound, Step.create Res.music] = some (Step.create Res.cpp_sound) := by
      rw [List.find?_cons, h]
    have := find?_fails_true (hf.symm.trans hr)
    rw [h'] at this
    exact Bool.false_ne_true this
  · simp only [if_true, Outcome.summary, Outcome.error, Outcome.game, leaveLoadMedia,
      Game.call, Game.handles, hc, w1, w2, w3, w4, w5, w6, w7, w8, w9]

theorem querySpriteSize_sim (env env' : Env) (font text_surf : Option Res) (g g' : Game)
    (hv : g.view = g'.view)
    (hf : List.find? env.fails
      [Step.SDL_GetTextureSize, Step.create Res.cpp_sound, Step.create Res.sdl_sound,
       Step.create Res.music] =
      List.find? env'.fails
      [Step.SDL_GetTextureSize, Step.create Res.cpp_sound, Step.create Res.sdl_sound,
       Step.create Res.music]) :
    (querySpriteSize env font text_surf g).summary =
      (querySpriteSize env' font text_surf g').summary := by
  rw [querySpriteSize_eq, querySpriteSize_eq]
  rw [view_eq_iff] at hv
  obtain ⟨hc, w1, w2, w3, w4, w5, w6, w7, w8, w9⟩ := hv
  cases h : env.fails Step.SDL_GetTextureSize <;> cases h' : env'.fails Step.SDL_GetTextureSize
  · simp only [Bool.false_eq_true, if_false]
    refine loadCppSound_sim env env' font text_surf _ _ ?_ ?_
    · rw [view_eq_iff]
      simp only [Game.call, hc, w1, w2, w3, w4, w5, w6, w7, w8, w9, and_self]
    · simpa [List.find?_cons, h, h'] using hf
  · exfalso
    have hr : List.find? env'.fails
      [Step.SDL_GetTextureSize, Step.create Res.cpp_sound, Step.create Res.sdl_sound,
       Step.create Res.music] = some Step.SDL_GetTextureSize := by
      rw [List.find?_cons, h']
    have := find?_fails_true (hf.trans hr)
    rw [h] at this
    exact Bool.false_ne_true this
  · exfalso
    have hr : List.find? env.fails
      [Step.SDL_GetTextureSize, Step.create Res.cpp_sound, Step.create Res.sdl_sound,
       Step.create Res.music] = some Step.SDL_GetTextureSize := by
      rw [List.find?_cons, h]
    have := find?_fails_true (hf.symm.trans hr)
    rw [h'] at this
    exact Bool.false_ne_true this
  · simp only [if_true, Outcome.summary, Outcome.error, Outcome.game, leaveLoadMedia,
      Game.call, Game.handles, hc, w1, w2, w3, w4, w5, w6, w7, w8, w9]

theorem createSpriteImage_sim (env env' : Env) (font text_surf : Option Res) (g g' : Game)
    (hv : g.view = g'.view)
    (hf : List.find? env.fails
      [Step.create Res.sprite_image, Step.SDL_GetTextureSize, Step.create Res.cpp_sound,
       Step.create Res.sdl_sound, Step.create Res.music] =
      List.find? env'.fails
      [Step.create Res.sprite_image, Step.SDL_GetTextureSize, Step.create Res.cpp_sound,
       Step.create Res.sdl_sound, Step.create Res.music]) :
    (createSpriteImage env font text_surf g).summary =
      (createSpriteImage env' font text_surf g').summary := by
  rw [createSpriteImage_eq, createSpriteImage_eq]
  rw [view_eq_iff] at hv
  obtain ⟨hc, w1, w2, w3, w4, w5, w6, w7, w8, w9⟩ := hv
  cases h : env.fails (Step.create Res.sprite_image) <;> cases h' : env'.fails (Step.create Res.sprite_image)
  · simp only [Bool.false_eq_true, if_false]
    refine querySpriteSize_sim env env' font text_surf _ _ ?_ ?_
    · rw [view_eq_iff]
      simp only [Game.call, hc, w1, w2, w3, w4, w5, w6, w7, w8, w9, and_self]
    · simpa [List.find?_cons, h, h'] using hf
  · exfalso
    have hr : List.find? env'.fails
      [Step.create Res.sprite_image, Step.SDL_GetTextureSize, Step.create Res.cpp_sound,
       Step.create Res.sdl_sound, Step.create Res.music] = some (Step.create Res.sprite_image) := by
      rw [List.find?_cons, h']
    have := find?_fails_true (hf.trans hr)
    rw [h] at this
    exact Bool.false_ne_true this
  · exfalso
    have hr : List.find? env.fails
      [Step.create Res.sprite_image, Step.SDL_GetTextureSize, Step.create Res.cpp_sound,
       Step.create Res.sdl_sound, Step.create Res.music] = some (Step.create Res.sprite_image) := by
      rw [List.find?_cons, h]
    have := find?_fails_true (hf.symm.trans hr)
    rw [h'] at this
    exact Bool.false_ne_true this
  · simp only [if_true, Outcome.summary, Outcome.error, Outcome.game, leaveLoadMedia,
      Game.call, Game.handles, hc, w1, w2, w3, w4, w5, w6, w7, w8, w9]

theorem createTextImage_sim (env env' : Env) (font text_surf : Option Res) (g g' : Game)
    (hv : g.view = g'.view)
    (hf : List.find? env.fails
      [Step.create Res.text_image, Step.create Res.sprite_image, Step.SDL_GetTextureSize,
       Step.create Res.cpp_sound, Step.create Res.sdl_sound, Step.create Res.music] =
      List.find? env'.fails
      [Step.create Res.text_image, Step.create Res.sprite_image, Step.SDL_GetTextureSize,
       Step.create Res.cpp_sound, Step.create Res.sdl_sound, Step.create Res.music]) :
    (createTextImage env font text_surf g).summary =
      (createTextImage env' font text_surf g').summary := by
  rw [createTextImage_eq, createTextImage_eq]
  rw [view_eq_iff] at hv
  obtain ⟨hc, w1, w2, w3, w4, w5, w6, w7, w8, w9⟩ := hv
  cases h : env.fails (Step.create Res.text_image) <;> cases h' : env'.fails (Step.create Res.text_image)
  · simp only [Bool.false_eq_true, if_false]
    refine createSpriteImage_sim env env' font text_surf _ _ ?_ ?_
    · rw [view_eq_iff]
      simp only [Game.call, hc, w1, w2, w3, w4, w5, w6, w7, w8, w9, and_self]
    · simpa [List.find?_cons, h, h'] using hf
  · exfalso
    have hr : List.find? env'.fails
      [Step.create Res.text_image, Step.create Res.sprite_image, Step.SDL_GetTextureSize,
       Step.create Res.cpp_sound, Step.create Res.sdl_sound, Step.create Res.music] = some (Step.create Res.text_image) := by
      rw [List.find?_cons, h']
    have := find?_fails_true (hf.trans hr)
    rw [h] at this
    exact Bool.false_ne_true this
  · exfalso
    have hr : List.find? env.fails
      [Step.create Res.text_image, Step.create Res.sprite_image, Step.SDL_GetTextureSize,
       Step.create Res.cpp_sound, Step.create Res.sdl_sound, Step.create Res.music] = some (Step.create Res.text_image) := by
      rw [List.find?_cons, h]
    have := find?_fails_true (hf.symm.trans hr)
    rw [h'] at this
    exact Bool.false_ne_true this
  · simp only [if_true, Outcome.summary, Outcome.error, Outcome.game, leaveLoadMedia,
      Game.call, Game.handles, hc, w1, w2, w3, w4, w5, w6, w7, w8, w9]

theorem renderText_sim (env env' : Env) (font : Option Res) (g g' : Game)
    (hv : g.view = g'.view)
    (hf : List.find? env.fails
      [Step.create Res.text_surf, Step.create Res.text_image, Step.create Res.sprite_image,
       Step.SDL_GetTextureSize, Step.create Res.cpp_sound, Step.create Res.sdl_sound,
       Step.create Res.music] =
      List.find? env'.fails
      [Step.create Res.text_surf, Step.create Res.text_image, Step.create Res.sprite_image,
       Step.SDL_GetTextureSize, Step.create Res.cpp_sound, Step.create Res.sdl_sound,
       Step.create Res.music]) :
    (renderText env font g).summary =
      (renderText env' font g').summary := by
  rw [renderText_eq, renderText_eq]
  rw [view_eq_iff] at hv
  obtain ⟨hc, w1, w2, w3, w4, w5, w6, w7, w8, w9⟩ := hv
  cases h : env.fails (Step.create Res.text_surf) <;> cases h' : env'.fails (Step.create Res.text_surf)
  · simp only [Bool.false_eq_true, if_false]
    refine createTextImage_sim env env' font (some Res.text_surf) _ _ ?_ ?_
    · rw [view_eq_iff]
      simp only [Game.call, hc, w1, w2, w3, w4, w5, w6, w7, w8, w9, and_self]
    · simpa [List.find?_cons, h, h'] using hf
  · exfalso
    have hr : List.find? env'.fails
      [Step.create Res.text_surf, Step.create Res.text_image, Step.create Res.sprite_image,
       Step.SDL_GetTextureSize, Step.create Res.cpp_sound, Step.create Res.sdl_sound,
       Step.create Res.music] = some (Step.create Res.text_surf) := by
      rw [List.find?_cons, h']
    have := find?_fails_true (hf.trans hr)
    rw [h] at this
    exact Bool.false_ne_true this
  · exfalso
    have hr : List.find? env.fails
      [Step.create Res.text_surf, Step.create Res.text_image, Step.create Res.sprite_image,
       Step.SDL_GetTextureSize, Step.create Res.cpp_sound, Step.create Res.sdl_sound,
       Step.create Res.music] = some (Step.create Res.text_surf) := by
      rw [List.find?_cons, h]
    have := find?_fails_true (hf.symm.trans hr)
    rw [h'] at this
    exact Bool.false_ne_true this
  · simp only [if_true, Outcome.summary, Outcome.error, Outcome.game, leaveLoadMedia,
      Game.call, Game.handles, hc, w1, w2, w3, w4, w5, w6, w7, w8, w9]

theorem openFont_sim (env env' : Env) (g g' : Game)
    (hv : g.view = g'.view)
    (hf : List.find? env.fails
      [Step.create Res.font, Step.create Res.text_surf, Step.create Res.text_image,
       Step.create Res.sprite_image, Step.SDL_GetTextureSize, Step.create Res.cpp_sound,
       Step.create Res.sdl_sound, Step.create Res.music] =
      List.find? env'.fails
      [Step.create Res.font, Step.create Res.text_surf, Step.create Res.text_image,
       Step.create Res.sprite_image, Step.SDL_GetTextureSize, Step.create Res.cpp_sound,
       Step.create Res.sdl_sound, Step.create Res.music]) :
    (openFont env g).summary =
      (openFont env' g').summary := by
  rw [openFont_eq, openFont_eq]
  rw [view_eq_iff] at hv
  obtain ⟨hc, w1, w2, w3, w4, w5, w6, w7, w8, w9⟩ := hv
  cases h : env.fails (Step.create Res.font) <;> cases h' : env'.fails (Step.create Res.font)
  · simp only [Bool.false_eq_true, if_false]
    refine renderText_sim env env' (some Res.font) _ _ ?_ ?_
    · rw [view_eq_iff]
      simp only [Game.call, hc, w1, w2, w3, w4, w5, w6, w7, w8, w9, and_self]
    · simpa [List.find?_cons, h, h'] using hf
  · exfalso
    have hr : List.find? env'.fails
      [Step.create Res.font, Step.create Res.text_surf, Step.create Res.text_image,
       Step.create Res.sprite_image, Step.SDL_GetTextureSize, Step.create Res.cpp_sound,
       Step.create Res.sdl_sound, Step.create Res.music] = some (Step.create Res.font) := by
      rw [List.find?_cons, h']
    have := find?_fails_true (hf.trans hr)
    rw [h] at this
    exact Bool.false_ne_true this
  · exfalso
    have hr : List.find? env.fails
      [Step.create Res.font, Step.create Res.text_surf, Step.create Res.text_image,
       Step.create Res.sprite_image, Step.SDL_GetTextureSize, Step.create Res.cpp_sound,
       Step.create Res.sdl_sound, Step.create Res.music] = some (Step.create Res.font) := by
      rw [List.find?_cons, h]
    have := find?_fails_true (hf.symm.trans hr)
    rw [h'] at this
    exact Bool.false_ne_true this
  · simp only [if_true, Outcome.summary, Outcome.error, Outcome.game, leaveLoadMedia,
      Game.call, Game.handles, hc, w1, w2, w3, w4, w5, w6, w7, w8, w9]

theorem loadMedia_sim (env env' : Env) (g g' : Game)
    (hv : g.view = g'.view)
    (hf : List.find? env.fails
      [Step.create Res.background, Step.create Res.font, Step.create Res.text_surf,
       Step.create Res.text_image, Step.create Res.sprite_image, Step.SDL_GetTextureSize,
       Step.create Res.cpp_sound, Step.create Res.sdl_sound, Step.create Res.music] =
      List.find? env'.fails
      [Step.create Res.background, Step.create Res.font, Step.create Res.text_surf,
       Step.create Res.text_image, Step.create Res.sprite_image, Step.SDL_GetTextureSize,
       Step.create Res.cpp_sound, Step.create Res.sdl_sound, Step.create Res.music]) :
    (loadMedia env g).summary =
      (loadMedia env' g').summary := by
  rw [loadMedia_eq, loadMedia_eq]
  rw [view_eq_iff] at hv
  obtain ⟨hc, w1, w2, w3, w4, w5, w6, w7, w8, w9⟩ := hv
  cases h : env.fails (Step.create Res.background) <;> cases h' : env'.fails (Step.create Res.background)
  · simp only [Bool.false_eq_true, if_false]
    refine openFont_sim env env' _ _ ?_ ?_
    · rw [view_eq_iff]
      simp only [Game.call, hc, w1, w2, w3, w4, w5, w6, w7, w8, w9, and_self]
    · simpa [List.find?_cons, h, h'] using hf
  · exfalso
    have hr : List.find? env'.fails
      [Step.create Res.background, Step.create Res.font, Step.create Res.text_surf,
       Step.create Res.text_image, Step.create Res.sprite_image, Step.SDL_GetTextureSize,
       Step.create Res.cpp_sound, Step.create Res.sdl_sound, Step.create Res.music] = some (Step.create Res.background) := by
      rw [List.find?_cons, h']
    have := find?_fails_true (hf.trans hr)
    rw [h] at this
    exact Bool.false_ne_true this
  · exfalso
    have hr : List.find? env.fails
      [Step.create Res.background, Step.create Res.font, Step.create Res.text_surf,
       Step.create Res.text_image, Step.create Res.sprite_image, Step.SDL_GetTextureSize,
       Step.create Res.cpp_sound, Step.create Res.sdl_sound, Step.create Res.music] = some (Step.create Res.background) := by
      rw [List.find?_cons, h]
    have := find?_fails_true (hf.symm.trans hr)
    rw [h'] at this
    exact Bool.false_ne_true this
  · simp only [if_true, Outcome.summary, Outcome.error, Outcome.game, leaveLoadMedia,
      Game.call, Game.handles, hc, w1, w2, w3, w4, w5, w6, w7, w8, w9]

theorem loadIcon_sim (env env' : Env) (g g' : Game)
    (hv : g.view = g'.view)
    (hf : List.find? env.fails
      [Step.create Res.icon_surf, Step.create Res.background, Step.create Res.font,
       Step.create Res.text_surf, Step.create Res.text_image, Step.create Res.sprite_image,
       Step.SDL_GetTextureSize, Step.create Res.cpp_sound, Step.create Res.sdl_sound,
       Step.create Res.music] =
      List.find? env'.fails
      [Step.create Res.icon_surf, Step.create Res.background, Step.create Res.font,
       Step.create Res.text_surf, Step.create Res.text_image, Step.create Res.sprite_image,
       Step.SDL_GetTextureSize, Step.create Res.cpp_sound, Step.create Res.sdl_sound,
       Step.create Res.music]) :
    ((loadIcon env g).andThen (loadMedia env)).summary =
      ((loadIcon env' g').andThen (loadMedia env')).summary := by
  rw [loadIcon_eq, loadIcon_eq]
  rw [view_eq_iff] at hv
  obtain ⟨hc, w1, w2, w3, w4, w5, w6, w7, w8, w9⟩ := hv
  cases h : env.fails (Step.create Res.icon_surf) <;> cases h' : env'.fails (Step.create Res.icon_surf)
  · simp only [Bool.false_eq_true, if_false]
    rw [andThen_returned, andThen_returned]
    refine loadMedia_sim env env' _ _ ?_ ?_
    · rw [view_eq_iff]
      simp only [Game.call, hc, w1, w2, w3, w4, w5, w6, w7, w8, w9, and_self]
    · simpa [List.find?_cons, h, h'] using hf
  · exfalso
    have hr : List.find? env'.fails
      [Step.create Res.icon_surf, Step.create Res.background, Step.create Res.font,
       Step.create Res.text_surf, Step.create Res.text_image, Step.create Res.sprite_image,
       Step.SDL_GetTextureSize, Step.create Res.cpp_sound, Step.create Res.sdl_sound,
       Step.create Res.music] = some (Step.create Res.icon_surf) := by
      rw [List.find?_cons, h']
    have := find?_fails_true (hf.trans hr)
    rw [h] at this
    exact Bool.false_ne_true this
  · exfalso
    have hr : List.find? env.fails
      [Step.create Res.icon_surf, Step.create Res.background, Step.create Res.font,
       Step.create Res.text_surf, Step.create Res.text_image, Step.create Res.sprite_image,
       Step.SDL_GetTextureSize, Step.create Res.cpp_sound, Step.create Res.sdl_sound,
       Step.create Res.music] = some (Step.create Res.icon_surf) := by
      rw [List.find?_cons, h]
    have := find?_fails_true (hf.symm.trans hr)
    rw [h'] at this
    exact Bool.false_ne_true this
  · simp only [if_true, andThen_threw, Outcome.summary, Outcome.error, Outcome.game, leaveLoadMedia,
      Game.call, Game.handles, hc, w1, w2, w3, w4, w5, w6, w7, w8, w9]

theorem createRenderer_sim (env env' : Env) (g g' : Game)
    (hv : g.view = g'.view)
    (hf : List.find? env.fails
      [Step.create Res.renderer, Step.create Res.icon_surf, Step.create Res.background,
       Step.create Res.font, Step.create Res.text_surf, Step.create Res.text_image,
       Step.create Res.sprite_image, Step.SDL_GetTextureSize, Step.create Res.cpp_sound,
       Step.create Res.sdl_sound, Step.create Res.music] =
      List.find? env'.fails
      [Step.create Res.renderer, Step.create Res.icon_surf, Step.create Res.background,
       Step.create Res.font, Step.create Res.text_surf, Step.create Res.text_image,
       Step.create Res.sprite_image, Step.SDL_GetTextureSize, Step.create Res.cpp_sound,
       Step.create Res.sdl_sound, Step.create Res.music]) :
    ((createRenderer env g).andThen (loadMedia env)).summary =
      ((createRenderer env' g').andThen (loadMedia env')).summary := by
  rw [createRenderer_eq, createRenderer_eq]
  rw [view_eq_iff] at hv
  obtain ⟨hc, w1, w2, w3, w4, w5, w6, w7, w8, w9⟩ := hv
  cases h : env.fails (Step.create Res.renderer) <;> cases h' : env'.fails (Step.create Res.renderer)
  · simp only [Bool.false_eq_true, if_false]
    refine loadIcon_sim env env' _ _ ?_ ?_
    · rw [view_eq_iff]
      simp only [Game.call, hc, w1, w2, w3, w4, w5, w6, w7, w8, w9, and_self]
    · simpa [List.find?_cons, h, h'] using hf
  · exfalso
    have hr : List.find? env'.fails
      [Step.create Res.renderer, Step.create Res.icon_surf, Step.create Res.background,
       Step.create Res.font, Step.create Res.text_surf, Step.create Res.text_image,
       Step.create Res.sprite_image, Step.SDL_GetTextureSize, Step.create Res.cpp_sound,
       Step.create Res.sdl_sound, Step.create Res.music] = some (Step.create Res.renderer) := by
      rw [List.find?_cons, h']
    have := find?_fails_true (hf.trans hr)
    rw [h] at this
    exact Bool.false_ne_true this
  · exfalso
    have hr : List.find? env.fails
      [Step.create Res.renderer, Step.create Res.icon_surf, Step.create Res.background,
       Step.create Res.font, Step.create Res.text_surf, Step.create Res.text_image,
       Step.create Res.sprite_image, Step.SDL_GetTextureSize, Step.create Res.cpp_sound,
       Step.create Res.sdl_sound, Step.create Res.music] = some (Step.create Res.renderer) := by
      rw [List.find?_cons, h]
    have := find?_fails_true (hf.symm.trans hr)
    rw [h'] at this
    exact Bool.false_ne_true this
  · simp only [if_true, andThen_threw, Outcome.summary, Outcome.error, Outcome.game, leaveLoadMedia,
      Game.call, Game.handles, hc, w1, w2, w3, w4, w5, w6, w7, w8, w9]

theorem createWindow_sim (env env' : Env) (g g' : Game)
    (hv : g.view = g'.view)
    (hf : List.find? env.fails
      [Step.create Res.window, Step.create Res.renderer, Step.create Res.icon_surf,
       Step.create Res.background, Step.create Res.font, Step.create Res.text_surf,
       Step.create Res.text_image, Step.create Res.sprite_image, Step.SDL_GetTextureSize,
       Step.create Res.cpp_sound, Step.create Res.sdl_sound, Step.create Res.music] =
      List.find? env'.fails
      [Step.create Res.window, Step.create Res.renderer, Step.create Res.icon_surf,
       Step.create Res.background, Step.create Res.font, Step.create Res.text_surf,
       Step.create Res.text_image, Step.create Res.sprite_image, Step.SDL_GetTextureSize,
       Step.create Res.cpp_sound, Step.create Res.sdl_sound, Step.create Res.music]) :
    ((createWindow env g).andThen (loadMedia env)).summary =
      ((createWindow env' g').andThen (loadMedia env')).summary := by
  rw [createWindow_eq, createWindow_eq]
  rw [view_eq_iff] at hv
  obtain ⟨hc, w1, w2, w3, w4, w5, w6, w7, w8, w9⟩ := hv
  cases h : env.fails (Step.create Res.window) <;> cases h' : env'.fails (Step.create Res.window)
  · simp only [Bool.false_eq_true, if_false]
    refine createRenderer_sim env env' _ _ ?_ ?_
    · rw [view_eq_iff]
      simp only [Game.call, hc, w1, w2, w3, w4, w5, w6, w7, w8, w9, and_self]
    · simpa [List.find?_cons, h, h'] using hf
  · exfalso
    have hr : List.find? env'.fails
      [Step.create Res.window, Step.create Res.renderer, Step.create Res.icon_surf,
       Step.create Res.background, Step.create Res.font, Step.create Res.text_surf,
       Step.create Res.text_image, Step.create Res.sprite_image, Step.SDL_GetTextureSize,
       Step.create Res.cpp_sound, Step.create Res.sdl_sound, Step.create Res.music] = some (Step.create Res.window) := by
      rw [List.find?_cons, h']
    have := find?_fails_true (hf.trans hr)
    rw [h] at this
    exact Bool.false_ne_true this
  · exfalso
    have hr : List.find? env.fails
      [Step.create Res.window, Step.create Res.renderer, Step.create Res.icon_surf,
       Step.create Res.background, Step.create Res.font, Step.create Res.text_surf,
       Step.create Res.text_image, Step.create Res.sprite_image, Step.SDL_GetTextureSize,
       Step.create Res.cpp_sound, Step.create Res.sdl_sound, Step.create Res.music] = some (Step.create Res.window) := by
      rw [List.find?_cons, h]
    have := find?_fails_true (hf.symm.trans hr)
    rw [h'] at this
    exact Bool.false_ne_true this
  · simp only [if_true, andThen_threw, Outcome.summary, Outcome.error, Outcome.game, leaveLoadMedia,
      Game.call, Game.handles, hc, w1, w2, w3, w4, w5, w6, w7, w8, w9]

theorem openAudio_sim (env env' : Env) (g g' : Game)
    (hv : g.view = g'.view)
    (hf : List.find? env.fails
      [Step.Mix_OpenAudio, Step.create Res.window, Step.create Res.renderer,
       Step.create Res.icon_surf, Step.create Res.background, Step.create Res.font,
       Step.create Res.text_surf, Step.create Res.text_image, Step.create Res.sprite_image,
       Step.SDL_GetTextureSize, Step.create Res.cpp_sound, Step.create Res.sdl_sound,
       Step.create Res.music] =
      List.find? env'.fails
      [Step.Mix_OpenAudio, Step.create Res.window, Step.create Res.renderer,
       Step.create Res.icon_surf, Step.create Res.background, Step.create Res.font,
       Step.create Res.text_surf, Step.create Res.text_image, Step.create Res.sprite_image,
       Step.SDL_GetTextureSize, Step.create Res.cpp_sound, Step.create Res.sdl_sound,
       Step.create Res.music]) :
    ((openAudio env g).andThen (loadMedia env)).summary =
      ((openAudio env' g').andThen (loadMedia env')).summary := by
  rw [openAudio_eq, openAudio_eq]
  rw [view_eq_iff] at hv
  obtain ⟨hc, w1, w2, w3, w4, w5, w6, w7, w8, w9⟩ := hv
  cases h : env.fails Step.Mix_OpenAudio <;> cases h' : env'.fails Step.Mix_OpenAudio
  · simp only [Bool.false_eq_true, if_false]
    refine createWindow_sim env env' _ _ ?_ ?_
    · rw [view_eq_iff]
      simp only [Game.call, hc, w1, w2, w3, w4, w5, w6, w7, w8, w9, and_self]
    · simpa [List.find?_cons, h, h'] using hf
  · exfalso
    have hr : List.find? env'.fails
      [Step.Mix_OpenAudio, Step.create Res.window, Step.create Res.renderer,
       Step.create Res.icon_surf, Step.create Res.background, Step.create Res.font,
       Step.create Res.text_surf, Step.create Res.text_image, Step.create Res.sprite_image,
       Step.SDL_GetTextureSize, Step.create Res.cpp_sound, Step.create Res.sdl_sound,
       Step.create Res.music] = some Step.Mix_OpenAudio := by
      rw [List.find?_cons, h']
    have := find?_fails_true (hf.trans hr)
    rw [h] at this
    exact Bool.false_ne_true this
  · exfalso
    have hr : List.find? env.fails
      [Step.Mix_OpenAudio, Step.create Res.window, Step.create Res.renderer,
       Step.create Res.icon_surf, Step.create Res.background, Step.create Res.font,
       Step.create Res.text_surf, Step.create Res.text_image, Step.create Res.sprite_image,
       Step.SDL_GetTextureSize, Step.create Res.cpp_sound, Step.create Res.sdl_sound,
       Step.create Res.music] = some Step.Mix_OpenAudio := by
      rw [List.find?_cons, h]
    have := find?_fails_true (hf.symm.trans hr)
    rw [h'] at this
    exact Bool.false_ne_true this
  · simp only [if_true, andThen_threw, Outcome.summary, Outcome.error, Outcome.game, leaveLoadMedia,
      Game.call, Game.handles, hc, w1, w2, w3, w4, w5, w6, w7, w8, w9]

theorem initMixer_sim (env env' : Env) (g g' : Game)
    (hv : g.view = g'.view)
    (hf : List.find? env.fails
      [Step.Mix_Init, Step.Mix_OpenAudio, Step.create Res.window, Step.create Res.renderer,
       Step.create Res.icon_surf, Step.create Res.background, Step.create Res.font,
       Step.create Res.text_surf, Step.create Res.text_image, Step.create Res.sprite_image,
       Step.SDL_GetTextureSize, Step.create Res.cpp_sound, Step.create Res.sdl_sound,
       Step.create Res.music] =
      List.find? env'.fails
      [Step.Mix_Init, Step.Mix_OpenAudio, Step.create Res.window, Step.create Res.renderer,
       Step.create Res.icon_surf, Step.create Res.background, Step.create Res.font,
       Step.create Res.text_surf, Step.create Res.text_image, Step.create Res.sprite_image,
       Step.SDL_GetTextureSize, Step.create Res.cpp_sound, Step.create Res.sdl_sound,
       Step.create Res.music]) :
    ((initMixer env g).andThen (loadMedia env)).summary =
      ((initMixer env' g').andThen (loadMedia env')).summary := by
  rw [initMixer_eq, initMixer_eq]
  rw [view_eq_iff] at hv
  obtain ⟨hc, w1, w2, w3, w4, w5, w6, w7, w8, w9⟩ := hv
  cases h : env.fails Step.Mix_Init <;> cases h' : env'.fails Step.Mix_Init
  · simp only [Bool.false_eq_true, if_false]
    refine openAudio_sim env env' _ _ ?_ ?_
    · rw [view_eq_iff]
      simp only [Game.call, hc, w1, w2, w3, w4, w5, w6, w7, w8, w9, and_self]
    · simpa [List.find?_cons, h, h'] using hf
  · exfalso
    have hr : List.find? env'.fails
      [Step.Mix_Init, Step.Mix_OpenAudio, Step.create Res.window, Step.create Res.renderer,
       Step.create Res.icon_surf, Step.create Res.background, Step.create Res.font,
       Step.create Res.text_surf, Step.create Res.text_image, Step.create Res.sprite_image,
       Step.SDL_GetTextureSize, Step.create Res.cpp_sound, Step.create Res.sdl_sound,
       Step.create Res.music] = some Step.Mix_Init := by
      rw [List.find?_cons, h']
    have := find?_fails_true (hf.trans hr)
    rw [h] at this
    exact Bool.false_ne_true this
  · exfalso
    have hr : List.find? env.fails
      [Step.Mix_Init, Step.Mix_OpenAudio, Step.create Res.window, Step.create Res.renderer,
       Step.create Res.icon_surf, Step.create Res.background, Step.create Res.font,
       Step.create Res.text_surf, Step.create Res.text_image, Step.create Res.sprite_image,
       Step.SDL_GetTextureSize, Step.create Res.cpp_sound, Step.create Res.sdl_sound,
       Step.create Res.music] = some Step.Mix_Init := by
      rw [List.find?_cons, h]
    have := find?_fails_true (hf.symm.trans hr)
    rw [h'] at this
    exact Bool.false_ne_true this
  · simp only [if_true, andThen_threw, Outcome.summary, Outcome.error, Outcome.game, leaveLoadMedia,
      Game.call, Game.handles, hc, w1, w2, w3, w4, w5, w6, w7, w8, w9]

theorem initTtf_sim (env env' : Env) (g g' : Game)
    (hv : g.view = g'.view)
    (hf : List.find? env.fails
      [Step.TTF_Init, Step.Mix_Init, Step.Mix_OpenAudio, Step.create Res.window,
       Step.create Res.renderer, Step.create Res.icon_surf, Step.create Res.background,
       Step.create Res.font, Step.create Res.text_surf, Step.create Res.text_image,
       Step.create Res.sprite_image, Step.SDL_GetTextureSize, Step.create Res.cpp_sound,
       Step.create Res.sdl_sound, Step.create Res.music] =
      List.find? env'.fails
      [Step.TTF_Init, Step.Mix_Init, Step.Mix_OpenAudio, Step.create Res.window,
       Step.create Res.renderer, Step.create Res.icon_surf, Step.create Res.background,
       Step.create Res.font, Step.create Res.text_surf, Step.create Res.text_image,
       Step.create Res.sprite_image, Step.SDL_GetTextureSize, Step.create Res.cpp_sound,
       Step.create Res.sdl_sound, Step.create Res.music]) :
    ((initTtf env g).andThen (loadMedia env)).summary =
      ((initTtf env' g').andThen (loadMedia env')).summary := by
  rw [initTtf_eq, initTtf_eq]
  rw [view_eq_iff] at hv
  obtain ⟨hc, w1, w2, w3, w4, w5, w6, w7, w8, w9⟩ := hv
  cases h : env.fails Step.TTF_Init <;> cases h' : env'.fails Step.TTF_Init
  · simp only [Bool.false_eq_true, if_false]
    refine initMixer_sim env env' _ _ ?_ ?_
    · rw [view_eq_iff]
      simp only [Game.call, hc, w1, w2, w3, w4, w5, w6, w7, w8, w9, and_self]
    · simpa [List.find?_cons, h, h'] using hf
  · exfalso
    have hr : List.find? env'.fails
      [Step.TTF_Init, Step.Mix_Init, Step.Mix_OpenAudio, Step.create Res.window,
       Step.create Res.renderer, Step.create Res.icon_surf, Step.create Res.background,
       Step.create Res.font, Step.create Res.text_surf, Step.create Res.text_image,
       Step.create Res.sprite_image, Step.SDL_GetTextureSize, Step.create Res.cpp_sound,
       Step.create Res.sdl_sound, Step.create Res.music] = some Step.TTF_Init := by
      rw [List.find?_cons, h']
    have := find?_fails_true (hf.trans hr)
    rw [h] at this
    exact Bool.false_ne_true this
  · exfalso
    have hr : List.find? env.fails
      [Step.TTF_Init, Step.Mix_Init, Step.Mix_OpenAudio, Step.create Res.window,
       Step.create Res.renderer, Step.create Res.icon_surf, Step.create Res.background,
       Step.create Res.font, Step.create Res.text_surf, Step.create Res.text_image,
       Step.create Res.sprite_image, Step.SDL_GetTextureSize, Step.create Res.cpp_sound,
       Step.create Res.sdl_sound, Step.create Res.music] = some Step.TTF_Init := by
      rw [List.find?_cons, h]
    have := find?_fails_true (hf.symm.trans hr)
    rw [h'] at this
    exact Bool.false_ne_true this
  · simp only [if_true, andThen_threw, Outcome.summary, Outcome.error, Outcome.game, leaveLoadMedia,
      Game.call, Game.handles, hc, w1, w2, w3, w4, w5, w6, w7, w8, w9]

theorem initSdl_sim (env env' : Env) (g g' : Game)
    (hv : g.view = g'.view)
    (hf : List.find? env.fails
      [Step.SDL_Init, Step.TTF_Init, Step.Mix_Init, Step.Mix_OpenAudio,
       Step.create Res.window, Step.create Res.renderer, Step.create Res.icon_surf,
       Step.create Res.background, Step.create Res.font, Step.create Res.text_surf,
       Step.create Res.text_image, Step.create Res.sprite_image, Step.SDL_GetTextureSize,
       Step.create Res.cpp_sound, Step.create Res.sdl_sound, Step.create Res.music] =
      List.find? env'.fails
      [Step.SDL_Init, Step.TTF_Init, Step.Mix_Init, Step.Mix_OpenAudio,
       Step.create Res.window, Step.create Res.renderer, Step.create Res.icon_surf,
       Step.create Res.background, Step.create Res.font, Step.create Res.text_surf,
       Step.create Res.text_image, Step.create Res.sprite_image, Step.SDL_GetTextureSize,
       Step.create Res.cpp_sound, Step.create Res.sdl_sound, Step.create Res.music]) :
    ((initSdl env g).andThen (loadMedia env)).summary =
      ((initSdl env' g').andThen (loadMedia env')).summary := by
  rw [initSdl_eq, initSdl_eq]
  rw [view_eq_iff] at hv
  obtain ⟨hc, w1, w2, w3, w4, w5, w6, w7, w8, w9⟩ := hv
  cases h : env.fails Step.SDL_Init <;> cases h' : env'.fails Step.SDL_Init
  · simp only [Bool.false_eq_true, if_false]
    refine initTtf_sim env env' _ _ ?_ ?_
    · rw [view_eq_iff]
      simp only [Game.call, hc, w1, w2, w3, w4, w5, w6, w7, w8, w9, and_self]
    · simpa [List.find?_cons, h, h'] using hf
  · exfalso
    have hr : List.find? env'.fails
      [Step.SDL_Init, Step.TTF_Init, Step.Mix_Init, Step.Mix_OpenAudio,
       Step.create Res.window, Step.create Res.renderer, Step.create Res.icon_surf,
       Step.create Res.background, Step.create Res.font, Step.create Res.text_surf,
       Step.create Res.text_image, Step.create Res.sprite_image, Step.SDL_GetTextureSize,
       Step.create Res.cpp_sound, Step.create Res.sdl_sound, Step.create Res.music] = some Step.SDL_Init := by
      rw [List.find?_cons, h']
    have := find?_fails_true (hf.trans hr)
    rw [h] at this
    exact Bool.false_ne_true this
  · exfalso
    have hr : List.find? env.fails
      [Step.SDL_Init, Step.TTF_Init, Step.Mix_Init, Step.Mix_OpenAudio,
       Step.create Res.window, Step.create Res.renderer, Step.create Res.icon_surf,
       Step.create Res.background, Step.create Res.font, Step.create Res.text_surf,
       Step.create Res.text_image, Step.create Res.sprite_image, Step.SDL_GetTextureSize,
       Step.create Res.cpp_sound, Step.create Res.sdl_sound, Step.create Res.music] = some Step.SDL_Init := by
      rw [List.find?_cons, h]
    have := find?_fails_true (hf.symm.trans hr)
    rw [h'] at this
    exact Bool.false_ne_true this
  · simp only [if_true, andThen_threw, Outcome.summary, Outcome.error, Outcome.game, leaveLoadMedia,
      Game.call, Game.handles, hc, w1, w2, w3, w4, w5, w6, w7, w8, w9]

theorem init_sim (env env' : Env) (g g' : Game) (hv : g.view = g'.view)
    (hf : startupSteps.find? env.fails = startupSteps.find? env'.fails) :
    (init env g).summary = (init env' g').summary := by
  rw [init_eq, init_eq, summary_andThen_seed, summary_andThen_seed]
  exact initSdl_sim env env' g g' hv hf

/-- The first element a predicate picks is also the first element equal to
that pick. -/
theorem find?_decide_eq_find? (p : Step → Bool) (l : List Step) :
    l.find? p = l.find? (fun s => decide (some s = l.find? p)) := by
  induction l with
  | nil => rfl
  | cons a t ih =>
    cases h : p a with
    | true => simp [List.find?_cons, h]
    | false =>
      have e : (a :: t).find? p = t.find? p := by rw [List.find?_cons, h]
      rw [e]
      have hne : decide (some a = t.find? p) = false := by
        rw [decide_eq_false_iff_not]
        intro hc
        have := find?_fails_true hc.symm
        rw [h] at this
        exact Bool.false_ne_true this
      rw [List.find?_cons, hne]
      exact ih

/-- What can be seen of the outcome of `init` (error, trace, handles) depends
on the environment only through the first startup step that fails: it is
what `init` gives when exactly that step fails. -/
theorem init_summary (env : Env) :
    (init env Game.new).summary =
      (init (failingAt (firstFailing env)) Game.new).summary :=
  init_sim env (failingAt (firstFailing env)) Game.new Game.new rfl
    (find?_decide_eq_find? env.fails startupSteps)

/-! ## Failed startup -/

theorem destructor_calls (g : Game) :
    (destructor g).calls =
      g.calls ++ ([Call.Mix_HaltChannel, Call.Mix_HaltMusic] ++ deleterCalls g.music ++
      deleterCalls g.sdl_sound ++ deleterCalls g.cpp_sound ++ deleterCalls g.sprite_image ++
      deleterCalls g.icon_surf ++ deleterCalls g.text_image ++ deleterCalls g.background ++
      deleterCalls g.renderer ++ deleterCalls g.window ++
      [Call.Mix_CloseAudio, Call.Mix_Quit, Call.TTF_Quit, Call.SDL_Quit]) := by
  simp [destructor, destructorBody, destroyMembers, Game.call, deleterCalls]

/-- The trace the destruction leaves depends only on the trace and the
handles before it. -/
theorem destructor_calls_congr (g g' : Game) (hv : g.view = g'.view) :
    (destructor g).calls = (destructor g').calls := by
  rw [view_eq_iff] at hv
  obtain ⟨hc, w1, w2, w3, w4, w5, w6, w7, w8, w9⟩ := hv
  rw [destructor_calls, destructor_calls, hc, w1, w2, w3, w4, w5, w6, w7, w8, w9]

/-- The facts of a failed startup, checked on the sixteen environments in
which exactly one step fails. -/
theorem failed_startup_checked : ∀ K ∈ startupSteps,
    (init (failingAt (some K)) Game.new).error = some K.message ∧
    attempts (init (failingAt (some K)) Game.new).game.calls = stepsBefore K ++ [K] ∧
    failures (init (failingAt (some K)) Game.new).game.calls = [K] ∧
    acquisitions (init (failingAt (some K)) Game.new).game.calls
      = (stepsBefore K).filterMap Step.res ∧
    (releases (destructor (init (failingAt (some K)) Game.new).game).calls).Perm
      (acquisitions (init (failingAt (some K)) Game.new).game.calls) ∧
    (releases (destructor (init (failingAt (some K)) Game.new).game).calls).Nodup ∧
    (∀ r ∈ releases (destructor (init (failingAt (some K)) Game.new).game).calls,
      r ∉ (stepsFrom K).filterMap Step.res) := by
  decide

/-- The error, the trace and the trace after teardown of `init` when `K` is
the first step to fail are those of the environment in which exactly `K`
fails. -/
theorem init_failing_at (env : Env) (K : Step) (hK : firstFailing env = some K) :
    (init env Game.new).error = (init (failingAt (some K)) Game.new).error ∧
    (init env Game.new).game.calls = (init (failingAt (some K)) Game.new).game.calls ∧
    (destructor (init env Game.new).game).calls
      = (destructor (init (failingAt (some K)) Game.new).game).calls := by
  have hs := init_summary env
  rw [hK] at hs
  have he : (init env Game.new).error = (init (failingAt (some K)) Game.new).error :=
    congrArg (fun s => s.1) hs
  have hv : (init env Game.new).game.view = (init (failingAt (some K)) Game.new).game.view :=
    congrArg (fun s => s.2) hs
  exact ⟨he, congrArg (fun s => s.1) hv, destructor_calls_congr _ _ hv⟩

/-- C11: for every startup step K of `initSdl` followed by `loadMedia`, when
K is the first step to fail, `init` throws with the message of K; the steps
attempted are those up to K and K itself, K is the only one that failed and
no step after K is attempted; the resources acquired are those of the steps
before K; and the teardown (the unwinding of `loadMedia`, which releases the
transient font and text surface, followed by `Game::~Game`) releases exactly
the acquired resources, each once, and none of step K or later, leaving every
member null. -/
theorem failed_startup_releases_acquired (env : Env) (K : Step)
    (hK : firstFailing env = some K) :
    (init env Game.new).error = some K.message ∧
    attempts (init env Game.new).game.calls = stepsBefore K ++ [K] ∧
    failures (init env Game.new).game.calls = [K] ∧
    acquisitions (init env Game.new).game.calls = (stepsBefore K).filterMap Step.res ∧
    (releases (destructor (init env Game.new).game).calls).Perm
      (acquisitions (init env Game.new).game.calls) ∧
    (releases (destructor (init env Game.new).game).calls).Nodup ∧
    (∀ r ∈ releases (destructor (init env Game.new).game).calls,
      r ∉ (stepsFrom K).filterMap Step.res) ∧
    (destructor (init env Game.new).game).handles
      = [none, none, none, none, none, none, none, none, none] := by
  obtain ⟨he, hc, hd⟩ := init_failing_at env K hK
  have hmem : K ∈ startupSteps := List.mem_of_find?_eq_some hK
  rw [he, hc, hd]
  obtain ⟨a, b, c, d, e, f, g⟩ := failed_startup_checked K hmem
  exact ⟨a, b, c, d, e, f, g, destructor_handles _⟩

/-- Witness of `failed_startup_releases_acquired`: when the sprite texture is
the first step to fail (and the music would fail too), the window, renderer,
icon surface, background, font, text surface and text texture were acquired
and exactly these seven are released. -/
theorem failed_startup_releases_acquired_witness :
    firstFailing { exampleEnv with
      fails := fun s => decide (s = Step.create Res.sprite_image ∨ s = Step.create Res.music) }
      = some (Step.create Res.sprite_image) ∧
    releases (destructor (init { exampleEnv with
      fails := fun s => decide (s = Step.create Res.sprite_image ∨ s = Step.create Res.music) }
      Game.new).game).calls
      = [Res.text_surf, Res.font, Res.icon_surf, Res.text_image, Res.background,
         Res.renderer, Res.window] ∧
    (releases (destructor (init { exampleEnv with
      fails := fun s => decide (s = Step.create Res.sprite_image ∨ s = Step.create Res.music) }
      Game.new).game).calls).Perm
      (acquisitions (init { exampleEnv with
        fails := fun s =>
          decide (s = Step.create Res.sprite_image ∨ s = Step.create Res.music) }
        Game.new).game.calls) :=
  ⟨by decide, by decide,
    (failed_startup_releases_acquired { exampleEnv with
      fails := fun s => decide (s = Step.create Res.sprite_image ∨ s = Step.create Res.music) }
      (Step.create Res.sprite_image) (by decide)).2.2.2.2.1⟩

/-! ## The exit status of `main` -/

/-- When no startup step fails, `init` returns. -/
theorem init_returns_of_no_failure (env : Env) (h : firstFailing env = none) :
    ∃ g, init env Game.new = Outcome.returned g := by
  have hs := init_summary env
  rw [h] at hs
  have he : (init env Game.new).error = (init (failingAt none) Game.new).error :=
    congrArg (fun s => s.1) hs
  have hn : (init (failingAt none) Game.new).error = none := by decide
  rw [hn] at he
  cases ho : init env Game.new with
  | returned g => exact ⟨g, rfl⟩
  | threw msg g => rw [ho] at he; cases he

/-- When `K` is the first startup step to fail, `init` throws with the
message of `K`. -/
theorem init_throws_of_failure (env : Env) (K : Step) (h : firstFailing env = some K) :
    ∃ g, init env Game.new = Outcome.threw K.message g := by
  obtain ⟨he, _, _⟩ := init_failing_at env K h
  have hmem : K ∈ startupSteps := List.mem_of_find?_eq_some h
  rw [(failed_startup_checked K hmem).1] at he
  cases ho : init env Game.new with
  | returned g => rw [ho] at he; cases he
  | threw msg g =>
    rw [ho] at he
    injection he with he
    rw [he]
    exact ⟨g, rfl⟩

/-- After a successful `init` the run flag is true. -/
theorem init_is_running (env : Env) (g : Game) (h : init env Game.new = Outcome.returned g) :
    g.is_running = true := by
  obtain ⟨g1, g2, h1, h2, e⟩ := init_returned env g h
  rw [e, loadMedia_returned env g1 g2 h2, initSdl_returned env Game.new g1 h1]
  rfl

/-- When the loop ends although it was entered with the run flag true, some
batch from its first iteration on holds a stop event. -/
theorem runLoop_some_stop (env : Env) (frames : Nat → Frame) :
    ∀ (fuel i : Nat) (g g' : Game), runLoop env frames fuel i g = some g' →
      g.is_running = true → ∃ j, (frames j).queue.any isStop = true := by
  intro fuel
  induction fuel with
  | zero =>
    intro i g g' h hrun
    rw [runLoop, if_pos hrun] at h
    cases h
  | succ f ih =>
    intro i g g' h hrun
    rw [runLoop, if_pos hrun] at h
    cases hq : (frames i).queue.any isStop with
    | true => exact ⟨i, hq⟩
    | false =>
      refine ih (i + 1) _ g' h ?_
      rw [tick_is_running, hq, hrun]
      rfl

theorem main_of_init_threw (env : Env) (frames : Nat → Frame) (fuel : Nat) (msg : String)
    (g : Game) (h : init env Game.new = Outcome.threw msg g) :
    main env frames fuel = some ⟨EXIT_FAILURE, [msg], destructor g⟩ := by
  unfold main
  simp only [h]

theorem main_of_run_none (env : Env) (frames : Nat → Frame) (fuel : Nat) (g : Game)
    (h : init env Game.new = Outcome.returned g) (hr : run env frames fuel g = none) :
    main env frames fuel = none := by
  unfold main
  simp only [h, hr]

theorem main_of_run_threw (env : Env) (frames : Nat → Frame) (fuel : Nat) (g g' : Game)
    (msg : String) (h : init env Game.new = Outcome.returned g)
    (hr : run env frames fuel g = some (Outcome.threw msg g')) :
    main env frames fuel = some ⟨EXIT_FAILURE, [msg], destructor g'⟩ := by
  unfold main
  simp only [h, hr]

theorem main_of_run_returned (env : Env) (frames : Nat → Frame) (fuel : Nat) (g g' : Game)
    (h : init env Game.new = Outcome.returned g)
    (hr : run env frames fuel g = some (Outcome.returned g')) :
    main env frames fuel = some ⟨EXIT_SUCCESS, [], destructor g'⟩ := by
  unfold main
  simp only [h, hr]

theorem run_of_music_fails (env : Env) (frames : Nat → Frame) (fuel : Nat) (g : Game)
    (h : env.fails Step.Mix_PlayMusic = true) :
    run env frames fuel g =
      some (Outcome.threw "Error playing Music: "
        ((g.call (Call.Mix_PlayMusic false)).call Call.SDL_GetError)) := by
  unfold run
  simp only [h, Bool.not_true, if_true]

theorem run_of_music_plays (env : Env) (frames : Nat → Frame) (fuel : Nat) (g : Game)
    (h : env.fails Step.Mix_PlayMusic = false) :
    run env frames fuel g =
      (runLoop env frames fuel 0 (g.call (Call.Mix_PlayMusic true))).map Outcome.returned := by
  unfold run
  simp only [h, Bool.not_false, Bool.false_eq_true, if_false]

/-- The view of the state a successful `init` returns is the one of the
startup in which no step fails. -/
theorem init_view_of_returned (env : Env) (g : Game)
    (h : init env Game.new = Outcome.returned g) :
    g.view = (init (failingAt none) Game.new).game.view := by
  have hf : firstFailing env = none := by
    cases hk : firstFailing env with
    | none => rfl
    | some K =>
      obtain ⟨g', hg'⟩ := init_throws_of_failure env K hk
      rw [hg'] at h
      cases h
  have hs := init_summary env
  rw [hf, h] at hs
  exact congrArg (fun s => s.2) hs

theorem call_view_congr (g g' : Game) (c : Call) (hv : g.view = g'.view) :
    (g.call c).view = (g'.call c).view := by
  rw [view_eq_iff] at hv ⊢
  obtain ⟨hc, w1, w2, w3, w4, w5, w6, w7, w8, w9⟩ := hv
  simp only [Game.call, hc, w1, w2, w3, w4, w5, w6, w7, w8, w9, and_self]

theorem destructor_delayCount (g : Game) :
    delayCount (destructor g).calls = delayCount g.calls := by
  have hd : ∀ p : Option Res, List.count (Call.SDL_Delay 16) (deleterCalls p) = 0 := by
    intro p
    cases p <;> simp [deleterCalls]
  rw [destructor_calls]
  unfold delayCount
  simp only [List.count_append, hd]
  simp

/-- The trace of a startup, whatever its outcome, holds no pacing delay. -/
theorem init_delayCount (env : Env) : delayCount (init env Game.new).game.calls = 0 := by
  have hs := init_summary env
  have hc : (init env Game.new).game.calls
      = (init (failingAt (firstFailing env)) Game.new).game.calls :=
    congrArg (fun s => s.2.1) hs
  rw [hc]
  have hall : ∀ K : Option Step, K = none ∨ (∃ k ∈ startupSteps, K = some k) →
      delayCount (init (failingAt K) Game.new).game.calls = 0 := by
    intro K hK
    rcases hK with rfl | ⟨k, hk, rfl⟩
    · decide
    · revert k
      decide
  apply hall
  cases hk : firstFailing env with
  | none => exact Or.inl rfl
  | some k => exact Or.inr ⟨k, List.mem_of_find?_eq_some hk, rfl⟩

/-- C12: `main` returns the success status 0 exactly when every startup step
and the music start succeed and some batch of events holds a quit or a
cancel, in which case it returns after the tick that drains it, having
printed nothing; whenever `main` returns, its status is 0 or 1, and 0 only
when nothing failed; when a startup step K fails first, `main` returns 1
whatever the frames, prints the message of K, and no tick has run; when the
startup succeeds and the music start fails, `main` returns 1, prints the
message of the music start, and no tick has run. -/
theorem main_exit_status (env : Env) (frames : Nat → Frame) :
    ((∃ fuel exit, main env frames fuel = some exit ∧ exit.exit_val = 0) ↔
      (firstFailing env = none ∧ env.fails Step.Mix_PlayMusic = false ∧
        ∃ j, (frames j).queue.any isStop = true)) ∧
    (∀ fuel exit, main env frames fuel = some exit →
      (exit.exit_val = 0 ∨ exit.exit_val = 1) ∧
      (exit.exit_val = 0 ↔
        (firstFailing env = none ∧ env.fails Step.Mix_PlayMusic = false)) ∧
      (exit.exit_val = 0 → exit.cerr = [])) ∧
    (∀ K, firstFailing env = some K → ∀ fuel, ∃ exit,
      main env frames fuel = some exit ∧ exit.exit_val = 1 ∧ exit.cerr = [K.message] ∧
      delayCount exit.game.calls = 0) ∧
    (firstFailing env = none → env.fails Step.Mix_PlayMusic = true → ∀ fuel, ∃ exit,
      main env frames fuel = some exit ∧ exit.exit_val = 1 ∧
      exit.cerr = [Step.Mix_PlayMusic.message] ∧ delayCount exit.game.calls = 0) ∧
    (firstFailing env = none → env.fails Step.Mix_PlayMusic = false →
      ∀ j, (∀ m < j, (frames m).queue.any isStop = false) →
        (frames j).queue.any isStop = true → ∀ fuel, j + 1 ≤ fuel → ∃ exit,
          main env frames fuel = some exit ∧ exit.exit_val = 0 ∧ exit.cerr = [] ∧
          delayCount exit.game.calls = j + 1) := by
  -- the three ways a session can go
  have startupFails : ∀ K, firstFailing env = some K → ∀ fuel, ∃ exit,
      main env frames fuel = some exit ∧ exit.exit_val = 1 ∧ exit.cerr = [K.message] ∧
      delayCount exit.game.calls = 0 := by
    intro K hK fuel
    obtain ⟨g, hg⟩ := init_throws_of_failure env K hK
    refine ⟨_, main_of_init_threw env frames fuel _ g hg, rfl, rfl, ?_⟩
    have := init_delayCount env
    rw [hg] at this
    show delayCount (destructor g).calls = 0
    rw [destructor_delayCount]
    exact this
  have musicFails : firstFailing env = none → env.fails Step.Mix_PlayMusic = true →
      ∀ fuel, ∃ exit, main env frames fuel = some exit ∧ exit.exit_val = 1 ∧
      exit.cerr = [Step.Mix_PlayMusic.message] ∧ delayCount exit.game.calls = 0 := by
    intro hf hm fuel
    obtain ⟨g, hg⟩ := init_returns_of_no_failure env hf
    refine ⟨_, main_of_run_threw env frames fuel g _ _ hg
      (run_of_music_fails env frames fuel g hm), rfl, rfl, ?_⟩
    have := init_delayCount env
    rw [hg] at this
    show delayCount (destructor
      ((g.call (Call.Mix_PlayMusic false)).call Call.SDL_GetError)).calls = 0
    rw [destructor_delayCount]
    unfold delayCount at *
    rw [call_calls, call_calls, List.count_append, List.count_append]
    simp only [Outcome.game] at this
    rw [this]
    rfl
  have stops : firstFailing env = none → env.fails Step.Mix_PlayMusic = false →
      ∀ j, (∀ m < j, (frames m).queue.any isStop = false) →
        (frames j).queue.any isStop = true → ∀ fuel, j + 1 ≤ fuel → ∃ exit,
          main env frames fuel = some exit ∧ exit.exit_val = 0 ∧ exit.cerr = [] ∧
          delayCount exit.game.calls = j + 1 := by
    intro hf hm j hbefore hstop fuel hfuel
    obtain ⟨g, hg⟩ := init_returns_of_no_failure env hf
    have hrun : (g.call (Call.Mix_PlayMusic true)).is_running = true :=
      init_is_running env g hg
    have hloop := runLoop_stops env frames j fuel 0 (g.call (Call.Mix_PlayMusic true)) hrun
      (fun m hm' => by rw [Nat.zero_add]; exact hbefore m hm')
      (by rw [Nat.zero_add]; exact hstop) hfuel
    have hr : run env frames fuel g = some (Outcome.returned
        (ticksFrom env frames (j + 1) 0 (g.call (Call.Mix_PlayMusic true)))) := by
      rw [run_of_music_plays env frames fuel g hm, hloop]
      rfl
    refine ⟨_, main_of_run_returned env frames fuel g _ hg hr, rfl, rfl, ?_⟩
    have := init_delayCount env
    rw [hg] at this
    show delayCount (destructor (ticksFrom env frames (j + 1) 0
      (g.call (Call.Mix_PlayMusic true)))).calls = j + 1
    rw [destructor_delayCount, ticksFrom_delayCount]
    unfold delayCount at *
    rw [call_calls, List.count_append]
    simp only [Outcome.game] at this
    rw [this]
    simp
  have returnsOnly : ∀ fuel exit, main env frames fuel = some exit →
      (exit.exit_val = 0 ∨ exit.exit_val = 1) ∧
      (exit.exit_val = 0 ↔
        (firstFailing env = none ∧ env.fails Step.Mix_PlayMusic = false)) ∧
      (exit.exit_val = 0 → exit.cerr = []) ∧
      (exit.exit_val = 0 → ∃ j, (frames j).queue.any isStop = true) := by
    intro fuel exit hmain
    cases hf : firstFailing env with
    | some K =>
      obtain ⟨e, he, h1, _, _⟩ := startupFails K hf fuel
      rw [he] at hmain
      injection hmain with hmain
      subst hmain
      refine ⟨Or.inr h1, ⟨fun h0 => ?_, fun h => ?_⟩, fun h0 => ?_, fun h0 => ?_⟩
      · rw [h1] at h0; cases h0
      · cases h.1
      · rw [h1] at h0; cases h0
      · rw [h1] at h0; cases h0
    | none =>
      cases hm : env.fails Step.Mix_PlayMusic with
      | true =>
        obtain ⟨e, he, h1, _, _⟩ := musicFails hf hm fuel
        rw [he] at hmain
        injection hmain with hmain
        subst hmain
        refine ⟨Or.inr h1, ⟨fun h0 => ?_, fun h => ?_⟩, fun h0 => ?_, fun h0 => ?_⟩
        · rw [h1] at h0; cases h0
        · cases h.2
        · rw [h1] at h0; cases h0
        · rw [h1] at h0; cases h0
      | false =>
        obtain ⟨g, hg⟩ := init_returns_of_no_failure env hf
        have hrun : (g.call (Call.Mix_PlayMusic true)).is_running = true :=
          init_is_running env g hg
        cases hl : runLoop env frames fuel 0 (g.call (Call.Mix_PlayMusic true)) with
        | none =>
          have hr : run env frames fuel g = none := by
            rw [run_of_music_plays env frames fuel g hm, hl]
            rfl
          rw [main_of_run_none env frames fuel g hg hr] at hmain
          cases hmain
        | some g' =>
          have hr : run env frames fuel g = some (Outcome.returned g') := by
            rw [run_of_music_plays env frames fuel g hm, hl]
            rfl
          rw [main_of_run_returned env frames fuel g g' hg hr] at hmain
          injection hmain with hmain
          subst hmain
          exact ⟨Or.inl rfl, ⟨fun _ => ⟨rfl, rfl⟩, fun _ => rfl⟩, fun _ => rfl,
            fun _ => runLoop_some_stop env frames fuel 0 _ g' hl hrun⟩
  refine ⟨⟨?_, ?_⟩, fun fuel exit h => ?_, startupFails, musicFails, stops⟩
  · rintro ⟨fuel, exit, hmain, h0⟩
    obtain ⟨_, hiff, _, hstop⟩ := returnsOnly fuel exit hmain
    exact ⟨(hiff.mp h0).1, (hiff.mp h0).2, hstop h0⟩
  · rintro ⟨hf, hm, hj⟩
    have hfirst := Nat.find_spec hj
    have hmin : ∀ m < Nat.find hj, (frames m).queue.any isStop = false := by
      intro m hlt
      have := Nat.find_min hj hlt
      simpa using this
    obtain ⟨e, he, h0, _, _⟩ := stops hf hm (Nat.find hj) hmin hfirst (Nat.find hj + 1)
      (Nat.le_refl _)
    exact ⟨_, e, he, h0⟩
  · obtain ⟨a, b, c, _⟩ := returnsOnly fuel exit h
    exact ⟨a, b, c⟩

/-- Witness of `main_exit_status`: with nothing failing and the quit event in
the third batch `main` returns 0 after three ticks; when `TTF_Init` fails it
returns 1 with the message of that step and no tick. -/
theorem main_exit_status_witness :
    (∃ exit, main exampleEnv exampleFrames 3 = some exit ∧ exit.exit_val = 0 ∧
      exit.cerr = [] ∧ delayCount exit.game.calls = 2 + 1) ∧
    (∃ exit, main (failingAt (some Step.TTF_Init)) exampleFrames 0 = some exit ∧
      exit.exit_val = 1 ∧ exit.cerr = ["Error initialize SDL_ttf: "] ∧
      delayCount exit.game.calls = 0) :=
  ⟨(main_exit_status exampleEnv exampleFrames).2.2.2.2 (by decide) rfl 2 (by decide)
      (by decide) 3 (by decide),
    (main_exit_status (failingAt (some Step.TTF_Init)) exampleFrames).2.2.1 Step.TTF_Init
      (by decide) 0⟩

/-! ## Order of initialisation and use -/

theorem outOfOrder_append (l1 l2 : List Call) (started : List Subsystem) :
    outOfOrder started (l1 ++ l2) =
      outOfOrder started l1 ++ outOfOrder (l1.foldl startedAfter started) l2 := by
  induction l1 generalizing started with
  | nil => simp [outOfOrder]
  | cons c cs ih =>
    rw [List.cons_append, outOfOrder, outOfOrder, List.foldl_cons, ih, List.append_assoc]

theorem resourcesOrdered_append (l1 l2 : List Call) (live : List Res) :
    resourcesOrdered live (l1 ++ l2) =
      (resourcesOrdered live l1 && resourcesOrdered (l1.foldl liveAfter live) l2) := by
  induction l1 generalizing live with
  | nil => simp [resourcesOrdered]
  | cons c cs ih =>
    rw [List.cons_append, resourcesOrdered, resourcesOrdered, List.foldl_cons, ih,
      Bool.and_assoc]

/-- A frame call is in order once all four subsystems are started, and starts
none. -/
theorem frameCall_subsystems (c : Call) (h : c.isFrameCall = true) :
    c.needs.all (fun s =>
        [Subsystem.device, Subsystem.mixer, Subsystem.text, Subsystem.display].contains s)
      = true ∧
    startedAfter [Subsystem.device, Subsystem.mixer, Subsystem.text, Subsystem.display] c
      = [Subsystem.device, Subsystem.mixer, Subsystem.text, Subsystem.display] := by
  cases c <;> first
    | (exact ⟨rfl, rfl⟩)
    | (cases h)

/-- A frame call is handed only held resources once all nine are held, and
acquires or releases none. -/
theorem frameCall_resources (c : Call) (h : c.isFrameCall = true) :
    usesHeld [Res.music, Res.sdl_sound, Res.cpp_sound, Res.sprite_image, Res.text_image,
        Res.background, Res.icon_surf, Res.renderer, Res.window] c = true ∧
    liveAfter [Res.music, Res.sdl_sound, Res.cpp_sound, Res.sprite_image, Res.text_image,
        Res.background, Res.icon_surf, Res.renderer, Res.window] c
      = [Res.music, Res.sdl_sound, Res.cpp_sound, Res.sprite_image, Res.text_image,
         Res.background, Res.icon_surf, Res.renderer, Res.window] := by
  cases c with
  | Mix_PlayChannel chunk =>
    cases chunk with
    | none => cases h
    | some r => cases r <;> first | (exact ⟨rfl, rfl⟩) | (cases h)
  | SDL_RenderTexture texture dst =>
    cases texture with
    | none => cases h
    | some r => cases r <;> first | (exact ⟨rfl, rfl⟩) | (cases h)
  | SDL_SetRenderDrawColor r g b a => exact ⟨rfl, rfl⟩
  | SDL_RenderClear => exact ⟨rfl, rfl⟩
  | SDL_RenderPresent => exact ⟨rfl, rfl⟩
  | SDL_Delay ms => exact ⟨rfl, rfl⟩
  | _ => cases h

theorem frameCalls_subsystems (T : List Call) (h : T.all Call.isFrameCall = true) :
    outOfOrder [Subsystem.device, Subsystem.mixer, Subsystem.text, Subsystem.display] T
      = [] ∧
    T.foldl startedAfter [Subsystem.device, Subsystem.mixer, Subsystem.text, Subsystem.display]
      = [Subsystem.device, Subsystem.mixer, Subsystem.text, Subsystem.display] := by
  induction T with
  | nil => exact ⟨rfl, rfl⟩
  | cons c cs ih =>
    rw [List.all_cons, Bool.and_eq_true] at h
    obtain ⟨h1, h2⟩ := frameCall_subsystems c h.1
    rw [outOfOrder, List.foldl_cons, h1, h2, if_pos rfl, List.nil_append]
    exact ih h.2

theorem frameCalls_resources (T : List Call) (h : T.all Call.isFrameCall = true) :
    resourcesOrdered [Res.music, Res.sdl_sound, Res.cpp_sound, Res.sprite_image,
        Res.text_image, Res.background, Res.icon_surf, Res.renderer, Res.window] T = true ∧
    T.foldl liveAfter [Res.music, Res.sdl_sound, Res.cpp_sound, Res.sprite_image,
        Res.text_image, Res.background, Res.icon_surf, Res.renderer, Res.window]
      = [Res.music, Res.sdl_sound, Res.cpp_sound, Res.sprite_image, Res.text_image,
         Res.background, Res.icon_surf, Res.renderer, Res.window] := by
  induction T with
  | nil => exact ⟨rfl, rfl⟩
  | cons c cs ih =>
    rw [List.all_cons, Bool.and_eq_true] at h
    obtain ⟨h1, h2⟩ := frameCall_resources c h.1
    rw [resourcesOrdered, List.foldl_cons, h1, h2, Bool.true_and]
    exact ih h.2

theorem handles_allHeld_iff (g : Game) :
    g.handles = allHeld ↔
      g.window = some Res.window ∧ g.renderer = some Res.renderer ∧
      g.background = some Res.background ∧ g.text_image = some Res.text_image ∧
      g.icon_surf = some Res.icon_surf ∧ g.sprite_image = some Res.sprite_image ∧
      g.cpp_sound = some Res.cpp_sound ∧ g.sdl_sound = some Res.sdl_sound ∧
      g.music = some Res.music := by
  simp only [Game.handles, allHeld, List.cons.injEq, and_true]

/-- The calls of an event drain are colour changes and play requests of
sound A. -/
theorem events_frameCalls (env : Env) (q : List SDL_Event) (g : Game)
    (hc : g.cpp_sound = some Res.cpp_sound) :
    ∃ T, (events env g q).1.calls = g.calls ++ T ∧ T.all Call.isFrameCall = true := by
  induction q generalizing g with
  | nil => exact ⟨[], by simp [events], rfl⟩
  | cons e q ih =>
    obtain ⟨r, gr, b, h1⟩ := handleEvent_calls env g e
    obtain ⟨T, hT, hall⟩ := ih (handleEvent env g e) (by rw [handleEvent_cpp_sound]; exact hc)
    rw [events_cons, hT, h1, hc]
    by_cases ht : isTrigger e = true
    · rw [if_pos ht]
      refine ⟨[Call.SDL_SetRenderDrawColor r gr b 255, Call.Mix_PlayChannel (some Res.cpp_sound)]
        ++ T, by simp, ?_⟩
      rw [List.all_append, hall]
      rfl
    · rw [if_neg ht]
      exact ⟨T, by simp, hall⟩

/-- The calls of a tick of a state in which every member holds its resource
are frame calls. -/
theorem tick_frameCalls (env : Env) (keystate : Nat → Bool) (queue : List SDL_Event)
    (g : Game) (hh : g.handles = allHeld) :
    ∃ T, (tick env keystate queue g).calls = g.calls ++ T ∧ T.all Call.isFrameCall = true := by
  rw [handles_allHeld_iff] at hh
  obtain ⟨w1, w2, w3, w4, w5, w6, w7, w8, w9⟩ := hh
  obtain ⟨T, hT, hall⟩ := events_frameCalls env queue g w7
  obtain ⟨r, n, c, hf⟩ := events_frame env queue g
  have hs : (events env g queue).1.sdl_sound = some Res.sdl_sound := by rw [hf]; exact w8
  rw [tick_calls, updateText_calls, hT, hs, w3, w4, w6]
  refine ⟨T ++ (if exceedsX (events env g queue).1 = true
      then [Call.Mix_PlayChannel (some Res.sdl_sound)] else []) ++
    (if exceedsY (events env g queue).1 = true
      then [Call.Mix_PlayChannel (some Res.sdl_sound)] else []) ++
    [Call.SDL_RenderClear, Call.SDL_RenderTexture (some Res.background) none,
     Call.SDL_RenderTexture (some Res.text_image)
       (some (updateText (events env g queue).1).text_rect),
     Call.SDL_RenderTexture (some Res.sprite_image)
       (some (updateSprite keystate (updateText (events env g queue).1)).sprite_rect),
     Call.SDL_RenderPresent, Call.SDL_Delay 16], by simp only [List.append_assoc], ?_⟩
  simp only [List.all_append, hall, Bool.true_and]
  split_ifs <;> rfl

/-- The calls of any number of ticks of a state in which every member holds
its resource are frame calls, and the members keep their resources. -/
theorem ticksFrom_frameCalls (env : Env) (frames : Nat → Frame) (n i : Nat) (g : Game)
    (hh : g.handles = allHeld) :
    (ticksFrom env frames n i g).handles = allHeld ∧
    ∃ T, (ticksFrom env frames n i g).calls = g.calls ++ T ∧
      T.all Call.isFrameCall = true := by
  induction n with
  | zero => exact ⟨hh, [], by simp [ticksFrom], rfl⟩
  | succ n ih =>
    obtain ⟨hn, T, hT, hall⟩ := ih
    obtain ⟨T', hT', hall'⟩ := tick_frameCalls env (frames (i + n)).keystate
      (frames (i + n)).queue (ticksFrom env frames n i g) hn
    rw [ticksFrom_succ]
    refine ⟨by rw [tick_handles]; exact hn, T ++ T', by rw [hT', hT, List.append_assoc], ?_⟩
    rw [List.all_append, hall, hall']
    rfl

/-- When the loop ends, its result is the state after some number of
ticks. -/
theorem runLoop_some_ticks (env : Env) (frames : Nat → Frame) :
    ∀ (fuel i : Nat) (g g' : Game), runLoop env frames fuel i g = some g' →
      ∃ n, g' = ticksFrom env frames n i g := by
  intro fuel
  induction fuel with
  | zero =>
    intro i g g' h
    rw [runLoop] at h
    split_ifs at h
    injection h with h
    exact ⟨0, h.symm⟩
  | succ f ih =>
    intro i g g' h
    rw [runLoop] at h
    split_ifs at h
    · obtain ⟨n, hn⟩ := ih (i + 1) _ g' h
      exact ⟨n + 1, hn⟩
    · injection h with h
      exact ⟨0, h.symm⟩

/-- The teardown of a state in which every member holds its resource appends
`teardownTrace`. -/
theorem destructor_calls_allHeld (g : Game) (hh : g.handles = allHeld) :
    (destructor g).calls = g.calls ++ teardownTrace := by
  rw [handles_allHeld_iff] at hh
  obtain ⟨w1, w2, w3, w4, w5, w6, w7, w8, w9⟩ := hh
  rw [destructor_calls, w1, w2, w3, w4, w5, w6, w7, w8, w9]
  rfl

/-- A session whose startup succeeds: the startup, the start of the music,
any frame calls, and then a further trace that is in order once everything is
started and held.  Every resource is used while held, and the only call into
a subsystem not yet started is the constructor's. -/
theorem session_ordered (b : Bool) (T D : List Call) (hT : T.all Call.isFrameCall = true)
    (hD : resourcesOrdered [Res.music, Res.sdl_sound, Res.cpp_sound, Res.sprite_image,
        Res.text_image, Res.background, Res.icon_surf, Res.renderer, Res.window] D = true)
    (hD' : outOfOrder
        [Subsystem.device, Subsystem.mixer, Subsystem.text, Subsystem.display] D = []) :
    resourcesOrdered [] (startupTrace ++ [Call.Mix_PlayMusic b] ++ T ++ D) = true ∧
    outOfOrder [] (startupTrace ++ [Call.Mix_PlayMusic b] ++ T ++ D)
      = [Call.SDL_GetKeyboardState] := by
  obtain ⟨r1, r2⟩ := frameCalls_resources T hT
  obtain ⟨s1, s2⟩ := frameCalls_subsystems T hT
  have hr : resourcesOrdered [] (startupTrace ++ [Call.Mix_PlayMusic b]) = true := by
    cases b <;> rfl
  have hr' : (startupTrace ++ [Call.Mix_PlayMusic b]).foldl liveAfter []
      = [Res.music, Res.sdl_sound, Res.cpp_sound, Res.sprite_image, Res.text_image,
         Res.background, Res.icon_surf, Res.renderer, Res.window] := by
    cases b <;> rfl
  have hs : outOfOrder [] (startupTrace ++ [Call.Mix_PlayMusic b])
      = [Call.SDL_GetKeyboardState] := by
    cases b <;> rfl
  have hs' : (startupTrace ++ [Call.Mix_PlayMusic b]).foldl startedAfter []
      = [Subsystem.device, Subsystem.mixer, Subsystem.text, Subsystem.display] := by
    cases b <;> rfl
  have e1 : (startupTrace ++ [Call.Mix_PlayMusic b] ++ T).foldl liveAfter []
      = [Res.music, Res.sdl_sound, Res.cpp_sound, Res.sprite_image, Res.text_image,
         Res.background, Res.icon_surf, Res.renderer, Res.window] := by
    rw [List.foldl_append, hr', r2]
  have e2 : (startupTrace ++ [Call.Mix_PlayMusic b] ++ T).foldl startedAfter []
      = [Subsystem.device, Subsystem.mixer, Subsystem.text, Subsystem.display] := by
    rw [List.foldl_append, hs', s2]
  rw [resourcesOrdered_append, resourcesOrdered_append, e1, hr, hr', r1, hD,
    outOfOrder_append, outOfOrder_append, e2, hs, hs', s1, hD']
  exact ⟨rfl, rfl⟩

/-- The ordering facts of a startup and of the teardown after it, checked on
the environments in which exactly one step fails, and the trace and handles
of the startup in which none fails. -/
theorem startup_order_checked :
    (∀ K ∈ startupSteps,
      resourcesOrdered [] (init (failingAt (some K)) Game.new).game.calls = true ∧
      outOfOrder [] (init (failingAt (some K)) Game.new).game.calls
        = Call.SDL_GetKeyboardState ::
            (if some K = some Step.SDL_Init then [Call.SDL_GetError] else []) ∧
      resourcesOrdered [] (destructor (init (failingAt (some K)) Game.new).game).calls = true ∧
      outOfOrder [] (destructor (init (failingAt (some K)) Game.new).game).calls
        = earlyCalls (some K)) ∧
    (init (failingAt none) Game.new).game.view = (startupTrace, allHeld) := by
  decide

/-- A successful `init` leaves the trace `startupTrace` and every member
holding its resource. -/
theorem init_returned_view (env : Env) (g : Game)
    (h : init env Game.new = Outcome.returned g) :
    g.calls = startupTrace ∧ g.handles = allHeld := by
  have hv := init_view_of_returned env g h
  rw [startup_order_checked.2] at hv
  exact ⟨congrArg (fun s => s.1) hv, congrArg (fun s => s.2) hv⟩

/-- When `init` returns, no startup step has failed. -/
theorem firstFailing_of_returned (env : Env) (g : Game)
    (h : init env Game.new = Outcome.returned g) : firstFailing env = none := by
  cases hk : firstFailing env with
  | none => rfl
  | some K =>
    obtain ⟨g', hg'⟩ := init_throws_of_failure env K hk
    rw [hg'] at h
    cases h

/-- The state in which the loop of `run` is after any number of ticks. -/
theorem ticks_after_init (env : Env) (frames : Nat → Frame) (g : Game) (b : Bool) (n : Nat)
    (h : init env Game.new = Outcome.returned g) :
    (ticksFrom env frames n 0 (g.call (Call.Mix_PlayMusic b))).handles = allHeld ∧
    ∃ T, (ticksFrom env frames n 0 (g.call (Call.Mix_PlayMusic b))).calls
        = startupTrace ++ [Call.Mix_PlayMusic b] ++ T ∧ T.all Call.isFrameCall = true := by
  obtain ⟨hc, hh⟩ := init_returned_view env g h
  obtain ⟨h1, T, hT, hall⟩ := ticksFrom_frameCalls env frames n 0
    (g.call (Call.Mix_PlayMusic b)) hh
  rw [call_calls, hc] at hT
  exact ⟨h1, T, hT, hall⟩

/-- C13 (as stated, refuted): in the session in which nothing fails the first
call of the trace is the constructor's `SDL_GetKeyboardState`, made before
`SDL_Init`.  When `SDL_Init` fails, its failure branch calls `SDL_GetError`
and the destructor halts the channels and the music, closes the audio device
and quits the mixer, the text subsystem and SDL, none of which was started.
When `TTF_Init` fails the destructor still calls into the mixer, the audio
device and the text subsystem, none of which was started. -/
theorem use_before_initialisation :
    (∃ e, main exampleEnv exampleFrames 3 = some e ∧
      e.game.calls.take 2 = [Call.SDL_GetKeyboardState, Call.SDL_Init true] ∧
      outOfOrder [] e.game.calls = [Call.SDL_GetKeyboardState]) ∧
    (∃ e, main (failingAt (some Step.SDL_Init)) exampleFrames 3 = some e ∧
      e.game.calls = [Call.SDL_GetKeyboardState, Call.SDL_Init false, Call.SDL_GetError,
        Call.Mix_HaltChannel, Call.Mix_HaltMusic, Call.Mix_CloseAudio, Call.Mix_Quit,
        Call.TTF_Quit, Call.SDL_Quit] ∧
      outOfOrder [] e.game.calls = [Call.SDL_GetKeyboardState, Call.SDL_GetError,
        Call.Mix_HaltChannel, Call.Mix_HaltMusic, Call.Mix_CloseAudio, Call.Mix_Quit,
        Call.TTF_Quit, Call.SDL_Quit]) ∧
    (∃ e, main (failingAt (some Step.TTF_Init)) exampleFrames 3 = some e ∧
      e.game.calls = [Call.SDL_GetKeyboardState, Call.SDL_Init true, Call.TTF_Init false,
        Call.SDL_GetError, Call.Mix_HaltChannel, Call.Mix_HaltMusic, Call.Mix_CloseAudio,
        Call.Mix_Quit, Call.TTF_Quit, Call.SDL_Quit] ∧
      outOfOrder [] e.game.calls = [Call.SDL_GetKeyboardState, Call.Mix_HaltChannel,
        Call.Mix_HaltMusic, Call.Mix_CloseAudio, Call.Mix_Quit, Call.TTF_Quit]) := by
  decide

/-- C13 (amended): on every execution path no owned resource is handed to a
call before the step that acquires it has succeeded or after its release, and
the calls made into a subsystem before its init has succeeded are exactly
these: the constructor's `SDL_GetKeyboardState`, the first call of every
trace; the `SDL_GetError` of the failure branch when `SDL_Init` itself fails;
and, after a startup in which `SDL_Init`, `TTF_Init`, `Mix_Init` or
`Mix_OpenAudio` fails, the calls of the destructor into the subsystems that
were not started (`earlyCalls`).  Every other call of `initSdl`, `loadMedia`,
`run`, the ticks and the teardown comes after the init of its subsystem.
Whenever `run` is reached from `main` every member holds its resource, and it
still does after every tick. -/
theorem use_after_initialisation (env : Env) (frames : Nat → Frame) :
    Game.new.calls = [Call.SDL_GetKeyboardState] ∧
    (resourcesOrdered [] (init env Game.new).game.calls = true ∧
      outOfOrder [] (init env Game.new).game.calls
        = Call.SDL_GetKeyboardState ::
            (if firstFailing env = some Step.SDL_Init then [Call.SDL_GetError] else [])) ∧
    (∀ g, init env Game.new = Outcome.returned g →
      g.handles = allHeld ∧
      ∀ n,
        (ticksFrom env frames n 0 (g.call (Call.Mix_PlayMusic true))).handles = allHeld ∧
        resourcesOrdered []
          (ticksFrom env frames n 0 (g.call (Call.Mix_PlayMusic true))).calls = true ∧
        outOfOrder []
          (ticksFrom env frames n 0 (g.call (Call.Mix_PlayMusic true))).calls
          = [Call.SDL_GetKeyboardState]) ∧
    (∀ fuel e, main env frames fuel = some e →
      resourcesOrdered [] e.game.calls = true ∧
      outOfOrder [] e.game.calls = earlyCalls (firstFailing env)) := by
  have hticks : ∀ g, init env Game.new = Outcome.returned g → ∀ n,
      (ticksFrom env frames n 0 (g.call (Call.Mix_PlayMusic true))).handles = allHeld ∧
      resourcesOrdered []
        (ticksFrom env frames n 0 (g.call (Call.Mix_PlayMusic true))).calls = true ∧
      outOfOrder []
        (ticksFrom env frames n 0 (g.call (Call.Mix_PlayMusic true))).calls
        = [Call.SDL_GetKeyboardState] := by
    intro g h n
    obtain ⟨hh, T, hT, hall⟩ := ticks_after_init env frames g true n h
    have ho := session_ordered true T [] hall rfl rfl
    rw [List.append_nil] at ho
    rw [hT]
    exact ⟨hh, ho⟩
  refine ⟨rfl, ?_, fun g h => ⟨(init_returned_view env g h).2, hticks g h⟩, ?_⟩
  · cases hk : firstFailing env with
    | none =>
      obtain ⟨g, hg⟩ := init_returns_of_no_failure env hk
      rw [hg]
      show resourcesOrdered [] g.calls = true ∧ outOfOrder [] g.calls = _
      rw [(init_returned_view env g hg).1]
      exact ⟨by decide, by decide⟩
    | some K =>
      obtain ⟨_, hc, _⟩ := init_failing_at env K hk
      obtain ⟨a, b, _, _⟩ := startup_order_checked.1 K (List.mem_of_find?_eq_some hk)
      rw [hc]
      exact ⟨a, b⟩
  · intro fuel e hmain
    cases hi : init env Game.new with
    | threw msg g =>
      rw [main_of_init_threw env frames fuel msg g hi] at hmain
      injection hmain with hmain
      subst hmain
      show resourcesOrdered [] (destructor g).calls = true ∧
        outOfOrder [] (destructor g).calls = earlyCalls (firstFailing env)
      cases hk : firstFailing env with
      | none =>
        obtain ⟨g', hg'⟩ := init_returns_of_no_failure env hk
        rw [hg'] at hi
        cases hi
      | some K =>
        obtain ⟨_, _, hd⟩ := init_failing_at env K hk
        rw [hi] at hd
        obtain ⟨_, _, c, d⟩ := startup_order_checked.1 K (List.mem_of_find?_eq_some hk)
        have hd' : (destructor g).calls
            = (destructor (init (failingAt (some K)) Game.new).game).calls := hd
        rw [hd']
        exact ⟨c, d⟩
    | returned g =>
      rw [firstFailing_of_returned env g hi]
      cases hm : env.fails Step.Mix_PlayMusic with
      | true =>
        rw [main_of_run_threw env frames fuel g _ _ hi (run_of_music_fails env frames fuel g hm)]
          at hmain
        injection hmain with hmain
        subst hmain
        obtain ⟨hc, hh⟩ := init_returned_view env g hi
        have hh' : ((g.call (Call.Mix_PlayMusic false)).call Call.SDL_GetError).handles
            = allHeld := hh
        have ho := session_ordered false [] ([Call.SDL_GetError] ++ teardownTrace) rfl
          (by decide) (by decide)
        show resourcesOrdered []
            (destructor ((g.call (Call.Mix_PlayMusic false)).call Call.SDL_GetError)).calls
            = true ∧
          outOfOrder []
            (destructor ((g.call (Call.Mix_PlayMusic false)).call Call.SDL_GetError)).calls
            = earlyCalls none
        rw [destructor_calls_allHeld _ hh', call_calls, call_calls, hc]
        rw [List.append_nil, ← List.append_assoc] at ho
        exact ho
      | false =>
        have hr := run_of_music_plays env frames fuel g hm
        cases hl : runLoop env frames fuel 0 (g.call (Call.Mix_PlayMusic true)) with
        | none =>
          rw [hl] at hr
          rw [main_of_run_none env frames fuel g hi hr] at hmain
          cases hmain
        | some g' =>
          rw [hl] at hr
          rw [main_of_run_returned env frames fuel g g' hi hr] at hmain
          injection hmain with hmain
          subst hmain
          obtain ⟨n, hn⟩ := runLoop_some_ticks env frames fuel 0 _ g' hl
          obtain ⟨hh, T, hT, hall⟩ := ticks_after_init env frames g true n hi
          rw [← hn] at hh hT
          have ho := session_ordered true T teardownTrace hall (by decide) (by decide)
          show resourcesOrdered [] (destructor g').calls = true ∧
            outOfOrder [] (destructor g').calls = earlyCalls none
          rw [destructor_calls_allHeld _ hh, hT]
          exact ho

/-- Witness of `use_after_initialisation`: in the session in which nothing
fails and the third batch holds the quit event, `run` is reached with every
member holding its resource, every resource is used while held, and the only
call made before the init of its subsystem is the constructor's. -/
theorem use_after_initialisation_witness :
    (∃ g, init exampleEnv Game.new = Outcome.returned g ∧ g.handles = allHeld) ∧
    (∃ e, main exampleEnv exampleFrames 3 = some e ∧
      resourcesOrdered [] e.game.calls = true ∧
      outOfOrder [] e.game.calls = [Call.SDL_GetKeyboardState]) :=
  ⟨⟨(init exampleEnv Game.new).game, rfl,
      ((use_after_initialisation exampleEnv exampleFrames).2.2.1 _ rfl).1⟩,
    ⟨(main exampleEnv exampleFrames 3).get (by decide), (Option.some_get _).symm,
      ((use_after_initialisation exampleEnv exampleFrames).2.2.2 3 _
        (Option.some_get _).symm).1,
      ((use_after_initialisation exampleEnv exampleFrames).2.2.2 3 _
        (Option.some_get _).symm).2⟩⟩

/-! ## The previous stage is the final stage without the sounds -/

theorem erasePlay_append (l1 l2 : List Call) :
    erasePlay (l1 ++ l2) = erasePlay l1 ++ erasePlay l2 :=
  List.filter_append l1 l2

theorem toVideo07_call_play (g : Game) (chunk : Option Res) :
    (g.call (Call.Mix_PlayChannel chunk)).toVideo07 = g.toVideo07 := by
  simp [Game.toVideo07, Game.call, erasePlay, Call.isPlay]

theorem toVideo07_call (g : Game) (c : Call) (h : c.isPlay = false) :
    (g.call c).toVideo07 = g.toVideo07.call c := by
  simp [Game.toVideo07, Game.call, Video07.Game.call, erasePlay, h]

theorem toVideo07_textMoveX (g : Game) :
    (textMoveX g).toVideo07 = Video07.textMoveX g.toVideo07 := rfl

theorem toVideo07_textMoveY (g : Game) :
    (textMoveY g).toVideo07 = Video07.textMoveY g.toVideo07 := rfl

theorem toVideo07_textCheckX (g : Game) :
    (textCheckX g).toVideo07 = Video07.textCheckX g.toVideo07 := by
  unfold textCheckX Video07.textCheckX
  have e1 : g.toVideo07.text_rect = g.text_rect := rfl
  rw [e1]
  split_ifs
  · rw [toVideo07_call_play]; rfl
  · rw [toVideo07_call_play]; rfl
  · rfl

theorem toVideo07_textCheckY (g : Game) :
    (textCheckY g).toVideo07 = Video07.textCheckY g.toVideo07 := by
  unfold textCheckY Video07.textCheckY
  have e1 : g.toVideo07.text_rect = g.text_rect := rfl
  rw [e1]
  split_ifs
  · rw [toVideo07_call_play]; rfl
  · rw [toVideo07_call_play]; rfl
  · rfl

/-- `updateText` of the final stage, its play requests erased, is
`updateText` of Video07. -/
theorem toVideo07_updateText (g : Game) :
    (updateText g).toVideo07 = Video07.updateText g.toVideo07 := by
  unfold updateText Video07.updateText
  rw [toVideo07_textCheckY, toVideo07_textCheckX, toVideo07_textMoveY, toVideo07_textMoveX]

theorem toVideo07_spriteLeft (keystate : Nat → Bool) (g : Game) :
    (spriteLeft keystate g).toVideo07 = Video07.spriteLeft keystate g.toVideo07 := by
  unfold spriteLeft Video07.spriteLeft
  split_ifs <;> rfl

theorem toVideo07_spriteRight (keystate : Nat → Bool) (g : Game) :
    (spriteRight keystate g).toVideo07 = Video07.spriteRight keystate g.toVideo07 := by
  unfold spriteRight Video07.spriteRight
  split_ifs <;> rfl

theorem toVideo07_spriteUp (keystate : Nat → Bool) (g : Game) :
    (spriteUp keystate g).toVideo07 = Video07.spriteUp keystate g.toVideo07 := by
  unfold spriteUp Video07.spriteUp
  split_ifs <;> rfl

theorem toVideo07_spriteDown (keystate : Nat → Bool) (g : Game) :
    (spriteDown keystate g).toVideo07 = Video07.spriteDown keystate g.toVideo07 := by
  unfold spriteDown Video07.spriteDown
  split_ifs <;> rfl

/-- `updateSprite` of the final stage is `updateSprite` of Video07. -/
theorem toVideo07_updateSprite (keystate : Nat → Bool) (g : Game) :
    (updateSprite keystate g).toVideo07 = Video07.updateSprite keystate g.toVideo07 := by
  unfold updateSprite Video07.updateSprite
  rw [toVideo07_spriteDown, toVideo07_spriteUp, toVideo07_spriteRight, toVideo07_spriteLeft]

/-- `renderColor` of the final stage, its play request erased, is
`renderColor` of Video07. -/
theorem toVideo07_renderColor (env : Env) (g : Game) :
    (renderColor env g).toVideo07 = Video07.renderColor env g.toVideo07 := by
  unfold renderColor Video07.renderColor
  simp only []
  rw [toVideo07_call_play, toVideo07_call _ (Call.SDL_SetRenderDrawColor _ _ _ 255) rfl]
  rfl

theorem toVideo07_handleEvent (env : Env) (g : Game) (event : SDL_Event) :
    (handleEvent env g event).toVideo07 = Video07.handleEvent env g.toVideo07 event := by
  unfold handleEvent Video07.handleEvent
  split_ifs
  · rfl
  · rfl
  · exact toVideo07_renderColor env g
  · rfl
  · rfl

/-- `events` of the final stage, its play requests erased, is `events` of
Video07, and both leave the same queue. -/
theorem toVideo07_events (env : Env) (queue : List SDL_Event) (g : Game) :
    (events env g queue).1.toVideo07 = (Video07.events env g.toVideo07 queue).1 ∧
    (events env g queue).2 = (Video07.events env g.toVideo07 queue).2 := by
  induction queue generalizing g with
  | nil => exact ⟨rfl, rfl⟩
  | cons e q ih =>
    rw [events, Video07.events, ← toVideo07_handleEvent]
    exact ih (handleEvent env g e)

theorem ofVideo07_toVideo07 (v : Video07.Game) (h : v.calls.all (fun c => !c.isPlay) = true) :
    (Game.ofVideo07 v).toVideo07 = v := by
  have hc : erasePlay v.calls = v.calls := by
    unfold erasePlay
    rw [List.filter_eq_self]
    intro c hc
    exact List.all_eq_true.mp h c hc
  cases v
  simp only [Game.ofVideo07, Game.toVideo07] at hc ⊢
  rw [hc]

/-- C17: the previous stage is the final stage without its sounds.  For every
state of the final stage, event batch and keyboard state, the state after
`events`, `updateText` and `updateSprite` of the final stage, seen as a state
of Video07 (the shared members, the trace with the play requests erased), is
the state after `events`, `updateText` and `updateSprite` of Video07 from the
same state seen as a state of Video07, and the two leave the same queue; in
particular run flag, text rectangle, text velocity, sprite rectangle and
generator position (three draws per colour resample) agree, and the calls the
final stage adds to the trace, play requests erased, are the calls Video07
adds.  Every state of Video07 whose trace holds no play request is seen this
way.  The final stage does more: from the initial state a Space press makes
it request a sound, which Video07 never does. -/
theorem video07_is_final_without_sounds :
    (∀ (env : Env) (g : Game) (queue : List SDL_Event) (keystate : Nat → Bool),
      (update keystate (events env g queue).1).toVideo07
        = Video07.update keystate (Video07.events env g.toVideo07 queue).1 ∧
      (events env g queue).2 = (Video07.events env g.toVideo07 queue).2 ∧
      (updateText g).toVideo07 = Video07.updateText g.toVideo07 ∧
      (updateSprite keystate g).toVideo07 = Video07.updateSprite keystate g.toVideo07 ∧
      (renderColor env g).toVideo07 = Video07.renderColor env g.toVideo07 ∧
      (events env g queue).1.toVideo07 = (Video07.events env g.toVideo07 queue).1) ∧
    (∀ v : Video07.Game, v.calls.all (fun c => !c.isPlay) = true →
      ∃ g : Game, g.toVideo07 = v) ∧
    (∀ (env : Env) (v : Video07.Game) (queue : List SDL_Event) (keystate : Nat → Bool),
      v.calls.all (fun c => !c.isPlay) = true →
      (Video07.update keystate (Video07.events env v queue).1).calls.all
        (fun c => !c.isPlay) = true) ∧
    (renderColor exampleEnv Game.new).calls
      = (Video07.renderColor exampleEnv Game.new.toVideo07).calls ++
        [Call.Mix_PlayChannel none] := by
  refine ⟨fun env g queue keystate => ?_, fun v h => ⟨(Game.ofVideo07 v), ofVideo07_toVideo07 v h⟩,
    fun env v queue keystate h => ?_, by decide⟩
  · obtain ⟨h1, h2⟩ := toVideo07_events env queue g
    refine ⟨?_, h2, toVideo07_updateText g, toVideo07_updateSprite keystate g,
      toVideo07_renderColor env g, h1⟩
    unfold update Video07.update
    rw [toVideo07_updateSprite, toVideo07_updateText, h1]
  · rw [← ofVideo07_toVideo07 v h, ← (toVideo07_events env queue (Game.ofVideo07 v)).1]
    unfold Video07.update
    rw [← toVideo07_updateText, ← toVideo07_updateSprite]
    show (erasePlay _).all (fun c => !c.isPlay) = true
    unfold erasePlay
    rw [List.all_eq_true]
    intro c hc
    exact (List.mem_filter.mp hc).2

end SDL3Game
